import Mathlib

/-!
# PingAI: protocol adapters, check orchestrator, batch runner and report builder

A shallow embedding of `internal/protocol/protocol.go`, `internal/checker/checker.go`,
`internal/checker/report.go` and the batch part of `app.go`.

Modelling conventions

* A Go `string` is its sequence of bytes (`GoString`); `len` is `List.length`, `s[:n]` is
  `List.take n`, `s[n:]` is `List.drop n`, `+` is `++`.
* Go `int` values that are only compared or copied are `Int`; sums are reduced with `wrapInt`.
* The network is a `Transport`: the outcome of one HTTP round trip, as a function of the requests
  already issued and of the request itself. Every function that performs a round trip takes the
  list of requests issued so far and returns it extended.
* `encoding/json` is a parameter (`Json`): one decoder per Go struct the program unmarshals into.
* Readings of the wall clock are parameters (`Clock`).
-/

namespace PingAI

/-! ## Go strings -/

/-- A Go string: a sequence of bytes. -/
abbrev GoString := List UInt8

/-- UTF-8 encoding of one code point. -/
def utf8 (c : Char) : GoString :=
  let n := c.toNat
  if n < 0x80 then [UInt8.ofNat n]
  else if n < 0x800 then [UInt8.ofNat (0xC0 + n / 64), UInt8.ofNat (0x80 + n % 64)]
  else if n < 0x10000 then
    [UInt8.ofNat (0xE0 + n / 4096), UInt8.ofNat (0x80 + n / 64 % 64), UInt8.ofNat (0x80 + n % 64)]
  else
    [UInt8.ofNat (0xF0 + n / 262144), UInt8.ofNat (0x80 + n / 4096 % 64),
     UInt8.ofNat (0x80 + n / 64 % 64), UInt8.ofNat (0x80 + n % 64)]

/-- The Go string denoted by a string literal of the source. -/
def go (s : String) : GoString := s.toList.flatMap utf8

/-- Rendering of an integer by the verb `%d` of `fmt.Sprintf`. -/
def fmtInt (n : Int) : GoString := go (toString n)

/-- Two's-complement reduction of an integer to the 64-bit range of Go's `int`. -/
def wrapInt (n : Int) : Int := (n + 2 ^ 63) % 2 ^ 64 - 2 ^ 63

/-- Byte sequences that `strings.TrimSpace` removes: the six ASCII white-space bytes and the
UTF-8 encodings of the other code points for which `unicode.IsSpace` holds (U+0085, U+00A0,
U+1680, U+2000..U+200A, U+2028, U+2029, U+202F, U+205F, U+3000). -/
def spaceRunes : List GoString :=
  [[0x09], [0x0A], [0x0B], [0x0C], [0x0D], [0x20],
   [0xC2, 0x85], [0xC2, 0xA0], [0xE1, 0x9A, 0x80],
   [0xE2, 0x80, 0x80], [0xE2, 0x80, 0x81], [0xE2, 0x80, 0x82], [0xE2, 0x80, 0x83],
   [0xE2, 0x80, 0x84], [0xE2, 0x80, 0x85], [0xE2, 0x80, 0x86], [0xE2, 0x80, 0x87],
   [0xE2, 0x80, 0x88], [0xE2, 0x80, 0x89], [0xE2, 0x80, 0x8A],
   [0xE2, 0x80, 0xA8], [0xE2, 0x80, 0xA9], [0xE2, 0x80, 0xAF], [0xE2, 0x81, 0x9F],
   [0xE3, 0x80, 0x80]]

/-- Removes from the front of `s`, at most `fuel` times, a leading member of `pats`. -/
def trimFront (pats : List GoString) : Nat → GoString → GoString
  | 0, s => s
  | fuel + 1, s =>
    match pats.find? (fun p => p.isPrefixOf s) with
    | some p => if p.length = 0 then s else trimFront pats fuel (s.drop p.length)
    | none => s

/-- Go `strings.TrimSpace`: leading white space is removed, then trailing white space. -/
def TrimSpace (s : GoString) : GoString :=
  let l := trimFront spaceRunes s.length s
  (trimFront (spaceRunes.map List.reverse) l.length l.reverse).reverse

/-- Go `strings.HasPrefix`. -/
def HasPrefix (s pre : GoString) : Bool := pre.isPrefixOf s

/-- Go `strings.TrimPrefix`. -/
def TrimPrefix (s pre : GoString) : GoString :=
  if HasPrefix s pre then s.drop pre.length else s

/-- Go `strings.TrimSuffix`. -/
def TrimSuffix (s suf : GoString) : GoString :=
  if suf.isSuffixOf s then s.take (s.length - suf.length) else s

/-- Go `strings.Contains`. -/
def Contains (s sub : GoString) : Bool := s.tails.any (fun t => sub.isPrefixOf t)

/-- Go `strings.LastIndex`: the last position at which `sub` occurs in `s`, or `-1`. -/
def LastIndex (s sub : GoString) : Int :=
  match (List.range (s.length + 1)).reverse.find? (fun i => sub.isPrefixOf (s.drop i)) with
  | some i => (i : Int)
  | none => -1

/-- Go `strings.Split(s, sep)` for a separator `sep` of one byte. -/
def Split : GoString → UInt8 → List GoString
  | [], _ => [[]]
  | c :: cs, sep =>
    if c = sep then [] :: Split cs sep
    else
      match Split cs sep with
      | [] => [[c]]
      | l :: ls => (c :: l) :: ls

/-- Go `strings.Join`. -/
def Join : List GoString → GoString → GoString
  | [], _ => []
  | [a], _ => a
  | a :: b :: rest, sep => a ++ sep ++ Join (b :: rest) sep

/-! ## internal/protocol: canonical wire model -/

namespace protocol

/-- Protocol identifier (`type Protocol string`). -/
abbrev Protocol := GoString

def ProtocolOpenAI : Protocol := go "openai"
def ProtocolAnthropic : Protocol := go "anthropic"
def ProtocolGemini : Protocol := go "gemini"

structure Message where
  Role : GoString
  Content : GoString
deriving DecidableEq, Repr

structure ChatRequest where
  BaseURL : GoString
  APIKey : GoString
  Model : GoString
  Messages : List Message
  Stream : Bool := false
deriving DecidableEq, Repr

/-- Field defaults are the zero values a Go composite literal leaves in place. -/
structure ChatResponse where
  Content : GoString := []
  PromptTokens : Int := 0
  CompTokens : Int := 0
  StatusCode : Int := 0
  RawBody : GoString := []
  Error : GoString := []
deriving DecidableEq, Repr

/-- A stream callback `func(chunk string, isFirst bool)`; `σ` is the state of the variables its
closure captures. -/
abbrev StreamCallback (σ : Type) := GoString → Bool → σ → σ

/-! ### HTTP and JSON, the two libraries the adapters stand on -/

/-- One entry of a Gemini `contents` array: a role and the texts of its parts. -/
structure GeminiContent where
  role : GoString
  parts : List GoString
deriving DecidableEq, Repr

/-- The value an adapter hands to `json.Marshal` as request body. `stream` is `none` when the
map has no `"stream"` key. -/
inductive Payload where
  | empty
  | openai (model : GoString) (messages : List Message) (stream : Option Bool)
  | anthropic (model : GoString) (messages : List Message) (max_tokens : Int)
      (stream : Option Bool)
  | gemini (contents : List GeminiContent)
deriving DecidableEq, Repr

structure HttpRequest where
  Method : GoString
  URL : GoString
  Header : List (GoString × GoString)
  Body : Payload
deriving DecidableEq, Repr

/-- A response body as an `io.Reader`: `reads` are the data of the successive `Read` calls that
report no error, `last` the data of the call that reports one (`io.EOF` included). -/
structure Reader where
  reads : List GoString
  last : GoString
deriving DecidableEq, Repr

/-- Go `io.ReadAll` with its error dropped: everything read up to the first error. -/
def ReadAll (r : Reader) : GoString := r.reads.flatten ++ r.last

structure HttpResponse where
  StatusCode : Int
  Body : Reader
deriving DecidableEq, Repr

/-- Outcome of `http.NewRequestWithContext` followed by `httpClient.Do`: an error text when
either fails (both make the adapter return `nil, err`), the response otherwise. The first
argument lists the requests issued before this one. -/
abbrev Transport := List HttpRequest → HttpRequest → Except GoString HttpResponse

/-- Token counts of a `usage` object. -/
structure Usage where
  PromptTokens : Int
  CompletionTokens : Int
deriving DecidableEq, Repr

/-- Target of `json.Unmarshal` in `OpenAIAdapter.Chat`; `Choices` holds
`choices[i].message.content`, `Error` holds `error.message`. -/
structure OpenAIChatResult where
  Choices : List GoString
  Usage : Option Usage
  Error : Option GoString
deriving DecidableEq, Repr

/-- Target of `json.Unmarshal` in `AnthropicAdapter.Chat`; `Content` holds `content[i].text`,
`Usage` holds `input_tokens` and `output_tokens`. -/
structure AnthropicChatResult where
  Content : List GoString
  Usage : Option Usage
  Error : Option GoString
deriving DecidableEq, Repr

/-- Target of `json.Unmarshal` in `GeminiAdapter.Chat`; `Candidates` holds
`candidates[i].content.parts[j].text`, `UsageMetadata` holds `promptTokenCount` and
`candidatesTokenCount`. -/
structure GeminiChatResult where
  Candidates : List (List GoString)
  UsageMetadata : Option Usage
  Error : Option GoString
deriving DecidableEq, Repr

/-- The `delta` object of an Anthropic stream event (`Type_` is the Go field `Type`). -/
structure AnthropicDelta where
  Type_ : GoString
  Text : GoString
deriving DecidableEq, Repr

/-- Target of `json.Unmarshal` in `readAnthropicSSE`. -/
structure AnthropicEvent where
  Type_ : GoString
  Delta : Option AnthropicDelta
deriving DecidableEq, Repr

/-- The decoders of `encoding/json` the package uses, one per target struct; `.error` carries
the text of the error `json.Unmarshal` returns. -/
structure Json where
  /-- Decoder into the result struct of `OpenAIAdapter.Chat`. -/
  openAIChat : GoString → Except GoString OpenAIChatResult
  /-- Decoder into the result struct of `AnthropicAdapter.Chat`. -/
  anthropicChat : GoString → Except GoString AnthropicChatResult
  /-- Decoder into the result struct of `GeminiAdapter.Chat`. -/
  geminiChat : GoString → Except GoString GeminiChatResult
  /-- Decoder of a model listing, giving `data[i].id` (OpenAI and Anthropic). -/
  modelData : GoString → Except GoString (List GoString)
  /-- Decoder of a Gemini model listing, giving `models[i].name`. -/
  geminiModels : GoString → Except GoString (List GoString)
  /-- Decoder of an OpenAI stream chunk, giving `choices[i].delta.content`. -/
  openAIChunk : GoString → Except GoString (List GoString)
  /-- Decoder of an Anthropic stream event. -/
  anthropicEvent : GoString → Except GoString AnthropicEvent
  /-- Decoder of a Gemini stream chunk, giving `candidates[i].content.parts[j].text`. -/
  geminiChunk : GoString → Except GoString (List (List GoString))

/-- The adapter types implementing the interface `Adapter`. -/
inductive Adapter where
  | OpenAIAdapter
  | AnthropicAdapter
  | GeminiAdapter
deriving DecidableEq, Repr

/-- Go `GetAdapter`. -/
def GetAdapter (p : Protocol) : Adapter :=
  if p = ProtocolAnthropic then Adapter.AnthropicAdapter
  else if p = ProtocolGemini then Adapter.GeminiAdapter
  else Adapter.OpenAIAdapter

/-- Go `truncate` of package protocol; `max` is a positive constant at every call. -/
def truncate (s : GoString) (max : Nat) : GoString :=
  let s := TrimSpace s
  if s.length ≤ max then s else s.take max ++ go "..."

/-! ### Streaming decoders -/

/-- Local variables of a streaming decoder, with the state `user` of the callback's closure. -/
structure SSEState (σ : Type) where
  fullContent : GoString
  chunkCount : Int
  isFirst : Bool
  user : σ

/-- Body of `if text != ""` in the decoders: append the delta and call the callback.
`chunkCount` is a variable of `readSSE` alone, which never reads it. -/
def emit {σ : Type} (cb : Option (StreamCallback σ)) (st : SSEState σ) (text : GoString) :
    SSEState σ :=
  if text ≠ [] then
    let st := { st with fullContent := st.fullContent ++ text, chunkCount := st.chunkCount + 1 }
    match cb with
    | some f => { st with user := f text st.isFirst st.user, isFirst := false }
    | none => st
  else st

/-- One iteration of `for _, line := range lines` in `readSSE`. -/
def readSSE.line {σ : Type} (js : Json) (cb : Option (StreamCallback σ)) (st : SSEState σ)
    (line : GoString) : SSEState σ :=
  let line := TrimSpace line
  if !HasPrefix line (go "data: ") then st
  else
    let data := TrimPrefix line (go "data: ")
    if data = go "[DONE]" then st
    else
      match js.openAIChunk data with
      | .ok (text :: _) => emit cb st text
      | _ => st

/-- One iteration of `for _, line := range lines` in `readAnthropicSSE`. -/
def readAnthropicSSE.line {σ : Type} (js : Json) (cb : Option (StreamCallback σ))
    (st : SSEState σ) (line : GoString) : SSEState σ :=
  let line := TrimSpace line
  if !HasPrefix line (go "data: ") then st
  else
    let data := TrimPrefix line (go "data: ")
    match js.anthropicEvent data with
    | .ok event =>
      match event.Delta with
      | some delta => emit cb st delta.Text
      | none => st
    | .error _ => st

/-- One iteration of `for _, line := range lines` in `readGeminiSSE`. -/
def readGeminiSSE.line {σ : Type} (js : Json) (cb : Option (StreamCallback σ))
    (st : SSEState σ) (line : GoString) : SSEState σ :=
  let line := TrimSpace line
  if !HasPrefix line (go "data: ") then st
  else
    let data := TrimPrefix line (go "data: ")
    match js.geminiChunk data with
    | .ok (candidate :: _) => candidate.foldl (emit cb) st
    | _ => st

/-- The loop `for { n, err := reader.Read(buf); ... }` shared by the three decoders: every read
with `n > 0` is split on newlines and its lines are handled in order; the read that reports an
error is the last one handled. -/
def readLoop {σ : Type} (line : SSEState σ → GoString → SSEState σ) (reader : Reader)
    (st : SSEState σ) : SSEState σ :=
  (reader.reads ++ [reader.last]).foldl
    (fun st data => if data.length > 0 then (Split data 0x0A).foldl line st else st) st

/-- Go `readSSE`; its error result is always nil. -/
def readSSE {σ : Type} (js : Json) (reader : Reader) (cb : Option (StreamCallback σ)) (s : σ) :
    ChatResponse × σ :=
  let st := readLoop (readSSE.line js cb) reader ⟨[], 0, true, s⟩
  ({ Content := st.fullContent, StatusCode := 200 }, st.user)

/-- Go `readAnthropicSSE`; its error result is always nil. -/
def readAnthropicSSE {σ : Type} (js : Json) (reader : Reader) (cb : Option (StreamCallback σ))
    (s : σ) : ChatResponse × σ :=
  let st := readLoop (readAnthropicSSE.line js cb) reader ⟨[], 0, true, s⟩
  ({ Content := st.fullContent, StatusCode := 200 }, st.user)

/-- Go `readGeminiSSE`; its error result is always nil. -/
def readGeminiSSE {σ : Type} (js : Json) (reader : Reader) (cb : Option (StreamCallback σ))
    (s : σ) : ChatResponse × σ :=
  let st := readLoop (readGeminiSSE.line js cb) reader ⟨[], 0, true, s⟩
  ({ Content := st.fullContent, StatusCode := 200 }, st.user)

/-- The soft failure every adapter returns when `resp.StatusCode != 200`. -/
def httpFailure (resp : HttpResponse) : ChatResponse :=
  { StatusCode := resp.StatusCode, RawBody := truncate (ReadAll resp.Body) 300,
    Error := go "HTTP " ++ fmtInt resp.StatusCode }

/-! ### OpenAI adapter -/

/-- The request `OpenAIAdapter.Chat` (`stream = none`) and `OpenAIAdapter.ChatStream`
(`stream = some true`) build. -/
def OpenAIAdapter.chatRequest (req : ChatRequest) (stream : Option Bool) : HttpRequest :=
  let msgs := req.Messages.map (fun m => ({ Role := m.Role, Content := m.Content } : Message))
  { Method := go "POST"
    URL := TrimSuffix req.BaseURL (go "/") ++ go "/chat/completions"
    Header := [(go "Content-Type", go "application/json"),
               (go "Authorization", go "Bearer " ++ req.APIKey)] ++
              (if stream.isSome then [(go "Accept", go "text/event-stream")] else [])
    Body := Payload.openai req.Model msgs stream }

/-- Go `OpenAIAdapter.Chat`. -/
def OpenAIAdapter.Chat (js : Json) (tr : Transport) (req : ChatRequest)
    (log : List HttpRequest) : Except GoString ChatResponse × List HttpRequest :=
  let httpReq := OpenAIAdapter.chatRequest req none
  let out : Except GoString ChatResponse :=
    match tr log httpReq with
    | .error err => .error err
    | .ok resp =>
      let respBody := ReadAll resp.Body
      if resp.StatusCode ≠ 200 then .ok (httpFailure resp)
      else
        match js.openAIChat respBody with
        | .error _ =>
          .ok { StatusCode := resp.StatusCode, Error := go "JSON parse error",
                RawBody := truncate respBody 300 }
        | .ok result =>
          match result.Error with
          | some e => .ok { StatusCode := resp.StatusCode, Error := e }
          | none =>
            match result.Choices with
            | [] => .ok { StatusCode := resp.StatusCode, Error := go "empty choices" }
            | content :: _ =>
              let cr : ChatResponse := { Content := content, StatusCode := 200 }
              match result.Usage with
              | some u =>
                .ok { cr with PromptTokens := u.PromptTokens, CompTokens := u.CompletionTokens }
              | none => .ok cr
  (out, log ++ [httpReq])

/-- Go `OpenAIAdapter.ChatStream`. -/
def OpenAIAdapter.ChatStream {σ : Type} (js : Json) (tr : Transport) (req : ChatRequest)
    (cb : Option (StreamCallback σ)) (s : σ) (log : List HttpRequest) :
    Except GoString ChatResponse × σ × List HttpRequest :=
  let httpReq := OpenAIAdapter.chatRequest req (some true)
  match tr log httpReq with
  | .error err => (.error err, s, log ++ [httpReq])
  | .ok resp =>
    if resp.StatusCode ≠ 200 then (.ok (httpFailure resp), s, log ++ [httpReq])
    else
      let r := readSSE js resp.Body cb s
      (.ok r.1, r.2, log ++ [httpReq])

/-- The `GET .../models` request of `OpenAIAdapter.ListModels` and
`OpenAIAdapter.CheckConnectivity`. -/
def OpenAIAdapter.modelsRequest (baseURL apiKey : GoString) : HttpRequest :=
  { Method := go "GET"
    URL := TrimSuffix baseURL (go "/") ++ go "/models"
    Header := [(go "Authorization", go "Bearer " ++ apiKey)]
    Body := Payload.empty }

/-- The error `fmt.Errorf("HTTP %d: %s", ...)` of the three `ListModels`. -/
def listFailure (resp : HttpResponse) : GoString :=
  go "HTTP " ++ fmtInt resp.StatusCode ++ go ": " ++ truncate (ReadAll resp.Body) 200

/-- Go `OpenAIAdapter.ListModels`. -/
def OpenAIAdapter.ListModels (js : Json) (tr : Transport) (baseURL apiKey : GoString)
    (log : List HttpRequest) : Except GoString (List GoString) × List HttpRequest :=
  let req := OpenAIAdapter.modelsRequest baseURL apiKey
  let out : Except GoString (List GoString) :=
    match tr log req with
    | .error err => .error err
    | .ok resp =>
      if resp.StatusCode ≠ 200 then .error (listFailure resp)
      else
        match js.modelData (ReadAll resp.Body) with
        | .error err => .error err
        | .ok data => .ok data
  (out, log ++ [req])

/-- Go `OpenAIAdapter.CheckConnectivity`. -/
def OpenAIAdapter.CheckConnectivity (tr : Transport) (baseURL apiKey : GoString)
    (log : List HttpRequest) : Except GoString Int × List HttpRequest :=
  let req := OpenAIAdapter.modelsRequest baseURL apiKey
  let out : Except GoString Int :=
    match tr log req with
    | .error err => .error err
    | .ok resp => .ok resp.StatusCode
  (out, log ++ [req])

/-! ### Anthropic adapter -/

/-- The request `AnthropicAdapter.Chat` (`stream = none`) and `AnthropicAdapter.ChatStream`
(`stream = some true`) build. -/
def AnthropicAdapter.chatRequest (req : ChatRequest) (stream : Option Bool) : HttpRequest :=
  let msgs := req.Messages.map (fun m => ({ Role := m.Role, Content := m.Content } : Message))
  { Method := go "POST"
    URL := TrimSuffix req.BaseURL (go "/") ++ go "/messages"
    Header := [(go "Content-Type", go "application/json"),
               (go "x-api-key", req.APIKey),
               (go "anthropic-version", go "2023-06-01")] ++
              (if stream.isSome then [(go "Accept", go "text/event-stream")] else [])
    Body := Payload.anthropic req.Model msgs 256 stream }

/-- Go `AnthropicAdapter.Chat`. -/
def AnthropicAdapter.Chat (js : Json) (tr : Transport) (req : ChatRequest)
    (log : List HttpRequest) : Except GoString ChatResponse × List HttpRequest :=
  let httpReq := AnthropicAdapter.chatRequest req none
  let out : Except GoString ChatResponse :=
    match tr log httpReq with
    | .error err => .error err
    | .ok resp =>
      let respBody := ReadAll resp.Body
      if resp.StatusCode ≠ 200 then .ok (httpFailure resp)
      else
        match js.anthropicChat respBody with
        | .error _ =>
          .ok { StatusCode := resp.StatusCode, Error := go "JSON parse error",
                RawBody := truncate respBody 300 }
        | .ok result =>
          match result.Error with
          | some e => .ok { StatusCode := resp.StatusCode, Error := e }
          | none =>
            match result.Content with
            | [] => .ok { StatusCode := resp.StatusCode, Error := go "empty content" }
            | text :: _ =>
              let cr : ChatResponse := { Content := text, StatusCode := 200 }
              match result.Usage with
              | some u =>
                .ok { cr with PromptTokens := u.PromptTokens, CompTokens := u.CompletionTokens }
              | none => .ok cr
  (out, log ++ [httpReq])

/-- Go `AnthropicAdapter.ChatStream`. -/
def AnthropicAdapter.ChatStream {σ : Type} (js : Json) (tr : Transport) (req : ChatRequest)
    (cb : Option (StreamCallback σ)) (s : σ) (log : List HttpRequest) :
    Except GoString ChatResponse × σ × List HttpRequest :=
  let httpReq := AnthropicAdapter.chatRequest req (some true)
  match tr log httpReq with
  | .error err => (.error err, s, log ++ [httpReq])
  | .ok resp =>
    if resp.StatusCode ≠ 200 then (.ok (httpFailure resp), s, log ++ [httpReq])
    else
      let r := readAnthropicSSE js resp.Body cb s
      (.ok r.1, r.2, log ++ [httpReq])

/-- The `GET .../models` request of `AnthropicAdapter.ListModels` and
`AnthropicAdapter.CheckConnectivity`. -/
def AnthropicAdapter.modelsRequest (baseURL apiKey : GoString) : HttpRequest :=
  { Method := go "GET"
    URL := TrimSuffix baseURL (go "/") ++ go "/models"
    Header := [(go "x-api-key", apiKey), (go "anthropic-version", go "2023-06-01")]
    Body := Payload.empty }

/-- Go `AnthropicAdapter.ListModels`. -/
def AnthropicAdapter.ListModels (js : Json) (tr : Transport) (baseURL apiKey : GoString)
    (log : List HttpRequest) : Except GoString (List GoString) × List HttpRequest :=
  let req := AnthropicAdapter.modelsRequest baseURL apiKey
  let out : Except GoString (List GoString) :=
    match tr log req with
    | .error err => .error err
    | .ok resp =>
      if resp.StatusCode ≠ 200 then .error (listFailure resp)
      else
        match js.modelData (ReadAll resp.Body) with
        | .error err => .error err
        | .ok data => .ok data
  (out, log ++ [req])

/-- Go `AnthropicAdapter.CheckConnectivity`. -/
def AnthropicAdapter.CheckConnectivity (tr : Transport) (baseURL apiKey : GoString)
    (log : List HttpRequest) : Except GoString Int × List HttpRequest :=
  let req := AnthropicAdapter.modelsRequest baseURL apiKey
  let out : Except GoString Int :=
    match tr log req with
    | .error err => .error err
    | .ok resp => .ok resp.StatusCode
  (out, log ++ [req])

/-! ### Gemini adapter -/

/-- The `contents` array `GeminiAdapter.Chat` and `GeminiAdapter.ChatStream` build. -/
def GeminiAdapter.contents (messages : List Message) : List GeminiContent :=
  messages.map (fun m =>
    let role := m.Role
    let role := if role = go "assistant" then go "model" else role
    { role := role, parts := [m.Content] })

/-- The request `GeminiAdapter.Chat` (`method = "generateContent?key="`) and
`GeminiAdapter.ChatStream` (`method = "streamGenerateContent?alt=sse&key="`) build. -/
def GeminiAdapter.chatRequest (req : ChatRequest) (method : GoString) : HttpRequest :=
  { Method := go "POST"
    URL := TrimSuffix req.BaseURL (go "/") ++ go "/models/" ++ req.Model ++ go ":" ++ method ++
             req.APIKey
    Header := [(go "Content-Type", go "application/json")]
    Body := Payload.gemini (GeminiAdapter.contents req.Messages) }

/-- Go `GeminiAdapter.Chat`. -/
def GeminiAdapter.Chat (js : Json) (tr : Transport) (req : ChatRequest)
    (log : List HttpRequest) : Except GoString ChatResponse × List HttpRequest :=
  let httpReq := GeminiAdapter.chatRequest req (go "generateContent?key=")
  let out : Except GoString ChatResponse :=
    match tr log httpReq with
    | .error err => .error err
    | .ok resp =>
      let respBody := ReadAll resp.Body
      if resp.StatusCode ≠ 200 then .ok (httpFailure resp)
      else
        match js.geminiChat respBody with
        | .error _ =>
          .ok { StatusCode := resp.StatusCode, Error := go "JSON parse error",
                RawBody := truncate respBody 300 }
        | .ok result =>
          match result.Error with
          | some e => .ok { StatusCode := resp.StatusCode, Error := e }
          | none =>
            match result.Candidates with
            | (text :: _) :: _ =>
              let cr : ChatResponse := { Content := text, StatusCode := 200 }
              match result.UsageMetadata with
              | some u =>
                .ok { cr with PromptTokens := u.PromptTokens, CompTokens := u.CompletionTokens }
              | none => .ok cr
            | _ => .ok { StatusCode := resp.StatusCode, Error := go "empty response" }
  (out, log ++ [httpReq])

/-- Go `GeminiAdapter.ChatStream`. -/
def GeminiAdapter.ChatStream {σ : Type} (js : Json) (tr : Transport) (req : ChatRequest)
    (cb : Option (StreamCallback σ)) (s : σ) (log : List HttpRequest) :
    Except GoString ChatResponse × σ × List HttpRequest :=
  let httpReq := GeminiAdapter.chatRequest req (go "streamGenerateContent?alt=sse&key=")
  match tr log httpReq with
  | .error err => (.error err, s, log ++ [httpReq])
  | .ok resp =>
    if resp.StatusCode ≠ 200 then (.ok (httpFailure resp), s, log ++ [httpReq])
    else
      let r := readGeminiSSE js resp.Body cb s
      (.ok r.1, r.2, log ++ [httpReq])

/-- The `GET .../models?key=` request of `GeminiAdapter.ListModels` and
`GeminiAdapter.CheckConnectivity`. -/
def GeminiAdapter.modelsRequest (baseURL apiKey : GoString) : HttpRequest :=
  { Method := go "GET"
    URL := TrimSuffix baseURL (go "/") ++ go "/models?key=" ++ apiKey
    Header := []
    Body := Payload.empty }

/-- The loop body of `GeminiAdapter.ListModels`: the name after its last `/`. -/
def GeminiAdapter.modelName (name : GoString) : GoString :=
  let idx := LastIndex name (go "/")
  if idx ≥ 0 then name.drop (idx.toNat + 1) else name

/-- Go `GeminiAdapter.ListModels`. -/
def GeminiAdapter.ListModels (js : Json) (tr : Transport) (baseURL apiKey : GoString)
    (log : List HttpRequest) : Except GoString (List GoString) × List HttpRequest :=
  let req := GeminiAdapter.modelsRequest baseURL apiKey
  let out : Except GoString (List GoString) :=
    match tr log req with
    | .error err => .error err
    | .ok resp =>
      if resp.StatusCode ≠ 200 then .error (listFailure resp)
      else
        match js.geminiModels (ReadAll resp.Body) with
        | .error err => .error err
        | .ok names => .ok (names.map GeminiAdapter.modelName)
  (out, log ++ [req])

/-- Go `GeminiAdapter.CheckConnectivity`. -/
def GeminiAdapter.CheckConnectivity (tr : Transport) (baseURL apiKey : GoString)
    (log : List HttpRequest) : Except GoString Int × List HttpRequest :=
  let req := GeminiAdapter.modelsRequest baseURL apiKey
  let out : Except GoString Int :=
    match tr log req with
    | .error err => .error err
    | .ok resp => .ok resp.StatusCode
  (out, log ++ [req])

/-! ### The interface `Adapter` -/

/-- Method `Chat` of the interface. -/
def Adapter.Chat (a : Adapter) (js : Json) (tr : Transport) (req : ChatRequest)
    (log : List HttpRequest) : Except GoString ChatResponse × List HttpRequest :=
  match a with
  | .OpenAIAdapter => OpenAIAdapter.Chat js tr req log
  | .AnthropicAdapter => AnthropicAdapter.Chat js tr req log
  | .GeminiAdapter => GeminiAdapter.Chat js tr req log

/-- Method `ChatStream` of the interface. -/
def Adapter.ChatStream {σ : Type} (a : Adapter) (js : Json) (tr : Transport) (req : ChatRequest)
    (cb : Option (StreamCallback σ)) (s : σ) (log : List HttpRequest) :
    Except GoString ChatResponse × σ × List HttpRequest :=
  match a with
  | .OpenAIAdapter => OpenAIAdapter.ChatStream js tr req cb s log
  | .AnthropicAdapter => AnthropicAdapter.ChatStream js tr req cb s log
  | .GeminiAdapter => GeminiAdapter.ChatStream js tr req cb s log

/-- Method `ListModels` of the interface. -/
def Adapter.ListModels (a : Adapter) (js : Json) (tr : Transport) (baseURL apiKey : GoString)
    (log : List HttpRequest) : Except GoString (List GoString) × List HttpRequest :=
  match a with
  | .OpenAIAdapter => OpenAIAdapter.ListModels js tr baseURL apiKey log
  | .AnthropicAdapter => AnthropicAdapter.ListModels js tr baseURL apiKey log
  | .GeminiAdapter => GeminiAdapter.ListModels js tr baseURL apiKey log

/-- Method `CheckConnectivity` of the interface. -/
def Adapter.CheckConnectivity (a : Adapter) (tr : Transport) (baseURL apiKey : GoString)
    (log : List HttpRequest) : Except GoString Int × List HttpRequest :=
  match a with
  | .OpenAIAdapter => OpenAIAdapter.CheckConnectivity tr baseURL apiKey log
  | .AnthropicAdapter => AnthropicAdapter.CheckConnectivity tr baseURL apiKey log
  | .GeminiAdapter => GeminiAdapter.CheckConnectivity tr baseURL apiKey log

/-- The request an adapter's `Chat` (`stream = false`) or `ChatStream` (`stream = true`)
issues. -/
def Adapter.chatRequest (a : Adapter) (req : ChatRequest) (stream : Bool) : HttpRequest :=
  match a with
  | .OpenAIAdapter => OpenAIAdapter.chatRequest req (if stream then some true else none)
  | .AnthropicAdapter => AnthropicAdapter.chatRequest req (if stream then some true else none)
  | .GeminiAdapter =>
    GeminiAdapter.chatRequest req
      (if stream then go "streamGenerateContent?alt=sse&key=" else go "generateContent?key=")

/-- The request an adapter's `ListModels` and `CheckConnectivity` issue. -/
def Adapter.modelsRequest (a : Adapter) (baseURL apiKey : GoString) : HttpRequest :=
  match a with
  | .OpenAIAdapter => OpenAIAdapter.modelsRequest baseURL apiKey
  | .AnthropicAdapter => AnthropicAdapter.modelsRequest baseURL apiKey
  | .GeminiAdapter => GeminiAdapter.modelsRequest baseURL apiKey

end protocol

/-! ## internal/checker: the check orchestrator -/

namespace checker

open protocol

/-- Check item (`type CheckItem string`). -/
abbrev CheckItem := GoString

def CheckConnectivity : CheckItem := go "connectivity"
def CheckChat : CheckItem := go "chat"
def CheckStream : CheckItem := go "stream"
def CheckModels : CheckItem := go "models"
def CheckMultiTurn : CheckItem := go "multi_turn"

/-- Check status (`type CheckStatus string`). -/
abbrev CheckStatus := GoString

def StatusPending : CheckStatus := go "pending"
def StatusRunning : CheckStatus := go "running"
def StatusSuccess : CheckStatus := go "success"
def StatusFailed : CheckStatus := go "failed"
def StatusWarning : CheckStatus := go "warning"

/-- Field defaults are Go zero values. -/
structure CheckResult where
  Item : CheckItem := []
  Status : CheckStatus := []
  Latency : Int := 0
  TTFT : Int := 0
  Message : GoString := []
  Detail : GoString := []
  TokenIn : Int := 0
  TokenOut : Int := 0
deriving DecidableEq, Repr

/-- Field defaults are Go zero values. -/
structure FullCheckResult where
  ProviderID : GoString := []
  ProviderName : GoString := []
  BaseURL : GoString := []
  Model : GoString := []
  Protocol : GoString := []
  Results : List CheckResult := []
  ModelList : List GoString := []
  StartTime : GoString := []
  EndTime : GoString := []
  TotalLatency : Int := 0
deriving DecidableEq, Repr

/-- The readings of the wall clock taken during one run of `RunFullCheck`: the two formatted
time stamps, and the value of `time.Since(start).Milliseconds()` where each check and the run
read it. -/
structure Clock where
  StartTime : GoString
  EndTime : GoString
  TotalLatency : Int
  connectivity : Int
  chat : Int
  stream : Int
  streamTTFT : Int
  models : Int
  multiTurn : Int
deriving DecidableEq, Repr

/-- Go `truncate` of package checker; `max` is a positive constant at every call. -/
def truncate (s : GoString) (max : Nat) : GoString :=
  let s := TrimSpace s
  if s.length ≤ max then s else s.take max ++ go "..."

/-- Go `Checker.checkConnectivity`. -/
def checkConnectivity (tr : Transport) (latency : Int) (adapter : Adapter)
    (baseURL apiKey : GoString) (log : List HttpRequest) : CheckResult × List HttpRequest :=
  let r : CheckResult := { Item := CheckConnectivity }
  let probe := adapter.CheckConnectivity tr baseURL apiKey log
  let r := { r with Latency := latency }
  match probe.1 with
  | .error err =>
    ({ r with Status := StatusFailed, Message := go "网络不可达", Detail := err }, probe.2)
  | .ok code =>
    if code = 401 ∨ code = 403 then
      ({ r with Status := StatusWarning
                Message := go "网络可达, 认证失败 (HTTP " ++ fmtInt code ++ go ")"
                Detail := go "请检查 API Key" }, probe.2)
    else if code ≥ 200 ∧ code < 500 then
      ({ r with Status := StatusSuccess
                Message := go "网络可达 (HTTP " ++ fmtInt code ++ go ")" }, probe.2)
    else
      ({ r with Status := StatusFailed
                Message := go "服务异常 (HTTP " ++ fmtInt code ++ go ")" }, probe.2)

/-- Go `Checker.checkChat`. -/
def checkChat (js : Json) (tr : Transport) (latency : Int) (adapter : Adapter)
    (baseURL apiKey model : GoString) (log : List HttpRequest) :
    CheckResult × List HttpRequest :=
  let r : CheckResult := { Item := CheckChat }
  let call := adapter.Chat js tr
    { BaseURL := baseURL, APIKey := apiKey, Model := model,
      Messages := [{ Role := go "user", Content := go "Hi, reply with exactly: OK" }] } log
  let r := { r with Latency := latency }
  match call.1 with
  | .error err =>
    ({ r with Status := StatusFailed, Message := go "请求失败", Detail := err }, call.2)
  | .ok resp =>
    if resp.Error ≠ [] then
      ({ r with Status := StatusFailed, Message := resp.Error, Detail := resp.RawBody }, call.2)
    else
      ({ r with Status := StatusSuccess, Message := go "对话正常"
                Detail := truncate resp.Content 100
                TokenIn := resp.PromptTokens, TokenOut := resp.CompTokens }, call.2)

/-- The variables the stream callback of `checkStream` captures: `chunkCount` and `r.TTFT`. -/
structure StreamVars where
  chunkCount : Int
  TTFT : Int
deriving DecidableEq, Repr

/-- The callback `checkStream` passes to `ChatStream`; `ttft` is the clock reading. -/
def checkStream.callback (ttft : Int) : StreamCallback StreamVars :=
  fun _ isFirst v =>
    { chunkCount := v.chunkCount + 1, TTFT := if isFirst then ttft else v.TTFT }

/-- Go `Checker.checkStream`. -/
def checkStream (js : Json) (tr : Transport) (latency ttft : Int) (adapter : Adapter)
    (baseURL apiKey model : GoString) (log : List HttpRequest) :
    CheckResult × List HttpRequest :=
  let r : CheckResult := { Item := CheckStream }
  let call := adapter.ChatStream js tr
    { BaseURL := baseURL, APIKey := apiKey, Model := model,
      Messages := [{ Role := go "user", Content := go "Count from 1 to 5" }], Stream := true }
    (some (checkStream.callback ttft)) ⟨0, r.TTFT⟩ log
  let chunkCount := call.2.1.chunkCount
  let r := { r with TTFT := call.2.1.TTFT, Latency := latency }
  match call.1 with
  | .error err =>
    ({ r with Status := StatusFailed, Message := go "请求失败", Detail := err }, call.2.2)
  | .ok resp =>
    if resp.Error ≠ [] then
      ({ r with Status := StatusFailed, Message := resp.Error, Detail := resp.RawBody },
        call.2.2)
    else if chunkCount = 0 then
      ({ r with Status := StatusFailed, Message := go "未收到流式数据" }, call.2.2)
    else
      ({ r with Status := StatusSuccess
                Message := go "流式正常, " ++ fmtInt chunkCount ++ go " chunks, TTFT " ++
                             fmtInt r.TTFT ++ go "ms"
                Detail := truncate resp.Content 100 }, call.2.2)

/-- Go `Checker.checkModels`. -/
def checkModels (js : Json) (tr : Transport) (latency : Int) (adapter : Adapter)
    (baseURL apiKey : GoString) (log : List HttpRequest) :
    (CheckResult × List GoString) × List HttpRequest :=
  let r : CheckResult := { Item := CheckModels }
  let call := adapter.ListModels js tr baseURL apiKey log
  let r := { r with Latency := latency }
  match call.1 with
  | .error err =>
    (({ r with Status := StatusWarning, Message := go "模型列表获取失败", Detail := err }, []),
      call.2)
  | .ok models =>
    let r := { r with Status := StatusSuccess
                      Message := go "获取到 " ++ fmtInt models.length ++ go " 个模型" }
    let r :=
      if models.length > 5 then { r with Detail := Join (models.take 5) (go ", ") ++ go "..." }
      else { r with Detail := Join models (go ", ") }
    ((r, models), call.2)

/-- Go `Checker.checkMultiTurn`. -/
def checkMultiTurn (js : Json) (tr : Transport) (latency : Int) (adapter : Adapter)
    (baseURL apiKey model : GoString) (log : List HttpRequest) :
    CheckResult × List HttpRequest :=
  let r : CheckResult := { Item := CheckMultiTurn }
  let first : Message := { Role := go "user", Content := go "Remember this number: 42. Just reply OK." }
  let call1 := adapter.Chat js tr
    { BaseURL := baseURL, APIKey := apiKey, Model := model, Messages := [first] } log
  let failed1 (detail : GoString) : CheckResult × List HttpRequest :=
    ({ r with Status := StatusFailed, Message := go "第一轮对话失败", Detail := detail,
              Latency := latency }, call1.2)
  match call1.1 with
  | .error err => failed1 err
  | .ok resp1 =>
    if resp1.Error ≠ [] then failed1 resp1.Error
    else
      let call2 := adapter.Chat js tr
        { BaseURL := baseURL, APIKey := apiKey, Model := model,
          Messages := [first,
                       { Role := go "assistant", Content := resp1.Content },
                       { Role := go "user", Content := go "What number did I ask you to remember?" }] }
        call1.2
      let r := { r with Latency := latency }
      let failed2 (detail : GoString) : CheckResult × List HttpRequest :=
        ({ r with Status := StatusFailed, Message := go "第二轮对话失败", Detail := detail },
          call2.2)
      match call2.1 with
      | .error err => failed2 err
      | .ok resp2 =>
        if resp2.Error ≠ [] then failed2 resp2.Error
        else
          let r :=
            if Contains resp2.Content (go "42") then
              { r with Status := StatusSuccess, Message := go "多轮对话正常, 上下文保持良好" }
            else
              { r with Status := StatusWarning, Message := go "多轮完成, 上下文可能丢失" }
          ({ r with Detail := go "R1: " ++ truncate resp1.Content 50 ++ go " | R2: " ++
                                truncate resp2.Content 50
                    TokenIn := wrapInt (resp1.PromptTokens + resp2.PromptTokens)
                    TokenOut := wrapInt (resp1.CompTokens + resp2.CompTokens) }, call2.2)

/-- The four goroutines `RunFullCheck` starts after the connectivity check. -/
inductive Goroutine where
  | chat
  | stream
  | models
  | multiTurn
deriving DecidableEq, Repr

/-- Everything outside the program that one run of `RunFullCheck` depends on: the JSON decoders,
the remote endpoint, the clock, and the order in which the scheduler lets the four goroutines
run. Each goroutine writes only its own result variable, so a goroutine is taken as one step. -/
structure Run where
  json : Json
  transport : Transport
  clock : Clock
  schedule : List Goroutine

/-- The variables of `RunFullCheck` the goroutines assign, zero-valued when declared. -/
structure Vars where
  chatResult : CheckResult := {}
  streamResult : CheckResult := {}
  modelResult : CheckResult := {}
  multiTurnResult : CheckResult := {}
  modelList : List GoString := []
deriving DecidableEq, Repr

/-- One goroutine of `RunFullCheck` running to its `wg.Done()`. -/
def RunFullCheck.spawn (run : Run) (adapter : Adapter) (baseURL apiKey model : GoString)
    (st : Vars × List HttpRequest) (g : Goroutine) : Vars × List HttpRequest :=
  match g with
  | .chat =>
    let c := checkChat run.json run.transport run.clock.chat adapter baseURL apiKey model st.2
    ({ st.1 with chatResult := c.1 }, c.2)
  | .stream =>
    let c := checkStream run.json run.transport run.clock.stream run.clock.streamTTFT adapter
      baseURL apiKey model st.2
    ({ st.1 with streamResult := c.1 }, c.2)
  | .models =>
    let c := checkModels run.json run.transport run.clock.models adapter baseURL apiKey st.2
    ({ st.1 with modelResult := c.1.1, modelList := c.1.2 }, c.2)
  | .multiTurn =>
    let c := checkMultiTurn run.json run.transport run.clock.multiTurn adapter baseURL apiKey
      model st.2
    ({ st.1 with multiTurnResult := c.1 }, c.2)

/-- Go `Checker.RunFullCheck`, with the requests the run has issued, in order. -/
def RunFullCheck (run : Run) (baseURL apiKey model providerID providerName proto : GoString) :
    FullCheckResult × List HttpRequest :=
  let adapter := GetAdapter proto
  let result : FullCheckResult :=
    { ProviderID := providerID, ProviderName := providerName, BaseURL := baseURL,
      Model := model, Protocol := proto, StartTime := run.clock.StartTime }
  let conn := checkConnectivity run.transport run.clock.connectivity adapter baseURL apiKey []
  let connResult := conn.1
  let result := { result with Results := result.Results ++ [connResult] }
  if connResult.Status = StatusFailed then
    ({ result with EndTime := run.clock.EndTime, TotalLatency := run.clock.TotalLatency },
      conn.2)
  else
    let joined := run.schedule.foldl (RunFullCheck.spawn run adapter baseURL apiKey model)
      ({}, conn.2)
    let v := joined.1
    ({ result with
        Results := result.Results ++
          [v.chatResult, v.streamResult, v.modelResult, v.multiTurnResult]
        ModelList := v.modelList
        EndTime := run.clock.EndTime
        TotalLatency := run.clock.TotalLatency }, joined.2)

/-! ## internal/checker/report.go -/

/-- Field defaults are Go zero values. -/
structure ReportSummary where
  Total : Int := 0
  Success : Int := 0
  Failed : Int := 0
  Warning : Int := 0
deriving DecidableEq, Repr

structure Report where
  GeneratedAt : GoString
  Results : List FullCheckResult
  Summary : ReportSummary
deriving DecidableEq, Repr

/-- The flags `allSuccess` and `hasFailed` of `GenerateReport`. -/
structure Flags where
  allSuccess : Bool
  hasFailed : Bool
deriving DecidableEq, Repr

/-- Body of the inner loop `for _, item := range r.Results` of `GenerateReport`. -/
def GenerateReport.item (f : Flags) (item : CheckResult) : Flags :=
  if item.Status = StatusFailed then { f with hasFailed := true, allSuccess := false }
  else if item.Status = StatusWarning then { f with allSuccess := false }
  else f

/-- Body of the outer loop `for _, r := range results` of `GenerateReport`. -/
def GenerateReport.result (summary : ReportSummary) (r : FullCheckResult) : ReportSummary :=
  let f := r.Results.foldl GenerateReport.item { allSuccess := true, hasFailed := false }
  if f.hasFailed then { summary with Failed := summary.Failed + 1 }
  else if f.allSuccess then { summary with Success := summary.Success + 1 }
  else { summary with Warning := summary.Warning + 1 }

/-- The summary `GenerateReport` computes before building the report. -/
def GenerateReport.summary (results : List FullCheckResult) : ReportSummary :=
  results.foldl GenerateReport.result { Total := results.length }

/-- Go `GenerateReport`; `marshal` is `json.MarshalIndent` on a `Report` and `now` the formatted
current time. -/
def GenerateReport (marshal : Report → GoString) (now : GoString)
    (results : List FullCheckResult) : GoString :=
  let summary := GenerateReport.summary results
  let report : Report := { GeneratedAt := now, Results := results, Summary := summary }
  marshal report

end checker

/-! ## app.go: the batch runner -/

namespace app

open protocol checker

structure BatchCheckItem where
  BaseURL : GoString
  APIKey : GoString
  Model : GoString
  ProviderID : GoString
  ProviderName : GoString
  Protocol : GoString
deriving DecidableEq, Repr

/-- The row `saveHistory` hands to `store.SaveHistory`. -/
structure HistoryRow where
  ProviderID : GoString
  ProviderName : GoString
  BaseURL : GoString
  Model : GoString
  Protocol : GoString
  ResultsJSON : GoString
  ModelList : GoString
  TotalLatency : Int
  Status : GoString
deriving DecidableEq, Repr

/-- The two uses of `json.Marshal` in `saveHistory`. -/
structure Marshal where
  results : List CheckResult → GoString
  modelList : List GoString → GoString

/-- Go `maskKey`. -/
def maskKey (key : GoString) : GoString :=
  if key.length ≤ 8 then go "***"
  else key.take 3 ++ go "..." ++ key.drop (key.length - 4)

/-- The loop of `saveHistory` over `r.Results`, with its `break`, from the current `status`. -/
def saveHistory.status : List CheckResult → GoString → GoString
  | [], status => status
  | item :: rest, status =>
    if item.Status = go "failed" then go "failed"
    else if item.Status = go "warning" then saveHistory.status rest (go "warning")
    else saveHistory.status rest status

/-- Go `App.saveHistory`: the row passed to `store.SaveHistory`. -/
def saveHistory (m : Marshal) (r : FullCheckResult) : HistoryRow :=
  let resultsJSON := m.results r.Results
  let modelListJSON := m.modelList r.ModelList
  let status := saveHistory.status r.Results (go "success")
  { ProviderID := r.ProviderID, ProviderName := r.ProviderName, BaseURL := r.BaseURL,
    Model := r.Model, Protocol := r.Protocol, ResultsJSON := resultsJSON,
    ModelList := modelListJSON, TotalLatency := r.TotalLatency, Status := status }

/-- The local type `indexed` of the two batch functions. -/
structure Indexed where
  idx : Nat
  result : FullCheckResult
deriving DecidableEq, Repr

/-- The receive loop of the two batch functions: `results` is made with `n` zero values, then
`n` values are taken from the channel and each is stored at its index. -/
def receive (n : Nat) (channel : List Indexed) : List FullCheckResult :=
  (channel.take n).foldl (fun results ir => results.set ir.idx ir.result)
    (List.replicate n {})

/-- Go `App.RunBatchCheck`. Goroutine `i` makes the run `runs i`; `order` lists the goroutines
in the order in which they send on the channel. The result is the returned slice with the rows
saved to the history store, in saving order. -/
def RunBatchCheck (m : Marshal) (runs : Nat → Run) (order : List Nat)
    (items : List BatchCheckItem) : List FullCheckResult × List HistoryRow :=
  let send (idx : Nat) (it : BatchCheckItem) : Indexed :=
    let r := (RunFullCheck (runs idx) it.BaseURL it.APIKey it.Model it.ProviderID
      it.ProviderName it.Protocol).1
    { idx := idx, result := r }
  let channel := order.filterMap (fun i => (items.get? i).map (send i))
  let results := receive items.length channel
  (results, results.map (saveHistory m))

/-- Go `App.RunBatchKeyCheck`, with the same conventions as `RunBatchCheck`. -/
def RunBatchKeyCheck (m : Marshal) (runs : Nat → Run) (order : List Nat)
    (baseURL model providerID providerName protocol : GoString) (apiKeys : List GoString) :
    List FullCheckResult × List HistoryRow :=
  let send (idx : Nat) (k : GoString) : Indexed :=
    let masked := maskKey k
    let name := providerName ++ go " (" ++ masked ++ go ")"
    let r := (RunFullCheck (runs idx) baseURL k model providerID name protocol).1
    { idx := idx, result := r }
  let channel := order.filterMap (fun i => (apiKeys.get? i).map (send i))
  let results := receive apiKeys.length channel
  (results, results.map (saveHistory m))

end app


/-! ## internal/store: provider configurations -/

namespace store

structure ProviderConfigRow where
  ProviderID : GoString
  APIKey : GoString
  BaseURL : GoString
  Model : GoString
  Protocol : GoString
  UpdatedAt : GoString := []
deriving DecidableEq, Repr

/-- The table `provider_configs` with the database open: its rows in insertion order. The
primary key on `provider_id` keeps the ids of the rows distinct. -/
abbrev ProviderConfigs := List ProviderConfigRow

/-- Go `SaveProviderConfig`, its error nil: the statement
`INSERT ... ON CONFLICT(provider_id) DO UPDATE SET ...` run on the table. The row whose
`provider_id` is that of `cfg` gets the four fields of `cfg` and the time stamp `now`; when
there is none, a row is inserted. -/
def SaveProviderConfig (now : GoString) (cfg : ProviderConfigRow) :
    ProviderConfigs → ProviderConfigs
  | [] =>
    [{ ProviderID := cfg.ProviderID, APIKey := cfg.APIKey, BaseURL := cfg.BaseURL,
       Model := cfg.Model, Protocol := cfg.Protocol, UpdatedAt := now }]
  | row :: rows =>
    if row.ProviderID = cfg.ProviderID then
      { row with APIKey := cfg.APIKey, BaseURL := cfg.BaseURL, Model := cfg.Model,
                 Protocol := cfg.Protocol, UpdatedAt := now } :: rows
    else row :: SaveProviderConfig now cfg rows

/-- Go `GetProviderConfig`: the row `SELECT * ... WHERE provider_id = ?` gives, `none` for
`sql.ErrNoRows`, which the function turns into `nil, nil`. -/
def GetProviderConfig (providerID : GoString) (db : ProviderConfigs) :
    Except GoString (Option ProviderConfigRow) :=
  match db.find? (fun row => decide (row.ProviderID = providerID)) with
  | none => .ok none
  | some row => .ok (some row)

end store

/-! ## Specification-side definitions and fixtures: concrete endpoints, decoders and runs -/

/-- The transport that answers every request with status `code` and an empty body. -/
def answer (code : Int) : protocol.Transport := fun _ _ => .ok ⟨code, ⟨[], []⟩⟩

/-- The transport that fails every round trip. -/
def unreachable : protocol.Transport := fun _ _ => .error (go "connection refused")

/-- The decoders that reject every body. -/
def rejectAll : protocol.Json :=
  { openAIChat := fun _ => .error (go "unexpected end of JSON input")
    anthropicChat := fun _ => .error (go "unexpected end of JSON input")
    geminiChat := fun _ => .error (go "unexpected end of JSON input")
    modelData := fun _ => .error (go "unexpected end of JSON input")
    geminiModels := fun _ => .error (go "unexpected end of JSON input")
    openAIChunk := fun _ => .error (go "unexpected end of JSON input")
    anthropicEvent := fun _ => .error (go "unexpected end of JSON input")
    geminiChunk := fun _ => .error (go "unexpected end of JSON input") }

/-- A clock whose readings are all zero. -/
def clock0 : checker.Clock :=
  { StartTime := go "2026-01-01 00:00:00", EndTime := go "2026-01-01 00:00:00",
    TotalLatency := 0, connectivity := 0, chat := 0, stream := 0, streamTTFT := 0, models := 0,
    multiTurn := 0 }

/-- A run against an unreachable endpoint. -/
def runDown : checker.Run :=
  { json := rejectAll, transport := unreachable, clock := clock0,
    schedule := [.chat, .stream, .models, .multiTurn] }

/-- A run against an endpoint that answers 401 to everything, in which the goroutines finish in
the reverse of the order in which they were started. -/
def runUnauthorized : checker.Run :=
  { json := rejectAll, transport := answer 401, clock := clock0,
    schedule := [.multiTurn, .models, .stream, .chat] }

/-- The bucket of one result in the words of the specification: failed if any check result is
failed, else warning if any is warning, else success. -/
def specBucket (r : checker.FullCheckResult) : checker.CheckStatus :=
  if r.Results.any (fun i => decide (i.Status = checker.StatusFailed)) then checker.StatusFailed
  else if r.Results.any (fun i => decide (i.Status = checker.StatusWarning)) then
    checker.StatusWarning
  else checker.StatusSuccess

/-- A full result holding the check results of the given statuses. -/
def resultOf (statuses : List checker.CheckStatus) : checker.FullCheckResult :=
  { Results := statuses.map (fun s => { Status := s }) }

/-- A marshaller that renders everything as the empty string. -/
def marshal0 : app.Marshal := { results := fun _ => [], modelList := fun _ => [] }

/-- Three batch items against three endpoints. -/
def items3 : List app.BatchCheckItem :=
  [{ BaseURL := go "http://a/v1", APIKey := go "ka", Model := go "m", ProviderID := go "a",
     ProviderName := go "A", Protocol := go "openai" },
   { BaseURL := go "http://b/v1", APIKey := go "kb", Model := go "m", ProviderID := go "b",
     ProviderName := go "B", Protocol := go "anthropic" },
   { BaseURL := go "http://c/v1", APIKey := go "kc", Model := go "m", ProviderID := go "c",
     ProviderName := go "C", Protocol := go "gemini" }]

/-- Three API keys: one of ten bytes, one of eight, one of twelve. -/
def keys3 : List GoString := [go "sk-1234567", go "sk-12345", go "sk-abcdefghi"]

/-- The transport that answers every request with status `code` and body `body`, delivered by
the read that reports the end of the stream. -/
def serve (code : Int) (body : GoString) : protocol.Transport :=
  fun _ _ => .ok ⟨code, ⟨[], body⟩⟩

/-- Decoders that find in every body a reply with text `OK`, with usage 9 and 1 when `usage`
is set. -/
def decodeOK (usage : Bool) : protocol.Json :=
  { rejectAll with
    openAIChat := fun _ =>
      .ok { Choices := [go "OK"], Usage := if usage then some ⟨9, 1⟩ else none, Error := none }
    anthropicChat := fun _ =>
      .ok { Content := [go "OK"], Usage := if usage then some ⟨9, 1⟩ else none, Error := none }
    geminiChat := fun _ =>
      .ok { Candidates := [[go "OK"]], UsageMetadata := if usage then some ⟨9, 1⟩ else none,
            Error := none } }

/-- A chat request with one user message. -/
def hello : protocol.ChatRequest :=
  { BaseURL := go "http://h/v1", APIKey := go "k", Model := go "m",
    Messages := [{ Role := go "user", Content := go "Hi" }] }

/-- The callback that appends each of its calls to a list. -/
def record : protocol.StreamCallback (List (GoString × Bool)) :=
  fun chunk isFirst calls => calls ++ [(chunk, isFirst)]

/-- The calls a decoder makes to its callback for the non-empty deltas `ts`, in order, when its
variable `isFirst` holds `first` on entry. -/
def callsFor (first : Bool) : List GoString → List (GoString × Bool)
  | [] => []
  | t :: ts => (t, first) :: ts.map (fun t => (t, false))

/-- The texts the loop body of `readSSE` reaches `if text != ""` with, for one line. -/
def readSSE.texts (js : protocol.Json) (line : GoString) : List GoString :=
  let line := TrimSpace line
  if !HasPrefix line (go "data: ") then []
  else
    let data := TrimPrefix line (go "data: ")
    if data = go "[DONE]" then []
    else
      match js.openAIChunk data with
      | .ok (text :: _) => [text]
      | _ => []

/-- The texts the loop body of `readAnthropicSSE` reaches its test of `Delta.Text` with, for one
line. -/
def readAnthropicSSE.texts (js : protocol.Json) (line : GoString) : List GoString :=
  let line := TrimSpace line
  if !HasPrefix line (go "data: ") then []
  else
    let data := TrimPrefix line (go "data: ")
    match js.anthropicEvent data with
    | .ok event =>
      match event.Delta with
      | some delta => [delta.Text]
      | none => []
    | .error _ => []

/-- The texts the loop body of `readGeminiSSE` reaches `if part.Text != ""` with, for one
line. -/
def readGeminiSSE.texts (js : protocol.Json) (line : GoString) : List GoString :=
  let line := TrimSpace line
  if !HasPrefix line (go "data: ") then []
  else
    let data := TrimPrefix line (go "data: ")
    match js.geminiChunk data with
    | .ok (candidate :: _) => candidate
    | _ => []

/-- The non-empty text deltas of the lines of one read. -/
def readDeltas (texts : GoString → List GoString) (data : GoString) : List GoString :=
  (if data.length > 0 then (Split data 0x0A).flatMap texts else []).filter
    (fun t => decide (t ≠ []))

/-- The non-empty text deltas of a stream, read by read, the read that reports the error
last. -/
def streamDeltas (texts : GoString → List GoString) (reader : protocol.Reader) :
    List GoString :=
  (reader.reads ++ [reader.last]).flatMap (readDeltas texts)

/-- An OpenAI stream chunk whose `choices[0].delta.content` is `Hello`. -/
def chunkHello : GoString :=
  go "\x7b\"choices\":[\x7b\"delta\":\x7b\"content\":\"Hello\"\x7d\x7d]\x7d"

/-- An OpenAI stream chunk whose `choices[0].delta.content` is ` world`. -/
def chunkWorld : GoString :=
  go "\x7b\"choices\":[\x7b\"delta\":\x7b\"content\":\" world\"\x7d\x7d]\x7d"

/-- An Anthropic stream event with a delta of type `text_delta` and text `Hello`. -/
def eventHello : GoString :=
  go "\x7b\"type\":\"content_block_delta\",\"delta\":\x7b\"type\":\"text_delta\",\"text\":\"Hello\"\x7d\x7d"

/-- An Anthropic stream event with a delta of type `input_json_delta` that has a `text`
member `x`. -/
def eventJson : GoString :=
  go "\x7b\"type\":\"content_block_delta\",\"delta\":\x7b\"type\":\"input_json_delta\",\"text\":\"x\"\x7d\x7d"

/-- A Gemini stream chunk whose first candidate has the parts `Hello` and ` world`. -/
def geminiHello : GoString :=
  go "\x7b\"candidates\":[\x7b\"content\":\x7b\"parts\":[\x7b\"text\":\"Hello\"\x7d,\x7b\"text\":\" world\"\x7d]\x7d\x7d]\x7d"

/-- Decoders that give the five payloads above the values `json.Unmarshal` gives them and reject
every other payload, as `json.Unmarshal` rejects `[DONE]`, an empty payload and a payload cut
short. -/
def decodeStream : protocol.Json :=
  { rejectAll with
    openAIChunk := fun d =>
      if d = chunkHello then .ok [go "Hello"]
      else if d = chunkWorld then .ok [go " world"]
      else .error (go "invalid character")
    anthropicEvent := fun d =>
      if d = eventHello then
        .ok { Type_ := go "content_block_delta",
              Delta := some { Type_ := go "text_delta", Text := go "Hello" } }
      else if d = eventJson then
        .ok { Type_ := go "content_block_delta",
              Delta := some { Type_ := go "input_json_delta", Text := go "x" } }
      else .error (go "invalid character")
    geminiChunk := fun d =>
      if d = geminiHello then .ok [[go "Hello", go " world"]]
      else .error (go "invalid character") }

/-- An OpenAI event stream: two chunks, each followed by an empty line, and the sentinel. -/
def streamOpenAI : GoString :=
  go "data: " ++ chunkHello ++ go "\n\ndata: " ++ chunkWorld ++ go "\n\ndata: [DONE]\n\n"

/-- An Anthropic event stream of one text event. -/
def streamAnthropic : GoString :=
  go "event: content_block_delta\ndata: " ++ eventHello ++ go "\n\n"

/-- A Gemini event stream of one chunk. -/
def streamGemini : GoString := go "data: " ++ geminiHello ++ go "\r\n\r\n"

/-- A line the decoders are to skip, the line being taken with its leading and trailing white
space removed: it lacks the prefix `data: `, or it is the sentinel `data: [DONE]`, or its payload
is one the JSON decoder rejects (`rejects`). -/
def junkLine (rejects : GoString → Prop) (line : GoString) : Prop :=
  HasPrefix (TrimSpace line) (go "data: ") = false ∨
    TrimSpace line = go "data: [DONE]" ∨
    rejects (TrimPrefix (TrimSpace line) (go "data: "))

/-- An event stream of two lines, one chunk each. -/
def twoLines : GoString := go "data: " ++ chunkHello ++ go "\ndata: " ++ chunkWorld

/-- The stream `twoLines` with `extra` put between its two lines. -/
def twoLinesWith (extra : GoString) : GoString :=
  go "data: " ++ chunkHello ++ go "\n" ++ extra ++ go "\ndata: " ++ chunkWorld

/-- A response body whose `error` object has no `message` member. -/
def errorBody : GoString := go "\x7b\"error\":\x7b\"code\":\"rate_limited\"\x7d\x7d"

/-- Decoders that give `errorBody` the value `json.Unmarshal` gives it, a non-nil `Error` with
an empty `Message` and nothing else, and reject every other body. -/
def decodeErrorObject : protocol.Json :=
  { rejectAll with
    openAIChat := fun b =>
      if b = errorBody then .ok { Choices := [], Usage := none, Error := some [] }
      else .error (go "invalid character")
    anthropicChat := fun b =>
      if b = errorBody then .ok { Content := [], Usage := none, Error := some [] }
      else .error (go "invalid character")
    geminiChat := fun b =>
      if b = errorBody then .ok { Candidates := [], UsageMetadata := none, Error := some [] }
      else .error (go "invalid character") }

/-- The request of the first turn of `checkMultiTurn`. -/
def multiTurnFirst (baseURL apiKey model : GoString) : protocol.ChatRequest :=
  { BaseURL := baseURL, APIKey := apiKey, Model := model,
    Messages := [{ Role := go "user", Content := go "Remember this number: 42. Just reply OK." }] }

/-- The request of the second turn of `checkMultiTurn`, after the first reply `reply`. -/
def multiTurnSecond (baseURL apiKey model reply : GoString) : protocol.ChatRequest :=
  { BaseURL := baseURL, APIKey := apiKey, Model := model,
    Messages := [{ Role := go "user", Content := go "Remember this number: 42. Just reply OK." },
                 { Role := go "assistant", Content := reply },
                 { Role := go "user", Content := go "What number did I ask you to remember?" }] }

/-- The request of `checkStream`. -/
def streamProbe (baseURL apiKey model : GoString) : protocol.ChatRequest :=
  { BaseURL := baseURL, APIKey := apiKey, Model := model,
    Messages := [{ Role := go "user", Content := go "Count from 1 to 5" }], Stream := true }

/-- An endpoint that answers the first request of a run with the body `turn-1` and every later
one with the body `turn-2`. -/
def twoTurns : protocol.Transport :=
  fun log _ => .ok ⟨200, ⟨[], if log.isEmpty then go "turn-1" else go "turn-2"⟩⟩

/-- Decoders that read the reply `OK` in the body `turn-1` and the reply `second` in every
other body. -/
def decodeTurns (second : GoString) : protocol.Json :=
  { rejectAll with
    openAIChat := fun b =>
      .ok { Choices := [if b = go "turn-1" then go "OK" else second], Usage := none,
            Error := none } }

/-- Decoders that find six model ids in every listing. -/
def decodeSixModels : protocol.Json :=
  { rejectAll with
    modelData := fun _ => .ok [go "m1", go "m2", go "m3", go "m4", go "m5", go "m6"] }

/-- The transport that answers every request with status 200 and the body `streamOpenAI`,
delivered in one read before the read that reports the end of the stream. -/
def serveStream : protocol.Transport := fun _ _ => .ok ⟨200, ⟨[streamOpenAI], []⟩⟩

/-- The request of `checkChat`. -/
def chatProbe (baseURL apiKey model : GoString) : protocol.ChatRequest :=
  { BaseURL := baseURL, APIKey := apiKey, Model := model,
    Messages := [{ Role := go "user", Content := go "Hi, reply with exactly: OK" }] }

/-- Decoders that find the names `models/gemini-1.5-pro` and `tunedModels/my/model-1` and the
name `embedding-001` in every Gemini listing. -/
def decodeGeminiModels : protocol.Json :=
  { rejectAll with
    geminiModels := fun _ =>
      .ok [go "models/gemini-1.5-pro", go "tunedModels/my/model-1", go "embedding-001"] }

/-- A provider configuration as the test of the store saves it. -/
def testConfig : store.ProviderConfigRow :=
  { ProviderID := go "test-provider", APIKey := go "sk-test-key",
    BaseURL := go "https://api.test.com/v1", Model := go "test-model", Protocol := go "openai" }

/-- Decoders that read in every body a reply of 101 bytes `a`. -/
def decodeLong : protocol.Json :=
  { rejectAll with
    openAIChat := fun _ =>
      .ok { Choices := [List.replicate 101 97], Usage := none, Error := none } }

/-- The masking as the specification words it, on the characters of a credential: `***` for a
credential of 8 characters or fewer, otherwise its first 3 characters, then `...`, then its last
4 characters. -/
def specMaskKey (key : List Char) : List Char :=
  if key.length ≤ 8 then "***".toList
  else key.take 3 ++ "...".toList ++ key.drop (key.length - 4)

/-- A stream of the two lines `l1` and `l2` delivered in two reads: the first read delivers
`l1` and the first 20 bytes of `l2`, the second delivers the rest of `l2` together with the
error that ends the stream. -/
def cutStream (l1 l2 : GoString) : protocol.Reader :=
  { reads := [l1 ++ l2.take 20], last := l2.drop 20 }

/-! ## Theorems -/

open protocol checker app

/-- The three statuses a check can end in are different strings. -/
theorem status_distinct :
    StatusFailed ≠ StatusWarning ∧ StatusFailed ≠ StatusSuccess ∧
      StatusWarning ≠ StatusSuccess := by decide

/-- C1: `checkConnectivity` gives `failed` on a transport error; otherwise `warning` for HTTP 401
and 403; otherwise `success` for a code in `[200, 500)`; and `failed` for every other code. -/
theorem checkConnectivity_classifies (tr : Transport) (latency : Int) (adapter : Adapter)
    (baseURL apiKey : GoString) (log : List HttpRequest) :
    (∀ err, (adapter.CheckConnectivity tr baseURL apiKey log).1 = .error err →
      (checkConnectivity tr latency adapter baseURL apiKey log).1.Status = StatusFailed) ∧
    (∀ code, (adapter.CheckConnectivity tr baseURL apiKey log).1 = .ok code →
      (code = 401 ∨ code = 403) →
      (checkConnectivity tr latency adapter baseURL apiKey log).1.Status = StatusWarning) ∧
    (∀ code, (adapter.CheckConnectivity tr baseURL apiKey log).1 = .ok code →
      code ≠ 401 → code ≠ 403 → 200 ≤ code → code < 500 →
      (checkConnectivity tr latency adapter baseURL apiKey log).1.Status = StatusSuccess) ∧
    (∀ code, (adapter.CheckConnectivity tr baseURL apiKey log).1 = .ok code →
      (code < 200 ∨ 500 ≤ code) →
      (checkConnectivity tr latency adapter baseURL apiKey log).1.Status = StatusFailed) := by
  refine ⟨?_, ?_, ?_, ?_⟩
  · intro err h
    simp [checkConnectivity, h]
  · intro code h hc
    simp [checkConnectivity, h, hc]
  · intro code h h1 h2 h3 h4
    simp [checkConnectivity, h, h1, h2, h3, h4]
  · intro code h hc
    have h1 : ¬ (code = 401 ∨ code = 403) := by omega
    have h2 : ¬ (code ≥ 200 ∧ code < 500) := by omega
    simp [checkConnectivity, h, h1, h2]

/-- C1 on the four rows of the table: 401 gives warning, 200 success, 503 failed, and a transport
error failed. -/
theorem checkConnectivity_classifies_witness :
    (checkConnectivity (answer 401) 0 .OpenAIAdapter (go "http://h/v1") (go "k") []).1.Status
        = StatusWarning ∧
      (checkConnectivity (answer 200) 0 .AnthropicAdapter (go "http://h/v1") (go "k") []).1.Status
        = StatusSuccess ∧
      (checkConnectivity (answer 503) 0 .GeminiAdapter (go "http://h/v1") (go "k") []).1.Status
        = StatusFailed ∧
      (checkConnectivity unreachable 0 .OpenAIAdapter (go "http://h/v1") (go "k") []).1.Status
        = StatusFailed :=
  ⟨(checkConnectivity_classifies (answer 401) 0 .OpenAIAdapter _ _ []).2.1 401 rfl (Or.inl rfl),
   (checkConnectivity_classifies (answer 200) 0 .AnthropicAdapter _ _ []).2.2.1 200 rfl
      (by decide) (by decide) (by decide) (by decide),
   (checkConnectivity_classifies (answer 503) 0 .GeminiAdapter _ _ []).2.2.2 503 rfl
      (Or.inr (by decide)),
   (checkConnectivity_classifies unreachable 0 .OpenAIAdapter _ _ []).1 _ rfl⟩

/-! ### The orchestrator -/

/-- A connectivity probe issues exactly one request. -/
theorem CheckConnectivity_log (adapter : Adapter) (tr : Transport) (baseURL apiKey : GoString)
    (log : List HttpRequest) :
    (adapter.CheckConnectivity tr baseURL apiKey log).2.length = log.length + 1 := by
  cases adapter <;>
    simp [Adapter.CheckConnectivity, OpenAIAdapter.CheckConnectivity,
      AnthropicAdapter.CheckConnectivity, GeminiAdapter.CheckConnectivity]

/-- The connectivity check issues exactly one request. -/
theorem checkConnectivity_log (tr : Transport) (latency : Int) (adapter : Adapter)
    (baseURL apiKey : GoString) (log : List HttpRequest) :
    (checkConnectivity tr latency adapter baseURL apiKey log).2.length = log.length + 1 := by
  have h := CheckConnectivity_log adapter tr baseURL apiKey log
  unfold checkConnectivity
  simp only
  split
  · exact h
  · split
    · exact h
    · split <;> exact h

/-- A call of `Chat` issues exactly one request. -/
theorem Chat_log (adapter : Adapter) (js : Json) (tr : Transport) (req : ChatRequest)
    (log : List HttpRequest) : (adapter.Chat js tr req log).2.length = log.length + 1 := by
  cases adapter <;>
    simp [Adapter.Chat, OpenAIAdapter.Chat, AnthropicAdapter.Chat, GeminiAdapter.Chat]

/-- A call of `ChatStream` issues exactly one request. -/
theorem ChatStream_log {σ : Type} (adapter : Adapter) (js : Json) (tr : Transport)
    (req : ChatRequest) (cb : Option (StreamCallback σ)) (s : σ) (log : List HttpRequest) :
    (adapter.ChatStream js tr req cb s log).2.2.length = log.length + 1 := by
  cases adapter <;>
    simp only [Adapter.ChatStream, OpenAIAdapter.ChatStream, AnthropicAdapter.ChatStream,
      GeminiAdapter.ChatStream] <;>
    split <;> (try split) <;> simp

/-- A call of `ListModels` issues exactly one request. -/
theorem ListModels_log (adapter : Adapter) (js : Json) (tr : Transport)
    (baseURL apiKey : GoString) (log : List HttpRequest) :
    (adapter.ListModels js tr baseURL apiKey log).2.length = log.length + 1 := by
  cases adapter <;>
    simp [Adapter.ListModels, OpenAIAdapter.ListModels, AnthropicAdapter.ListModels,
      GeminiAdapter.ListModels]

/-- The connectivity check returns the log its probe returns. -/
theorem checkConnectivity_log_eq (tr : Transport) (latency : Int) (adapter : Adapter)
    (baseURL apiKey : GoString) (log : List HttpRequest) :
    (checkConnectivity tr latency adapter baseURL apiKey log).2
      = (adapter.CheckConnectivity tr baseURL apiKey log).2 := by
  unfold checkConnectivity
  simp only
  split
  · rfl
  · split
    · rfl
    · split <;> rfl

/-- The connectivity check tags its result `connectivity`. -/
theorem checkConnectivity_item (tr : Transport) (latency : Int) (adapter : Adapter)
    (baseURL apiKey : GoString) (log : List HttpRequest) :
    (checkConnectivity tr latency adapter baseURL apiKey log).1.Item = CheckConnectivity := by
  unfold checkConnectivity
  simp only
  split
  · rfl
  · split
    · rfl
    · split <;> rfl

/-- The chat check tags its result `chat` and issues one request. -/
theorem checkChat_item_log (js : Json) (tr : Transport) (latency : Int) (adapter : Adapter)
    (baseURL apiKey model : GoString) (log : List HttpRequest) :
    (checkChat js tr latency adapter baseURL apiKey model log).1.Item = CheckChat ∧
      (checkChat js tr latency adapter baseURL apiKey model log).2.length = log.length + 1 := by
  unfold checkChat
  simp only
  split
  · exact ⟨rfl, Chat_log ..⟩
  · split <;> exact ⟨rfl, Chat_log ..⟩

/-- The stream check tags its result `stream` and issues one request. -/
theorem checkStream_item_log (js : Json) (tr : Transport) (latency ttft : Int)
    (adapter : Adapter) (baseURL apiKey model : GoString) (log : List HttpRequest) :
    (checkStream js tr latency ttft adapter baseURL apiKey model log).1.Item = CheckStream ∧
      (checkStream js tr latency ttft adapter baseURL apiKey model log).2.length
        = log.length + 1 := by
  unfold checkStream
  simp only
  split
  · exact ⟨rfl, ChatStream_log ..⟩
  · split
    · exact ⟨rfl, ChatStream_log ..⟩
    · split <;> exact ⟨rfl, ChatStream_log ..⟩

/-- The models check tags its result `models` and issues one request. -/
theorem checkModels_item_log (js : Json) (tr : Transport) (latency : Int) (adapter : Adapter)
    (baseURL apiKey : GoString) (log : List HttpRequest) :
    (checkModels js tr latency adapter baseURL apiKey log).1.1.Item = CheckModels ∧
      (checkModels js tr latency adapter baseURL apiKey log).2.length = log.length + 1 := by
  unfold checkModels
  simp only
  split
  · exact ⟨rfl, ListModels_log ..⟩
  · split <;> exact ⟨rfl, ListModels_log ..⟩

/-- The multi-turn check tags its result `multi_turn` and issues at least one request. -/
theorem checkMultiTurn_item_log (js : Json) (tr : Transport) (latency : Int)
    (adapter : Adapter) (baseURL apiKey model : GoString) (log : List HttpRequest) :
    (checkMultiTurn js tr latency adapter baseURL apiKey model log).1.Item = CheckMultiTurn ∧
      log.length
        < (checkMultiTurn js tr latency adapter baseURL apiKey model log).2.length := by
  unfold checkMultiTurn
  simp only
  split
  · exact ⟨rfl, by rw [Chat_log]; omega⟩
  · split
    · exact ⟨rfl, by rw [Chat_log]; omega⟩
    · split
      · exact ⟨rfl, by rw [Chat_log, Chat_log]; omega⟩
      · split
        · exact ⟨rfl, by rw [Chat_log, Chat_log]; omega⟩
        · split <;> exact ⟨rfl, by rw [Chat_log, Chat_log]; omega⟩

/-- Every goroutine of `RunFullCheck` issues at least one request. -/
theorem spawn_log (run : Run) (adapter : Adapter) (baseURL apiKey model : GoString)
    (st : Vars × List HttpRequest) (g : Goroutine) :
    st.2.length < (RunFullCheck.spawn run adapter baseURL apiKey model st g).2.length := by
  cases g <;> simp only [RunFullCheck.spawn]
  · rw [(checkChat_item_log ..).2]; omega
  · rw [(checkStream_item_log ..).2]; omega
  · rw [(checkModels_item_log ..).2]; omega
  · exact (checkMultiTurn_item_log ..).2

/-- C2: when the connectivity check fails, `RunFullCheck` returns the connectivity entry as its
only result, and the run has issued one request, that of the connectivity probe; every one of
the four other checks would have issued a request of its own, so none of them has run. -/
theorem RunFullCheck_short_circuit (run : Run)
    (baseURL apiKey model providerID providerName proto : GoString)
    (h : (checkConnectivity run.transport run.clock.connectivity (GetAdapter proto) baseURL
      apiKey []).1.Status = StatusFailed) :
    (RunFullCheck run baseURL apiKey model providerID providerName proto).1.Results
        = [(checkConnectivity run.transport run.clock.connectivity (GetAdapter proto) baseURL
            apiKey []).1] ∧
      (RunFullCheck run baseURL apiKey model providerID providerName proto).1.Results.length
        = 1 ∧
      (RunFullCheck run baseURL apiKey model providerID providerName proto).1.Results.map
          (fun r => r.Item) = [CheckConnectivity] ∧
      (RunFullCheck run baseURL apiKey model providerID providerName proto).2
        = ((GetAdapter proto).CheckConnectivity run.transport baseURL apiKey []).2 ∧
      (RunFullCheck run baseURL apiKey model providerID providerName proto).2.length = 1 ∧
      ∀ (g : Goroutine) (st : Vars × List HttpRequest),
        st.2.length
          < (RunFullCheck.spawn run (GetAdapter proto) baseURL apiKey model st g).2.length := by
  have hr : RunFullCheck run baseURL apiKey model providerID providerName proto
      = ({ ProviderID := providerID, ProviderName := providerName, BaseURL := baseURL,
           Model := model, Protocol := proto, StartTime := run.clock.StartTime,
           Results := [(checkConnectivity run.transport run.clock.connectivity (GetAdapter proto)
             baseURL apiKey []).1],
           EndTime := run.clock.EndTime, TotalLatency := run.clock.TotalLatency },
         (checkConnectivity run.transport run.clock.connectivity (GetAdapter proto) baseURL
           apiKey []).2) := by
    unfold RunFullCheck
    simp [h]
  rw [hr]
  refine ⟨rfl, rfl, ?_, ?_, ?_, ?_⟩
  · simp [checkConnectivity_item]
  · exact checkConnectivity_log_eq ..
  · simp [checkConnectivity_log]
  · intro g st
    exact spawn_log ..

/-- C2 on an unreachable endpoint: one result, one request. -/
theorem RunFullCheck_short_circuit_witness :
    (RunFullCheck runDown (go "http://h/v1") (go "k") (go "m") (go "id") (go "name")
        (go "openai")).1.Results.length = 1 ∧
      (RunFullCheck runDown (go "http://h/v1") (go "k") (go "m") (go "id") (go "name")
        (go "openai")).2.length = 1 :=
  have h := RunFullCheck_short_circuit runDown (go "http://h/v1") (go "k") (go "m") (go "id")
    (go "name") (go "openai") (by decide)
  ⟨h.2.1, h.2.2.2.2.1⟩

/-- When the goroutines of a schedule have run, the result variable of every goroutine that was
scheduled (or whose variable was already tagged) carries the tag of its check. -/
theorem spawn_foldl_items (run : Run) (adapter : Adapter) (baseURL apiKey model : GoString)
    (sched : List Goroutine) :
    ∀ st : Vars × List HttpRequest,
      ((st.1.chatResult.Item = CheckChat ∨ Goroutine.chat ∈ sched) →
        (sched.foldl (RunFullCheck.spawn run adapter baseURL apiKey model) st).1.chatResult.Item
          = CheckChat) ∧
      ((st.1.streamResult.Item = CheckStream ∨ Goroutine.stream ∈ sched) →
        (sched.foldl (RunFullCheck.spawn run adapter baseURL apiKey model) st).1.streamResult.Item
          = CheckStream) ∧
      ((st.1.modelResult.Item = CheckModels ∨ Goroutine.models ∈ sched) →
        (sched.foldl (RunFullCheck.spawn run adapter baseURL apiKey model) st).1.modelResult.Item
          = CheckModels) ∧
      ((st.1.multiTurnResult.Item = CheckMultiTurn ∨ Goroutine.multiTurn ∈ sched) →
        (sched.foldl (RunFullCheck.spawn run adapter baseURL apiKey model)
          st).1.multiTurnResult.Item = CheckMultiTurn) := by
  induction sched with
  | nil => intro st; simp
  | cons g gs ih =>
    intro st
    simp only [List.foldl_cons]
    obtain ⟨h1, h2, h3, h4⟩ := ih (RunFullCheck.spawn run adapter baseURL apiKey model st g)
    refine ⟨fun h => h1 ?_, fun h => h2 ?_, fun h => h3 ?_, fun h => h4 ?_⟩
    · cases g <;> simp [RunFullCheck.spawn, (checkChat_item_log ..).1] at h ⊢ <;> exact h
    · cases g <;> simp [RunFullCheck.spawn, (checkStream_item_log ..).1] at h ⊢ <;> exact h
    · cases g <;> simp [RunFullCheck.spawn, (checkModels_item_log ..).1] at h ⊢ <;> exact h
    · cases g <;> simp [RunFullCheck.spawn, (checkMultiTurn_item_log ..).1] at h ⊢ <;> exact h

/-- C3: when the connectivity check does not fail and each of the four goroutines runs once, in
whatever order, `RunFullCheck` returns five results tagged connectivity, chat, stream, models,
multi_turn, in this order. -/
theorem RunFullCheck_item_order (run : Run)
    (baseURL apiKey model providerID providerName proto : GoString)
    (hsched : run.schedule.Perm [Goroutine.chat, Goroutine.stream, Goroutine.models,
      Goroutine.multiTurn])
    (h : (checkConnectivity run.transport run.clock.connectivity (GetAdapter proto) baseURL
      apiKey []).1.Status ≠ StatusFailed) :
    (RunFullCheck run baseURL apiKey model providerID providerName proto).1.Results.length = 5 ∧
      (RunFullCheck run baseURL apiKey model providerID providerName proto).1.Results.map
          (fun r => r.Item)
        = [CheckConnectivity, CheckChat, CheckStream, CheckModels, CheckMultiTurn] := by
  obtain ⟨h1, h2, h3, h4⟩ := spawn_foldl_items run (GetAdapter proto) baseURL apiKey model
    run.schedule ({}, (checkConnectivity run.transport run.clock.connectivity (GetAdapter proto)
      baseURL apiKey []).2)
  have m1 : Goroutine.chat ∈ run.schedule := hsched.symm.subset (by simp)
  have m2 : Goroutine.stream ∈ run.schedule := hsched.symm.subset (by simp)
  have m3 : Goroutine.models ∈ run.schedule := hsched.symm.subset (by simp)
  have m4 : Goroutine.multiTurn ∈ run.schedule := hsched.symm.subset (by simp)
  unfold RunFullCheck
  simp only [h, if_false, List.nil_append, List.cons_append, List.map_cons, List.map_nil,
    List.length_cons, List.length_nil]
  refine ⟨trivial, ?_⟩
  rw [checkConnectivity_item, h1 (Or.inr m1), h2 (Or.inr m2), h3 (Or.inr m3), h4 (Or.inr m4)]

/-- C3 on an endpoint that answers 401, with the goroutines finishing in reverse order. -/
theorem RunFullCheck_item_order_witness :
    (RunFullCheck runUnauthorized (go "http://h/v1") (go "k") (go "m") (go "id") (go "name")
        (go "anthropic")).1.Results.map (fun r => r.Item)
      = [CheckConnectivity, CheckChat, CheckStream, CheckModels, CheckMultiTurn] :=
  (RunFullCheck_item_order runUnauthorized (go "http://h/v1") (go "k") (go "m") (go "id")
    (go "name") (go "anthropic") (by decide) (by decide)).2

/-! ### The report builder -/

/-- The flags of `GenerateReport` after its inner loop. -/
theorem item_foldl (rs : List CheckResult) :
    ∀ f : Flags,
      (rs.foldl GenerateReport.item f).hasFailed
          = (f.hasFailed || rs.any (fun i => decide (i.Status = StatusFailed))) ∧
        (rs.foldl GenerateReport.item f).allSuccess
          = (f.allSuccess && !rs.any (fun i => decide (i.Status = StatusFailed))
              && !rs.any (fun i => decide (i.Status = StatusWarning))) := by
  induction rs with
  | nil => intro f; simp
  | cons r rs ih =>
    intro f
    simp only [List.foldl_cons, List.any_cons]
    obtain ⟨h1, h2⟩ := ih (GenerateReport.item f r)
    rw [h1, h2]
    unfold GenerateReport.item
    by_cases hf : r.Status = StatusFailed
    · have hw : r.Status ≠ StatusWarning := by rw [hf]; exact status_distinct.1
      simp [hf]
    · by_cases hw : r.Status = StatusWarning
      · have d : StatusWarning ≠ StatusFailed := status_distinct.1.symm
        simp [hw, d]
      · simp [hf, hw]

/-- One step of the outer loop of `GenerateReport` adds one to the counter of the bucket of the
result and leaves the other counters alone. -/
theorem result_step (s : ReportSummary) (r : FullCheckResult) :
    GenerateReport.result s r
      = { Total := s.Total
          Success := s.Success + (if specBucket r = StatusSuccess then 1 else 0)
          Failed := s.Failed + (if specBucket r = StatusFailed then 1 else 0)
          Warning := s.Warning + (if specBucket r = StatusWarning then 1 else 0) } := by
  obtain ⟨h1, h2⟩ := item_foldl r.Results { allSuccess := true, hasFailed := false }
  have d1 := status_distinct.1
  have d2 := status_distinct.2.1
  have d3 := status_distinct.2.2
  unfold GenerateReport.result specBucket
  simp only [h1, h2, Bool.false_or, Bool.true_and]
  by_cases hf : (r.Results.any fun i => decide (i.Status = StatusFailed)) = true
  · simp [hf, d1, d2]
  · by_cases hw : (r.Results.any fun i => decide (i.Status = StatusWarning)) = true
    · simp only [hf, hw]
      simp [d1.symm, d3]
    · simp only [hf, hw]
      simp [d2.symm, d3.symm]

/-- The counters of `GenerateReport` after its outer loop. -/
theorem result_foldl (rs : List FullCheckResult) :
    ∀ s : ReportSummary,
      rs.foldl GenerateReport.result s
        = { Total := s.Total
            Success := s.Success + rs.countP (fun r => decide (specBucket r = StatusSuccess))
            Failed := s.Failed + rs.countP (fun r => decide (specBucket r = StatusFailed))
            Warning := s.Warning + rs.countP (fun r => decide (specBucket r = StatusWarning)) } := by
  induction rs with
  | nil => intro s; simp
  | cons r rs ih =>
    intro s
    simp only [List.foldl_cons, ih, result_step, List.countP_cons]
    congr 1 <;> split <;> simp_all <;> omega

/-- Every result falls in exactly one of the three buckets. -/
theorem bucket_partition (rs : List FullCheckResult) :
    rs.countP (fun r => decide (specBucket r = StatusFailed))
        + rs.countP (fun r => decide (specBucket r = StatusWarning))
        + rs.countP (fun r => decide (specBucket r = StatusSuccess)) = rs.length := by
  have d1 := status_distinct.1
  have d2 := status_distinct.2.1
  have d3 := status_distinct.2.2
  induction rs with
  | nil => simp
  | cons r rs ih =>
    simp only [List.countP_cons, List.length_cons]
    have h : specBucket r = StatusFailed ∨ specBucket r = StatusWarning
        ∨ specBucket r = StatusSuccess := by
      unfold specBucket
      split
      · exact Or.inl rfl
      · split
        · exact Or.inr (Or.inl rfl)
        · exact Or.inr (Or.inr rfl)
    rcases h with h | h | h <;> simp [h, d1, d2, d3, d1.symm, d2.symm, d3.symm] <;> omega

/-- C4: the summary of `GenerateReport` has `Total` equal to the number of results and counts
each result in one bucket: `Failed` when one of its check results is failed, otherwise `Warning`
when one is warning, otherwise `Success`. Three results, one with a failed entry, one with a
warning entry and no failed one, one all success, give total 3, failed 1, warning 1, success 1,
in whatever order they come. -/
theorem GenerateReport_summary (marshal : Report → GoString) (now : GoString)
    (results : List FullCheckResult) :
    GenerateReport marshal now results
        = marshal { GeneratedAt := now, Results := results,
                    Summary := GenerateReport.summary results } ∧
      (GenerateReport.summary results).Total = results.length ∧
      (GenerateReport.summary results).Failed
        = results.countP (fun r => decide (specBucket r = StatusFailed)) ∧
      (GenerateReport.summary results).Warning
        = results.countP (fun r => decide (specBucket r = StatusWarning)) ∧
      (GenerateReport.summary results).Success
        = results.countP (fun r => decide (specBucket r = StatusSuccess)) ∧
      (GenerateReport.summary results).Failed + (GenerateReport.summary results).Warning
          + (GenerateReport.summary results).Success
        = (GenerateReport.summary results).Total ∧
      ∀ r1 r2 r3 : FullCheckResult, results.Perm [r1, r2, r3] →
        (∃ i ∈ r1.Results, i.Status = StatusFailed) →
        (∃ i ∈ r2.Results, i.Status = StatusWarning) →
        (∀ i ∈ r2.Results, i.Status ≠ StatusFailed) →
        (∀ i ∈ r3.Results, i.Status = StatusSuccess) →
        GenerateReport.summary results = { Total := 3, Success := 1, Failed := 1, Warning := 1 } := by
  have d1 := status_distinct.1
  have d2 := status_distinct.2.1
  have d3 := status_distinct.2.2
  have hs : GenerateReport.summary results
      = { Total := results.length
          Success := results.countP (fun r => decide (specBucket r = StatusSuccess))
          Failed := results.countP (fun r => decide (specBucket r = StatusFailed))
          Warning := results.countP (fun r => decide (specBucket r = StatusWarning)) } := by
    unfold GenerateReport.summary
    rw [result_foldl]
    simp
  refine ⟨rfl, ?_, ?_, ?_, ?_, ?_, ?_⟩
  · rw [hs]
  · rw [hs]
  · rw [hs]
  · rw [hs]
  · rw [hs]
    have h := bucket_partition results
    simp only
    omega
  · intro r1 r2 r3 hp h1 h2 h2' h3
    have b1 : specBucket r1 = StatusFailed := by
      obtain ⟨i, hi, hst⟩ := h1
      have : (r1.Results.any fun i => decide (i.Status = StatusFailed)) = true := by
        rw [List.any_eq_true]
        exact ⟨i, hi, by simp [hst]⟩
      simp [specBucket, this]
    have b2 : specBucket r2 = StatusWarning := by
      obtain ⟨i, hi, hst⟩ := h2
      have hw : (r2.Results.any fun i => decide (i.Status = StatusWarning)) = true := by
        rw [List.any_eq_true]
        exact ⟨i, hi, by simp [hst]⟩
      have hf : (r2.Results.any fun i => decide (i.Status = StatusFailed)) = false := by
        rw [List.any_eq_false]
        intro x hx
        simpa using h2' x hx
      simp [specBucket, hw, hf]
    have b3 : specBucket r3 = StatusSuccess := by
      have hw : (r3.Results.any fun i => decide (i.Status = StatusWarning)) = false := by
        rw [List.any_eq_false]
        intro x hx
        simp [h3 x hx, d3.symm]
      have hf : (r3.Results.any fun i => decide (i.Status = StatusFailed)) = false := by
        rw [List.any_eq_false]
        intro x hx
        simp [h3 x hx, d2.symm]
      simp [specBucket, hw, hf]
    rw [hs, hp.length_eq, hp.countP_eq, hp.countP_eq, hp.countP_eq]
    simp [List.countP_cons, b1, b2, b3, d1, d2, d3, d1.symm, d2.symm, d3.symm]

/-- C4 on the three results of the example, the all-success one first. -/
theorem GenerateReport_summary_witness :
    GenerateReport.summary
        [resultOf [StatusSuccess, StatusSuccess], resultOf [StatusSuccess, StatusFailed],
         resultOf [StatusWarning]]
      = { Total := 3, Success := 1, Failed := 1, Warning := 1 } :=
  (GenerateReport_summary (fun _ => []) []
      [resultOf [StatusSuccess, StatusSuccess], resultOf [StatusSuccess, StatusFailed],
       resultOf [StatusWarning]]).2.2.2.2.2.2
    (resultOf [StatusSuccess, StatusFailed]) (resultOf [StatusWarning])
    (resultOf [StatusSuccess, StatusSuccess]) (by decide) (by decide) (by decide) (by decide)
    (by decide)

/-! ### The batch runner -/

/-- Storing received values at their indices keeps the length of the slice. -/
theorem foldl_set_length (ch : List Indexed) :
    ∀ init : List FullCheckResult,
      (ch.foldl (fun results ir => results.set ir.idx ir.result) init).length = init.length := by
  induction ch with
  | nil => intro init; rfl
  | cons ir rest ih => intro init; simp only [List.foldl_cons, ih, List.length_set]

/-- When every value on the channel is `f` of the index it is tagged with, position `j` of the
slice holds `f j` once a value tagged `j` has been received. -/
theorem foldl_set_get (f : Nat → FullCheckResult) (ch : List Indexed)
    (hch : ∀ ir ∈ ch, ir.result = f ir.idx) :
    ∀ (init : List FullCheckResult) (j : Nat), j < init.length →
      ((∃ ir ∈ ch, ir.idx = j) ∨ init[j]? = some (f j)) →
      (ch.foldl (fun results ir => results.set ir.idx ir.result) init)[j]? = some (f j) := by
  induction ch with
  | nil =>
    intro init j _ h
    rcases h with ⟨ir, hir, _⟩ | h
    · cases hir
    · exact h
  | cons ir rest ih =>
    intro init j hj h
    simp only [List.foldl_cons]
    have hhead : ir.result = f ir.idx := hch ir (List.mem_cons_self _ _)
    apply ih (fun x hx => hch x (List.mem_cons_of_mem _ hx)) _ j (by simpa using hj)
    by_cases hidx : ir.idx = j
    · right
      rw [hidx] at hhead
      rw [hidx, hhead, List.getElem?_set_self hj]
    · rcases h with ⟨x, hx, hxj⟩ | h
      · rcases List.mem_cons.mp hx with rfl | hx
        · exact absurd hxj hidx
        · exact Or.inl ⟨x, hx, hxj⟩
      · right
        rw [List.getElem?_set_ne hidx]
        exact h

/-- The receive loop puts the value sent for input `i` at index `i`, whatever the order of the
sends. -/
theorem receive_order {α : Type} (xs : List α) (send : Nat → α → Indexed)
    (hsend : ∀ i x, (send i x).idx = i) (order : List Nat)
    (hperm : order.Perm (List.range xs.length)) :
    (receive xs.length (order.filterMap (fun i => (xs.get? i).map (send i)))).length
        = xs.length ∧
      ∀ i x, xs.get? i = some x →
        (receive xs.length (order.filterMap (fun i => (xs.get? i).map (send i)))).get? i
          = some (send i x).result := by
  have hlen : (order.filterMap (fun i => (xs.get? i).map (send i))).length ≤ xs.length := by
    have h1 := List.length_filterMap_le (fun i => (xs.get? i).map (send i)) order
    have h2 := hperm.length_eq
    simp only [List.length_range] at h2
    omega
  unfold receive
  rw [List.take_of_length_le hlen]
  refine ⟨by simp [foldl_set_length], ?_⟩
  intro i x hx
  rw [List.get?_eq_getElem?] at hx
  have hi : i < xs.length := (List.getElem?_eq_some_iff.mp hx).1
  have key := foldl_set_get
    (fun j => match xs.get? j with
      | some y => (send j y).result
      | none => {})
    (order.filterMap (fun i => (xs.get? i).map (send i)))
    (by
      intro ir hir
      obtain ⟨k, _, hk⟩ := List.mem_filterMap.mp hir
      simp only [List.get?_eq_getElem?, Option.map_eq_some'] at hk
      obtain ⟨y, hy, rfl⟩ := hk
      simp only [hsend, List.get?_eq_getElem?, hy])
    (List.replicate xs.length {}) i (by simpa using hi)
    (Or.inl ⟨send i x, List.mem_filterMap.mpr
      ⟨i, hperm.symm.subset (List.mem_range.mpr hi), by simp [hx]⟩, hsend i x⟩)
  rw [List.get?_eq_getElem?, key]
  simp only [List.get?_eq_getElem?, hx]

/-- C5: when each of the `N` goroutines of a batch sends its index-tagged result once, in
whatever order the sends arrive, `RunBatchCheck` and `RunBatchKeyCheck` return `N` results, and
the one at index `i` is the result of the run made for input `i`. -/
theorem batch_order (m : Marshal) (runs : Nat → Run) (order : List Nat) :
    (∀ items : List BatchCheckItem, order.Perm (List.range items.length) →
      (RunBatchCheck m runs order items).1.length = items.length ∧
      ∀ i it, items.get? i = some it →
        (RunBatchCheck m runs order items).1.get? i
          = some (RunFullCheck (runs i) it.BaseURL it.APIKey it.Model it.ProviderID
              it.ProviderName it.Protocol).1) ∧
    (∀ (baseURL model providerID providerName protocol : GoString) (apiKeys : List GoString),
      order.Perm (List.range apiKeys.length) →
      (RunBatchKeyCheck m runs order baseURL model providerID providerName protocol
          apiKeys).1.length = apiKeys.length ∧
      ∀ i k, apiKeys.get? i = some k →
        (RunBatchKeyCheck m runs order baseURL model providerID providerName protocol
            apiKeys).1.get? i
          = some (RunFullCheck (runs i) baseURL k model providerID
              (providerName ++ go " (" ++ maskKey k ++ go ")") protocol).1) := by
  constructor
  · intro items h
    exact receive_order items
      (fun idx it => { idx := idx, result := (RunFullCheck (runs idx) it.BaseURL it.APIKey
        it.Model it.ProviderID it.ProviderName it.Protocol).1 })
      (fun _ _ => rfl) order h
  · intro baseURL model providerID providerName protocol apiKeys h
    exact receive_order apiKeys
      (fun idx k => { idx := idx, result := (RunFullCheck (runs idx) baseURL k model providerID
        (providerName ++ go " (" ++ maskKey k ++ go ")") protocol).1 })
      (fun _ _ => rfl) order h

/-- C5 on three items whose results arrive in the reverse of the submission order: index 0
still holds the result for the first item and index 2 the result for the last. -/
theorem batch_order_witness :
    (RunBatchCheck marshal0 (fun _ => runDown) [2, 1, 0] items3).1.get? 0
        = some (RunFullCheck runDown (go "http://a/v1") (go "ka") (go "m") (go "a") (go "A")
            (go "openai")).1 ∧
      (RunBatchCheck marshal0 (fun _ => runDown) [2, 1, 0] items3).1.get? 2
        = some (RunFullCheck runDown (go "http://c/v1") (go "kc") (go "m") (go "c") (go "C")
            (go "gemini")).1 ∧
      (RunBatchKeyCheck marshal0 (fun _ => runDown) [2, 1, 0] (go "http://a/v1") (go "m")
          (go "a") (go "A") (go "openai") keys3).1.length = 3 :=
  ⟨((batch_order marshal0 (fun _ => runDown) [2, 1, 0]).1 items3 (by decide)).2 0 _ rfl,
   ((batch_order marshal0 (fun _ => runDown) [2, 1, 0]).1 items3 (by decide)).2 2 _ rfl,
   ((batch_order marshal0 (fun _ => runDown) [2, 1, 0]).2 (go "http://a/v1") (go "m") (go "a")
      (go "A") (go "openai") keys3 (by decide)).1⟩

/-- The UTF-8 encoding of a character below 128 is one byte. -/
theorem utf8_ascii (cs : List Char) (h : ∀ c ∈ cs, c.toNat < 128) :
    cs.flatMap utf8 = cs.map (fun c => UInt8.ofNat c.toNat) := by
  induction cs with
  | nil => rfl
  | cons c cs ih =>
    have hc : c.toNat < 128 := h c (List.mem_cons_self _ _)
    have hu : utf8 c = [UInt8.ofNat c.toNat] := by simp [utf8, hc]
    rw [List.flatMap_cons, hu, ih (fun x hx => h x (List.mem_cons_of_mem _ hx))]
    rfl

/-- C6 as stated fails: the credential `密钥密钥` has 4 characters and 12 bytes, and the
credential `sk-1234é` has 8 characters and 9 bytes; `maskKey` gives neither the mask `***`
of the specification for a credential of 8 characters or fewer, but the first 3 bytes, `...`
and the last 4 bytes, which for the first credential end in the middle of a character. -/
theorem maskKey_counts_bytes :
    ("密钥密钥".toList.length = 4 ∧ (go "密钥密钥").length = 12 ∧
      specMaskKey "密钥密钥".toList = "***".toList ∧
      maskKey (go "密钥密钥") = go "密..." ++ [0x86] ++ go "钥" ∧
      maskKey (go "密钥密钥") ≠ (specMaskKey "密钥密钥".toList).flatMap utf8) ∧
    ("sk-1234é".toList.length = 8 ∧ (go "sk-1234é").length = 9 ∧
      specMaskKey "sk-1234é".toList = "***".toList ∧
      maskKey (go "sk-1234é") = go "sk-...34é" ∧
      maskKey (go "sk-1234é") ≠ (specMaskKey "sk-1234é".toList).flatMap utf8) :=
  ⟨⟨by decide, by decide, by decide, by decide, by decide⟩,
   ⟨by decide, by decide, by decide, by decide, by decide⟩⟩

/-- C6, amended: `maskKey` returns `***` for a key of at most 8 bytes, and otherwise the first 3
bytes of the key, then `...`, then its last 4 bytes; a key of 10 bytes gives its bytes 0 to 2,
`...`, and its bytes 6 to 9. Lengths and positions count bytes, the unit of Go's `len` and
slicing. For a key whose characters are all below 128, bytes are characters and the result is
the masking of the specification on characters. -/
theorem maskKey_spec (key : GoString) :
    (key.length ≤ 8 → maskKey key = go "***") ∧
      (8 < key.length →
        maskKey key = key.take 3 ++ go "..." ++ key.drop (key.length - 4) ∧
        (key.take 3).length = 3 ∧ (key.drop (key.length - 4)).length = 4) ∧
      (key.length = 10 → maskKey key = key.take 3 ++ go "..." ++ key.drop 6) ∧
      (∀ cs : List Char, (∀ c ∈ cs, c.toNat < 128) → key = cs.flatMap utf8 →
        key.length = cs.length ∧ maskKey key = (specMaskKey cs).flatMap utf8) := by
  refine ⟨?_, ?_, ?_, ?_⟩
  · intro h
    simp [maskKey, h]
  · intro h
    have h' : ¬ key.length ≤ 8 := by omega
    refine ⟨by simp [maskKey, h'], ?_, ?_⟩
    · simp only [List.length_take]; omega
    · simp only [List.length_drop]; omega
  · intro h
    have h' : ¬ key.length ≤ 8 := by omega
    simp [maskKey, h', h]
  · intro cs hcs hkey
    have hlen : key.length = cs.length := by rw [hkey, utf8_ascii cs hcs, List.length_map]
    refine ⟨hlen, ?_⟩
    unfold maskKey specMaskKey
    rw [hlen]
    by_cases h : cs.length ≤ 8
    · rw [if_pos h, if_pos h]
      rfl
    · rw [if_neg h, if_neg h, List.flatMap_append, List.flatMap_append,
        utf8_ascii _ (fun c hc => hcs c (List.mem_of_mem_take hc)),
        utf8_ascii _ (fun c hc => hcs c (List.mem_of_mem_drop hc)),
        hkey, utf8_ascii cs hcs, List.map_take, List.map_drop]
      rfl

/-- C6, amended, on a key of ten bytes, on a key of eight, and on the ten characters of the
first key. -/
theorem maskKey_spec_witness :
    maskKey (go "sk-1234567") = go "sk-...4567" ∧ maskKey (go "sk-12345") = go "***" ∧
      maskKey (go "sk-1234567") = (specMaskKey "sk-1234567".toList).flatMap utf8 :=
  ⟨((maskKey_spec (go "sk-1234567")).2.2.1 (by decide)).trans (by decide),
   (maskKey_spec (go "sk-12345")).1 (by decide),
   ((maskKey_spec (go "sk-1234567")).2.2.2 "sk-1234567".toList (by decide) rfl).2⟩

/-- The identification fields of the result of `RunFullCheck` are its arguments. -/
theorem RunFullCheck_fields (run : Run)
    (baseURL apiKey model providerID providerName proto : GoString) :
    (RunFullCheck run baseURL apiKey model providerID providerName proto).1.ProviderID
        = providerID ∧
      (RunFullCheck run baseURL apiKey model providerID providerName proto).1.ProviderName
        = providerName ∧
      (RunFullCheck run baseURL apiKey model providerID providerName proto).1.BaseURL
        = baseURL ∧
      (RunFullCheck run baseURL apiKey model providerID providerName proto).1.Model = model ∧
      (RunFullCheck run baseURL apiKey model providerID providerName proto).1.Protocol
        = proto := by
  unfold RunFullCheck
  simp only
  split <;> exact ⟨rfl, rfl, rfl, rfl, rfl⟩

/-- C7: in the slice `RunBatchKeyCheck` returns, the entry at index `i` is the result of the run
made with key `i` as credential and with provider name `providerName + " (" + maskKey(key) + ")"`;
it carries that name, and its provider id, base URL, model and protocol are the shared
arguments. -/
theorem RunBatchKeyCheck_entry (m : Marshal) (runs : Nat → Run) (order : List Nat)
    (baseURL model providerID providerName protocol : GoString) (apiKeys : List GoString)
    (horder : order.Perm (List.range apiKeys.length)) (i : Nat) (k : GoString)
    (hk : apiKeys.get? i = some k) :
    (RunBatchKeyCheck m runs order baseURL model providerID providerName protocol
        apiKeys).1.get? i
      = some (RunFullCheck (runs i) baseURL k model providerID
          (providerName ++ go " (" ++ maskKey k ++ go ")") protocol).1 ∧
    (RunFullCheck (runs i) baseURL k model providerID
        (providerName ++ go " (" ++ maskKey k ++ go ")") protocol).1.ProviderName
      = providerName ++ go " (" ++ maskKey k ++ go ")" ∧
    (RunFullCheck (runs i) baseURL k model providerID
        (providerName ++ go " (" ++ maskKey k ++ go ")") protocol).1.ProviderID = providerID ∧
    (RunFullCheck (runs i) baseURL k model providerID
        (providerName ++ go " (" ++ maskKey k ++ go ")") protocol).1.BaseURL = baseURL ∧
    (RunFullCheck (runs i) baseURL k model providerID
        (providerName ++ go " (" ++ maskKey k ++ go ")") protocol).1.Model = model ∧
    (RunFullCheck (runs i) baseURL k model providerID
        (providerName ++ go " (" ++ maskKey k ++ go ")") protocol).1.Protocol = protocol := by
  obtain ⟨f1, f2, f3, f4, f5⟩ := RunFullCheck_fields (runs i) baseURL k model providerID
    (providerName ++ go " (" ++ maskKey k ++ go ")") protocol
  refine ⟨?_, f2, f1, f3, f4, f5⟩
  exact (receive_order apiKeys
    (fun idx k => { idx := idx, result := (RunFullCheck (runs idx) baseURL k model providerID
      (providerName ++ go " (" ++ maskKey k ++ go ")") protocol).1 })
    (fun _ _ => rfl) order horder).2 i k hk

/-- C7 on three keys: the entry for the first key is named `A (sk-...4567)`, read off the slice
the batch returns. -/
theorem RunBatchKeyCheck_entry_witness :
    ((RunBatchKeyCheck marshal0 (fun _ => runDown) [1, 2, 0] (go "http://a/v1") (go "m")
        (go "a") (go "A") (go "openai") keys3).1.get? 0).map (fun r => r.ProviderName)
      = some (go "A (sk-...4567)") := by
  have h := RunBatchKeyCheck_entry marshal0 (fun _ => runDown) [1, 2, 0] (go "http://a/v1")
    (go "m") (go "a") (go "A") (go "openai") keys3 (by decide) 0 (go "sk-1234567") rfl
  rw [h.1, Option.map_some', h.2.1]
  decide

/-- C8: `GetAdapter` returns the Anthropic adapter exactly for `anthropic`, the Gemini adapter
exactly for `gemini`, and the OpenAI adapter for every other identifier, among them `openai`,
the empty string, and identifiers that differ from the two names in case only. -/
theorem GetAdapter_selects (p : Protocol) :
    (GetAdapter p = Adapter.AnthropicAdapter ↔ p = go "anthropic") ∧
      (GetAdapter p = Adapter.GeminiAdapter ↔ p = go "gemini") ∧
      (GetAdapter p = Adapter.OpenAIAdapter ↔ (p ≠ go "anthropic" ∧ p ≠ go "gemini")) ∧
      GetAdapter (go "openai") = Adapter.OpenAIAdapter ∧
      GetAdapter (go "") = Adapter.OpenAIAdapter ∧
      GetAdapter (go "Anthropic") = Adapter.OpenAIAdapter ∧
      GetAdapter (go "GEMINI") = Adapter.OpenAIAdapter ∧
      GetAdapter (go "azure") = Adapter.OpenAIAdapter := by
  have hne : go "anthropic" ≠ go "gemini" := by decide
  refine ⟨?_, ?_, ?_, by decide, by decide, by decide, by decide, by decide⟩ <;>
    unfold GetAdapter ProtocolAnthropic ProtocolGemini <;>
    by_cases h1 : p = go "anthropic" <;>
    by_cases h2 : p = go "gemini" <;>
    simp_all [hne, hne.symm]

/-! ### The adapters -/

/-- C9: when the endpoint answers with status 200 and the body decodes to the success shape of
the protocol (no `error` object and a first choice, content block, or candidate with a first
part), `Chat` returns a response with an empty `Error`, with `Content` equal to
`choices[0].message.content` (OpenAI), `content[0].text` (Anthropic) or
`candidates[0].content.parts[0].text` (Gemini), and with the token counts of the usage object, or
zero for both when the body has none. -/
theorem Chat_success_shape (js : Json) (tr : Transport) (req : ChatRequest)
    (log : List HttpRequest) (body : Reader) (text : GoString) (usage : Option Usage) :
    (∀ rest : List GoString,
      tr log (OpenAIAdapter.chatRequest req none) = .ok ⟨200, body⟩ →
      js.openAIChat (ReadAll body) = .ok { Choices := text :: rest, Usage := usage, Error := none } →
      (OpenAIAdapter.Chat js tr req log).1
        = .ok { Content := text, StatusCode := 200, Error := [], RawBody := [],
                PromptTokens := match usage with | some u => u.PromptTokens | none => 0,
                CompTokens := match usage with | some u => u.CompletionTokens | none => 0 }) ∧
    (∀ rest : List GoString,
      tr log (AnthropicAdapter.chatRequest req none) = .ok ⟨200, body⟩ →
      js.anthropicChat (ReadAll body)
        = .ok { Content := text :: rest, Usage := usage, Error := none } →
      (AnthropicAdapter.Chat js tr req log).1
        = .ok { Content := text, StatusCode := 200, Error := [], RawBody := [],
                PromptTokens := match usage with | some u => u.PromptTokens | none => 0,
                CompTokens := match usage with | some u => u.CompletionTokens | none => 0 }) ∧
    (∀ (parts : List GoString) (rest : List (List GoString)),
      tr log (GeminiAdapter.chatRequest req (go "generateContent?key=")) = .ok ⟨200, body⟩ →
      js.geminiChat (ReadAll body)
        = .ok { Candidates := (text :: parts) :: rest, UsageMetadata := usage, Error := none } →
      (GeminiAdapter.Chat js tr req log).1
        = .ok { Content := text, StatusCode := 200, Error := [], RawBody := [],
                PromptTokens := match usage with | some u => u.PromptTokens | none => 0,
                CompTokens := match usage with | some u => u.CompletionTokens | none => 0 }) := by
  refine ⟨?_, ?_, ?_⟩
  · intro rest h1 h2
    cases usage <;> simp [OpenAIAdapter.Chat, h1, h2]
  · intro rest h1 h2
    cases usage <;> simp [AnthropicAdapter.Chat, h1, h2]
  · intro parts rest h1 h2
    cases usage <;> simp [GeminiAdapter.Chat, h1, h2]

/-- C9 on a reply `OK` with usage 9 and 1 for OpenAI and Gemini, and without usage for
Anthropic. -/
theorem Chat_success_shape_witness :
    (OpenAIAdapter.Chat (decodeOK true) (serve 200 (go "reply")) hello []).1
        = .ok { Content := go "OK", StatusCode := 200, PromptTokens := 9, CompTokens := 1 } ∧
      (AnthropicAdapter.Chat (decodeOK false) (serve 200 (go "reply")) hello []).1
        = .ok { Content := go "OK", StatusCode := 200, PromptTokens := 0, CompTokens := 0 } ∧
      (GeminiAdapter.Chat (decodeOK true) (serve 200 (go "reply")) hello []).1
        = .ok { Content := go "OK", StatusCode := 200, PromptTokens := 9, CompTokens := 1 } :=
  ⟨(Chat_success_shape (decodeOK true) (serve 200 (go "reply")) hello [] ⟨[], go "reply"⟩
      (go "OK") (some ⟨9, 1⟩)).1 [] rfl rfl,
   (Chat_success_shape (decodeOK false) (serve 200 (go "reply")) hello [] ⟨[], go "reply"⟩
      (go "OK") none).2.1 [] rfl rfl,
   (Chat_success_shape (decodeOK true) (serve 200 (go "reply")) hello [] ⟨[], go "reply"⟩
      (go "OK") (some ⟨9, 1⟩)).2.2 [] [] rfl rfl⟩

/-- C10 as stated fails: for the answer 502 with body `Bad Gateway` and a final newline, `Chat`
returns `HTTP 502` with raw body `Bad Gateway`, without the newline, which is not the first 300
bytes of the body. -/
theorem rawBody_is_trimmed :
    (OpenAIAdapter.Chat rejectAll (serve 502 (go "Bad Gateway\n")) hello []).1
        = .ok { StatusCode := 502, Error := go "HTTP 502", RawBody := go "Bad Gateway" } ∧
      go "Bad Gateway" ≠ (go "Bad Gateway\n").take 300 :=
  ⟨by rfl, by decide⟩

/-- C10, amended: for each adapter and every answer whose status `c` is not a 2xx code, `Chat`
and `ChatStream` return (not as an error) a response whose `Error` is `HTTP <c>` and whose
`RawBody` is the first 300 bytes of the body with its leading and trailing white space removed,
followed by `...` exactly when the trimmed body is longer than 300 bytes; `ChatStream` does not
call the callback. -/
theorem http_failure_response (a : Adapter) (js : Json) (tr : Transport) (req : ChatRequest)
    (log : List HttpRequest) (c : Int) (body : Reader) (hc : c < 200 ∨ 300 ≤ c) :
    (tr log (a.chatRequest req false) = .ok ⟨c, body⟩ →
      (a.Chat js tr req log).1
        = .ok { StatusCode := c, Error := go "HTTP " ++ fmtInt c,
                RawBody := (TrimSpace (ReadAll body)).take 300 ++
                  (if 300 < (TrimSpace (ReadAll body)).length then go "..." else []) }) ∧
    (∀ (σ : Type) (cb : Option (StreamCallback σ)) (s : σ),
      tr log (a.chatRequest req true) = .ok ⟨c, body⟩ →
      (a.ChatStream js tr req cb s log).1
          = .ok { StatusCode := c, Error := go "HTTP " ++ fmtInt c,
                  RawBody := (TrimSpace (ReadAll body)).take 300 ++
                    (if 300 < (TrimSpace (ReadAll body)).length then go "..." else []) } ∧
        (a.ChatStream js tr req cb s log).2.1 = s) ∧
    ((TrimSpace (ReadAll body)).take 300).length ≤ 300 := by
  have hc' : c ≠ 200 := by omega
  have htr : ∀ s : GoString, protocol.truncate s 300
      = (TrimSpace s).take 300 ++ (if 300 < (TrimSpace s).length then go "..." else []) := by
    intro s
    unfold protocol.truncate
    by_cases h : (TrimSpace s).length ≤ 300
    · have h' : ¬ 300 < (TrimSpace s).length := by omega
      simp [h, h', List.take_of_length_le h]
    · have h' : 300 < (TrimSpace s).length := by omega
      simp [h, h']
  refine ⟨?_, ?_, ?_⟩
  · intro h
    cases a <;>
      simp [Adapter.chatRequest] at h <;>
      simp [Adapter.Chat, OpenAIAdapter.Chat, AnthropicAdapter.Chat, GeminiAdapter.Chat, h, hc',
        httpFailure, htr]
  · intro σ cb s h
    cases a <;>
      simp [Adapter.chatRequest] at h <;>
      simp [Adapter.ChatStream, OpenAIAdapter.ChatStream, AnthropicAdapter.ChatStream,
        GeminiAdapter.ChatStream, h, hc', httpFailure, htr]
  · simp only [List.length_take]
    omega

set_option maxRecDepth 16000 in
/-- C10, amended, on a 404 answer whose body is 301 bytes `a` and a newline: `RawBody` is 300
bytes `a` followed by `...`. -/
theorem http_failure_response_witness :
    (Adapter.Chat .GeminiAdapter rejectAll
        (serve 404 (List.replicate 301 97 ++ [10])) hello []).1
      = .ok { StatusCode := 404, Error := go "HTTP 404",
              RawBody := List.replicate 300 97 ++ go "..." } :=
  ((http_failure_response .GeminiAdapter rejectAll (serve 404 (List.replicate 301 97 ++ [10]))
    hello [] 404 ⟨[], List.replicate 301 97 ++ [10]⟩ (Or.inr (by decide))).1 rfl).trans
    (by rfl)

/-! ### The streaming decoders -/

/-- After its first call a decoder passes `false` as flag. -/
theorem callsFor_false (ts : List GoString) : callsFor false ts = ts.map (fun t => (t, false)) := by
  cases ts <;> rfl

/-- The calls for two runs of deltas, one after the other. -/
theorem callsFor_append (first : Bool) (ts us : List GoString) :
    callsFor first (ts ++ us) = callsFor first ts ++ callsFor (first && ts.isEmpty) us := by
  cases ts with
  | nil => simp [callsFor]
  | cons t ts =>
    simp only [List.cons_append, callsFor.eq_2, List.map_append, List.isEmpty_cons,
      Bool.and_false, callsFor_false]

/-- The state of a decoder after `emit` has been applied to the texts `ts` in order, for a
non-nil callback `f`. -/
theorem emit_foldl_some {σ : Type} (f : StreamCallback σ) (ts : List GoString) :
    ∀ st : SSEState σ,
      ts.foldl (emit (some f)) st
        = { fullContent := st.fullContent ++ (ts.filter (fun t => decide (t ≠ []))).flatten
            chunkCount := st.chunkCount + (ts.filter (fun t => decide (t ≠ []))).length
            isFirst := st.isFirst && (ts.filter (fun t => decide (t ≠ []))).isEmpty
            user := (callsFor st.isFirst (ts.filter (fun t => decide (t ≠ [])))).foldl
              (fun u c => f c.1 c.2 u) st.user } := by
  induction ts with
  | nil => intro st; simp [callsFor]
  | cons t ts ih =>
    intro st
    rw [List.foldl_cons, ih]
    by_cases ht : t = []
    · simp [emit, ht]
    · simp [emit, ht, callsFor.eq_2, callsFor_false, List.foldl_map]
      omega

/-- The state of a decoder after `emit` has been applied to the texts `ts` in order, for a nil
callback. -/
theorem emit_foldl_none {σ : Type} (ts : List GoString) :
    ∀ st : SSEState σ,
      ts.foldl (emit none) st
        = { fullContent := st.fullContent ++ (ts.filter (fun t => decide (t ≠ []))).flatten
            chunkCount := st.chunkCount + (ts.filter (fun t => decide (t ≠ []))).length
            isFirst := st.isFirst
            user := st.user } := by
  induction ts with
  | nil => intro st; simp
  | cons t ts ih =>
    intro st
    rw [List.foldl_cons, ih]
    by_cases ht : t = []
    · simp [emit, ht]
    · simp [emit, ht]
      omega

/-- Folding over a concatenation of runs is folding over the runs, one after the other. -/
theorem foldl_flatMap_runs {α β γ : Type} (f : β → γ → β) (g : α → List γ) (l : List α) :
    ∀ b : β, (l.flatMap g).foldl f b = l.foldl (fun b a => (g a).foldl f b) b := by
  induction l with
  | nil => intro b; rfl
  | cons a l ih => intro b; simp [List.flatMap_cons, List.foldl_append, ih]

/-- Filtering a concatenation of runs is concatenating the filtered runs. -/
theorem filter_flatMap_runs {α γ : Type} (p : γ → Bool) (g : α → List γ) (l : List α) :
    (l.flatMap g).filter p = l.flatMap (fun a => (g a).filter p) := by
  induction l with
  | nil => rfl
  | cons a l ih => simp [List.flatMap_cons, List.filter_append, ih]

/-- The loop body of `readSSE` applies `emit` to the texts of the line. -/
theorem readSSE_line_eq {σ : Type} (js : Json) (cb : Option (StreamCallback σ))
    (st : SSEState σ) (l : GoString) :
    readSSE.line js cb st l = (readSSE.texts js l).foldl (emit cb) st := by
  unfold readSSE.line readSSE.texts
  simp only
  split
  · rfl
  · split
    · rfl
    · split <;> simp_all

/-- The loop body of `readAnthropicSSE` applies `emit` to the texts of the line. -/
theorem readAnthropicSSE_line_eq {σ : Type} (js : Json) (cb : Option (StreamCallback σ))
    (st : SSEState σ) (l : GoString) :
    readAnthropicSSE.line js cb st l = (readAnthropicSSE.texts js l).foldl (emit cb) st := by
  unfold readAnthropicSSE.line readAnthropicSSE.texts
  simp only
  split
  · rfl
  · split
    · split <;> simp_all
    · simp_all

/-- The loop body of `readGeminiSSE` applies `emit` to the texts of the line. -/
theorem readGeminiSSE_line_eq {σ : Type} (js : Json) (cb : Option (StreamCallback σ))
    (st : SSEState σ) (l : GoString) :
    readGeminiSSE.line js cb st l = (readGeminiSSE.texts js l).foldl (emit cb) st := by
  unfold readGeminiSSE.line readGeminiSSE.texts
  simp only
  split
  · rfl
  · split <;> simp_all

/-- The read loop applies `emit` to the texts of the lines of the reads, in order. -/
theorem readLoop_eq {σ : Type} (line : SSEState σ → GoString → SSEState σ)
    (texts : GoString → List GoString) (cb : Option (StreamCallback σ))
    (h : ∀ st l, line st l = (texts l).foldl (emit cb) st) (reader : Reader)
    (st : SSEState σ) :
    readLoop line reader st
      = ((reader.reads ++ [reader.last]).flatMap
          (fun data => if data.length > 0 then (Split data 0x0A).flatMap texts else [])).foldl
          (emit cb) st := by
  unfold readLoop
  rw [foldl_flatMap_runs]
  congr 1
  funext st data
  split
  · rw [foldl_flatMap_runs]
    congr 1
    funext st l
    exact h st l
  · rfl

/-- The state in which the read loop leaves a decoder with a non-nil callback `f`: the content
grows by the deltas of the stream and `f` is called on each of them, the first call alone with
the flag the state had. -/
theorem readLoop_some {σ : Type} (line : SSEState σ → GoString → SSEState σ)
    (texts : GoString → List GoString) (f : StreamCallback σ)
    (h : ∀ st l, line st l = (texts l).foldl (emit (some f)) st) (reader : Reader)
    (st : SSEState σ) :
    readLoop line reader st
      = { fullContent := st.fullContent ++ (streamDeltas texts reader).flatten
          chunkCount := st.chunkCount + (streamDeltas texts reader).length
          isFirst := st.isFirst && (streamDeltas texts reader).isEmpty
          user := (callsFor st.isFirst (streamDeltas texts reader)).foldl
            (fun u c => f c.1 c.2 u) st.user } := by
  rw [readLoop_eq line texts (some f) h, emit_foldl_some, filter_flatMap_runs]
  rfl

/-- The state in which the read loop leaves a decoder with a nil callback. -/
theorem readLoop_none {σ : Type} (line : SSEState σ → GoString → SSEState σ)
    (texts : GoString → List GoString)
    (h : ∀ st l, line st l = (texts l).foldl (emit none) st) (reader : Reader)
    (st : SSEState σ) :
    readLoop line reader st
      = { fullContent := st.fullContent ++ (streamDeltas texts reader).flatten
          chunkCount := st.chunkCount + (streamDeltas texts reader).length
          isFirst := st.isFirst
          user := st.user } := by
  rw [readLoop_eq line texts none h, emit_foldl_none, filter_flatMap_runs]
  rfl

/-- The result of `readSSE` with a non-nil callback `f`. -/
theorem readSSE_some {σ : Type} (js : Json) (reader : Reader) (f : StreamCallback σ) (s : σ) :
    readSSE js reader (some f) s
      = ({ Content := (streamDeltas (readSSE.texts js) reader).flatten, StatusCode := 200 },
         (callsFor true (streamDeltas (readSSE.texts js) reader)).foldl
           (fun u c => f c.1 c.2 u) s) := by
  unfold readSSE
  rw [readLoop_some _ (readSSE.texts js) f (readSSE_line_eq js (some f))]
  simp

/-- The result of `readAnthropicSSE` with a non-nil callback `f`. -/
theorem readAnthropicSSE_some {σ : Type} (js : Json) (reader : Reader) (f : StreamCallback σ)
    (s : σ) :
    readAnthropicSSE js reader (some f) s
      = ({ Content := (streamDeltas (readAnthropicSSE.texts js) reader).flatten,
           StatusCode := 200 },
         (callsFor true (streamDeltas (readAnthropicSSE.texts js) reader)).foldl
           (fun u c => f c.1 c.2 u) s) := by
  unfold readAnthropicSSE
  rw [readLoop_some _ (readAnthropicSSE.texts js) f (readAnthropicSSE_line_eq js (some f))]
  simp

/-- The result of `readGeminiSSE` with a non-nil callback `f`. -/
theorem readGeminiSSE_some {σ : Type} (js : Json) (reader : Reader) (f : StreamCallback σ)
    (s : σ) :
    readGeminiSSE js reader (some f) s
      = ({ Content := (streamDeltas (readGeminiSSE.texts js) reader).flatten,
           StatusCode := 200 },
         (callsFor true (streamDeltas (readGeminiSSE.texts js) reader)).foldl
           (fun u c => f c.1 c.2 u) s) := by
  unfold readGeminiSSE
  rw [readLoop_some _ (readGeminiSSE.texts js) f (readGeminiSSE_line_eq js (some f))]
  simp

/-- The recording callback, applied to a sequence of calls, appends them. -/
theorem record_foldl (cs : List (GoString × Bool)) :
    ∀ s : List (GoString × Bool), cs.foldl (fun u c => record c.1 c.2 u) s = s ++ cs := by
  induction cs with
  | nil => intro s; simp
  | cons c cs ih =>
    intro s
    rw [List.foldl_cons, ih]
    simp [record]

/-- The texts of the calls for the deltas `ts` are `ts`. -/
theorem callsFor_fst (first : Bool) (ts : List GoString) :
    (callsFor first ts).map Prod.fst = ts := by
  cases ts with
  | nil => rfl
  | cons t ts => simp [callsFor, Function.comp_def]

/-- In the calls for a run of deltas that starts a stream, call `i` has flag `true` exactly
when `i = 0`. -/
theorem callsFor_snd (ts : List GoString) (i : Nat) (c : GoString × Bool)
    (h : (callsFor true ts)[i]? = some c) : c.2 = decide (i = 0) := by
  cases ts with
  | nil => simp [callsFor] at h
  | cons t ts =>
    cases i with
    | zero =>
      simp [callsFor] at h
      simp [← h]
    | succ i =>
      simp only [callsFor, List.getElem?_cons_succ, List.getElem?_map, Option.map_eq_some'] at h
      obtain ⟨a, _, rfl⟩ := h
      simp

/-- Every delta of a stream is non-empty. -/
theorem streamDeltas_ne (texts : GoString → List GoString) (reader : Reader) (t : GoString)
    (h : t ∈ streamDeltas texts reader) : t ≠ [] := by
  unfold streamDeltas readDeltas at h
  obtain ⟨data, _, hd⟩ := List.mem_flatMap.mp h
  simpa using (List.mem_filter.mp hd).2

/-- What a decoder returns, and how it calls its callback, follows from its deltas alone. -/
theorem decoder_facts (ds : List GoString) (hds : ∀ t ∈ ds, t ≠ []) :
    ds.flatten = ((callsFor true ds).map Prod.fst).flatten ∧
      (∀ c ∈ callsFor true ds, c.1 ≠ []) ∧
      ([] ++ callsFor true ds = callsFor true ds) := by
  refine ⟨by rw [callsFor_fst], ?_, by simp⟩
  intro c hc
  apply hds
  have : c.1 ∈ (callsFor true ds).map Prod.fst := List.mem_map_of_mem _ hc
  rwa [callsFor_fst] at this

/-- C12: for each of the three decoders and every stream, the content returned is the
concatenation, in call order, of the texts passed to the callback, and each of these texts is
non-empty. The calls are those the recording callback lists; any other non-nil callback `f`
receives the same calls in the same order and the same response is returned. -/
theorem content_is_concat_of_deltas (js : Json) (reader : Reader) :
    ((readSSE js reader (some record) []).1.Content
        = ((readSSE js reader (some record) []).2.map Prod.fst).flatten ∧
      (∀ c ∈ (readSSE js reader (some record) []).2, c.1 ≠ []) ∧
      ∀ (σ : Type) (f : StreamCallback σ) (s : σ),
        readSSE js reader (some f) s
          = ((readSSE js reader (some record) []).1,
             (readSSE js reader (some record) []).2.foldl (fun u c => f c.1 c.2 u) s)) ∧
    ((readAnthropicSSE js reader (some record) []).1.Content
        = ((readAnthropicSSE js reader (some record) []).2.map Prod.fst).flatten ∧
      (∀ c ∈ (readAnthropicSSE js reader (some record) []).2, c.1 ≠ []) ∧
      ∀ (σ : Type) (f : StreamCallback σ) (s : σ),
        readAnthropicSSE js reader (some f) s
          = ((readAnthropicSSE js reader (some record) []).1,
             (readAnthropicSSE js reader (some record) []).2.foldl
               (fun u c => f c.1 c.2 u) s)) ∧
    ((readGeminiSSE js reader (some record) []).1.Content
        = ((readGeminiSSE js reader (some record) []).2.map Prod.fst).flatten ∧
      (∀ c ∈ (readGeminiSSE js reader (some record) []).2, c.1 ≠ []) ∧
      ∀ (σ : Type) (f : StreamCallback σ) (s : σ),
        readGeminiSSE js reader (some f) s
          = ((readGeminiSSE js reader (some record) []).1,
             (readGeminiSSE js reader (some record) []).2.foldl
               (fun u c => f c.1 c.2 u) s)) := by
  refine ⟨?_, ?_, ?_⟩
  · obtain ⟨h1, h2, _⟩ := decoder_facts (streamDeltas (readSSE.texts js) reader)
      (streamDeltas_ne _ reader)
    simp only [readSSE_some, record_foldl, List.nil_append]
    exact ⟨h1, h2, fun _ _ _ => trivial⟩
  · obtain ⟨h1, h2, _⟩ := decoder_facts (streamDeltas (readAnthropicSSE.texts js) reader)
      (streamDeltas_ne _ reader)
    simp only [readAnthropicSSE_some, record_foldl, List.nil_append]
    exact ⟨h1, h2, fun _ _ _ => trivial⟩
  · obtain ⟨h1, h2, _⟩ := decoder_facts (streamDeltas (readGeminiSSE.texts js) reader)
      (streamDeltas_ne _ reader)
    simp only [readGeminiSSE_some, record_foldl, List.nil_append]
    exact ⟨h1, h2, fun _ _ _ => trivial⟩

set_option maxRecDepth 100000 in
/-- C12 on three streams delivered in one read each: the content `Hello world` (OpenAI, Gemini)
or `Hello` (Anthropic) is the concatenation of the texts the callback received. -/
theorem content_is_concat_of_deltas_witness :
    ((readSSE decodeStream ⟨[streamOpenAI], []⟩ (some record) []).1.Content
        = ((readSSE decodeStream ⟨[streamOpenAI], []⟩ (some record) []).2.map Prod.fst).flatten ∧
      (readSSE decodeStream ⟨[streamOpenAI], []⟩ (some record) []).1.Content
        = go "Hello world") ∧
    ((readAnthropicSSE decodeStream ⟨[streamAnthropic], []⟩ (some record) []).1.Content
        = ((readAnthropicSSE decodeStream ⟨[streamAnthropic], []⟩ (some record) []).2.map
            Prod.fst).flatten ∧
      (readAnthropicSSE decodeStream ⟨[streamAnthropic], []⟩ (some record) []).1.Content
        = go "Hello") ∧
    ((readGeminiSSE decodeStream ⟨[streamGemini], []⟩ (some record) []).1.Content
        = ((readGeminiSSE decodeStream ⟨[streamGemini], []⟩ (some record) []).2.map
            Prod.fst).flatten ∧
      (readGeminiSSE decodeStream ⟨[streamGemini], []⟩ (some record) []).1.Content
        = go "Hello world") :=
  ⟨⟨(content_is_concat_of_deltas decodeStream ⟨[streamOpenAI], []⟩).1.1, by decide⟩,
   ⟨(content_is_concat_of_deltas decodeStream ⟨[streamAnthropic], []⟩).2.1.1, by decide⟩,
   ⟨(content_is_concat_of_deltas decodeStream ⟨[streamGemini], []⟩).2.2.1, by decide⟩⟩

/-- C13: for each of the three decoders and every stream, the callback is called once for each
non-empty delta, in order, and call `i` has `isFirst` true exactly when `i = 0`: true on the
first call, false on every later one, and no call at all when the stream has no delta. Any
non-nil callback `f` receives these same calls. -/
theorem isFirst_exactly_once (js : Json) (reader : Reader) :
    ((readSSE js reader (some record) []).2.map Prod.fst
        = streamDeltas (readSSE.texts js) reader ∧
      (∀ i c, (readSSE js reader (some record) []).2[i]? = some c → c.2 = decide (i = 0)) ∧
      ∀ (σ : Type) (f : StreamCallback σ) (s : σ),
        (readSSE js reader (some f) s).2
          = (readSSE js reader (some record) []).2.foldl (fun u c => f c.1 c.2 u) s) ∧
    ((readAnthropicSSE js reader (some record) []).2.map Prod.fst
        = streamDeltas (readAnthropicSSE.texts js) reader ∧
      (∀ i c, (readAnthropicSSE js reader (some record) []).2[i]? = some c →
        c.2 = decide (i = 0)) ∧
      ∀ (σ : Type) (f : StreamCallback σ) (s : σ),
        (readAnthropicSSE js reader (some f) s).2
          = (readAnthropicSSE js reader (some record) []).2.foldl
              (fun u c => f c.1 c.2 u) s) ∧
    ((readGeminiSSE js reader (some record) []).2.map Prod.fst
        = streamDeltas (readGeminiSSE.texts js) reader ∧
      (∀ i c, (readGeminiSSE js reader (some record) []).2[i]? = some c →
        c.2 = decide (i = 0)) ∧
      ∀ (σ : Type) (f : StreamCallback σ) (s : σ),
        (readGeminiSSE js reader (some f) s).2
          = (readGeminiSSE js reader (some record) []).2.foldl
              (fun u c => f c.1 c.2 u) s) := by
  refine ⟨?_, ?_, ?_⟩
  · simp only [readSSE_some, record_foldl, List.nil_append]
    exact ⟨callsFor_fst _ _, callsFor_snd _, fun _ _ _ => trivial⟩
  · simp only [readAnthropicSSE_some, record_foldl, List.nil_append]
    exact ⟨callsFor_fst _ _, callsFor_snd _, fun _ _ _ => trivial⟩
  · simp only [readGeminiSSE_some, record_foldl, List.nil_append]
    exact ⟨callsFor_fst _ _, callsFor_snd _, fun _ _ _ => trivial⟩

set_option maxRecDepth 100000 in
/-- C13 on an OpenAI stream of two chunks and on a Gemini chunk of two parts: two calls, the
first with `isFirst` true and the second with `isFirst` false. -/
theorem isFirst_exactly_once_witness :
    (readSSE decodeStream ⟨[streamOpenAI], []⟩ (some record) []).2
        = [(go "Hello", true), (go " world", false)] ∧
      (readGeminiSSE decodeStream ⟨[streamGemini], []⟩ (some record) []).2
        = [(go "Hello", true), (go " world", false)] ∧
      (go " world", false).2 = decide (1 = 0) :=
  ⟨by decide, by decide,
   (isFirst_exactly_once decodeStream ⟨[streamOpenAI], []⟩).1.2.1 1 (go " world", false)
     (by decide)⟩

/-- The result of a decoder with a nil callback. -/
theorem decoders_none {σ : Type} (js : Json) (reader : Reader) (s : σ) :
    readSSE js reader none s
        = ({ Content := (streamDeltas (readSSE.texts js) reader).flatten, StatusCode := 200 },
            s) ∧
      readAnthropicSSE js reader none s
        = ({ Content := (streamDeltas (readAnthropicSSE.texts js) reader).flatten,
             StatusCode := 200 }, s) ∧
      readGeminiSSE js reader none s
        = ({ Content := (streamDeltas (readGeminiSSE.texts js) reader).flatten,
             StatusCode := 200 }, s) := by
  refine ⟨?_, ?_, ?_⟩
  · unfold readSSE
    rw [readLoop_none _ (readSSE.texts js) (readSSE_line_eq js none)]
    simp
  · unfold readAnthropicSSE
    rw [readLoop_none _ (readAnthropicSSE.texts js) (readAnthropicSSE_line_eq js none)]
    simp
  · unfold readGeminiSSE
    rw [readLoop_none _ (readGeminiSSE.texts js) (readGeminiSSE_line_eq js none)]
    simp

/-- Two streams with the same deltas are decoded alike. -/
theorem decoders_congr {σ : Type} (js : Json) (r r' : Reader) (cb : Option (StreamCallback σ))
    (s : σ) :
    (streamDeltas (readSSE.texts js) r' = streamDeltas (readSSE.texts js) r →
      readSSE js r' cb s = readSSE js r cb s) ∧
    (streamDeltas (readAnthropicSSE.texts js) r' = streamDeltas (readAnthropicSSE.texts js) r →
      readAnthropicSSE js r' cb s = readAnthropicSSE js r cb s) ∧
    (streamDeltas (readGeminiSSE.texts js) r' = streamDeltas (readGeminiSSE.texts js) r →
      readGeminiSSE js r' cb s = readGeminiSSE js r cb s) := by
  cases cb with
  | none =>
    obtain ⟨a1, a2, a3⟩ := decoders_none js r s
    obtain ⟨b1, b2, b3⟩ := decoders_none js r' s
    rw [a1, a2, a3, b1, b2, b3]
    exact ⟨fun h => by rw [h], fun h => by rw [h], fun h => by rw [h]⟩
  | some f =>
    simp only [readSSE_some, readAnthropicSSE_some, readGeminiSSE_some]
    exact ⟨fun h => by rw [h], fun h => by rw [h], fun h => by rw [h]⟩

/-- An empty line yields no text. -/
theorem texts_nil (js : Json) :
    readSSE.texts js [] = [] ∧ readAnthropicSSE.texts js [] = [] ∧
      readGeminiSSE.texts js [] = [] :=
  ⟨rfl, rfl, rfl⟩

/-- The deltas of a read are those of its lines, also when the read is empty. -/
theorem readDeltas_eq (texts : GoString → List GoString) (h : texts [] = [])
    (data : GoString) :
    readDeltas texts data = ((Split data 0x0A).flatMap texts).filter (fun t => decide (t ≠ [])) := by
  unfold readDeltas
  cases data with
  | nil => simp [Split, h]
  | cons c cs => simp

/-- A line without text can be put between the lines of a read without changing the deltas of
the stream. -/
theorem streamDeltas_insert (texts : GoString → List GoString) (h : texts [] = [])
    (body body' extra : GoString) (L1 L2 : List GoString)
    (hb : Split body 0x0A = L1 ++ L2) (hb' : Split body' 0x0A = L1 ++ extra :: L2)
    (hx : texts extra = []) (pre post : List GoString) (r r' : Reader)
    (hr : r.reads ++ [r.last] = pre ++ body :: post)
    (hr' : r'.reads ++ [r'.last] = pre ++ body' :: post) :
    streamDeltas texts r' = streamDeltas texts r := by
  have hd : readDeltas texts body' = readDeltas texts body := by
    rw [readDeltas_eq texts h, readDeltas_eq texts h, hb, hb']
    simp [List.flatMap_append, List.flatMap_cons, hx]
  unfold streamDeltas
  rw [hr, hr']
  simp [List.flatMap_append, List.flatMap_cons, hd]

/-- A junk line yields no text in `readSSE`. -/
theorem readSSE_texts_junk (js : Json) (extra : GoString)
    (h : junkLine (fun d => ∃ e, js.openAIChunk d = .error e) extra) :
    readSSE.texts js extra = [] := by
  unfold readSSE.texts
  rcases h with h | h | ⟨e, h⟩
  · simp [h]
  · have hd : TrimPrefix (go "data: [DONE]") (go "data: ") = go "[DONE]" := by decide
    simp [h, hd]
  · simp only [h]
    split
    · rfl
    · split <;> rfl

/-- A junk line yields no text in `readAnthropicSSE`, which leaves the sentinel to the JSON
decoder. -/
theorem readAnthropicSSE_texts_junk (js : Json) (extra : GoString)
    (h : junkLine (fun d => ∃ e, js.anthropicEvent d = .error e) extra)
    (hdone : ∃ e, js.anthropicEvent (go "[DONE]") = .error e) :
    readAnthropicSSE.texts js extra = [] := by
  unfold readAnthropicSSE.texts
  have hd : TrimPrefix (go "data: [DONE]") (go "data: ") = go "[DONE]" := by decide
  rcases h with h | h | ⟨e, h⟩
  · simp [h]
  · obtain ⟨e, he⟩ := hdone
    simp only [h, hd, he]
    split <;> rfl
  · simp only [h]
    split <;> rfl

/-- A junk line yields no text in `readGeminiSSE`, which leaves the sentinel to the JSON
decoder. -/
theorem readGeminiSSE_texts_junk (js : Json) (extra : GoString)
    (h : junkLine (fun d => ∃ e, js.geminiChunk d = .error e) extra)
    (hdone : ∃ e, js.geminiChunk (go "[DONE]") = .error e) :
    readGeminiSSE.texts js extra = [] := by
  unfold readGeminiSSE.texts
  have hd : TrimPrefix (go "data: [DONE]") (go "data: ") = go "[DONE]" := by decide
  rcases h with h | h | ⟨e, h⟩
  · simp [h]
  · obtain ⟨e, he⟩ := hdone
    simp only [h, hd, he]
    split <;> rfl
  · simp only [h]
    split <;> rfl

set_option maxRecDepth 100000 in
/-- C14 as stated fails: the line made of two blanks and `data: ` with a well-formed chunk does
not have the prefix `data: `, yet put between the two lines of a stream it adds its delta to the
content, because the decoders remove the white space around a line before they look for the
prefix. -/
theorem indented_data_line_is_decoded :
    HasPrefix (go "  data: " ++ chunkHello) (go "data: ") = false ∧
      (readSSE decodeStream ⟨[twoLines], []⟩ (some record) []).1.Content = go "Hello world" ∧
      (readSSE decodeStream ⟨[twoLinesWith (go "  data: " ++ chunkHello)], []⟩ (some record)
        []).1.Content = go "HelloHello world" := by
  decide

/-- C14, amended: for each decoder, a stream keeps its decoded content and its sequence of
callback calls when an extra line is put between the lines of one of its reads, provided the
extra line, with its leading and trailing white space removed, lacks the prefix `data: `, or is
the sentinel `data: [DONE]`, or carries a payload that the JSON decoder rejects. `readSSE` tests
for the sentinel itself; the other two decoders hand it to the JSON decoder, which rejects it as
it is not JSON. -/
theorem junk_line_skipped (js : Json) (body body' extra : GoString) (L1 L2 : List GoString)
    (hb : Split body 0x0A = L1 ++ L2) (hb' : Split body' 0x0A = L1 ++ extra :: L2)
    (pre post : List GoString) (r r' : Reader)
    (hr : r.reads ++ [r.last] = pre ++ body :: post)
    (hr' : r'.reads ++ [r'.last] = pre ++ body' :: post) :
    (junkLine (fun d => ∃ e, js.openAIChunk d = .error e) extra →
      ∀ (σ : Type) (cb : Option (StreamCallback σ)) (s : σ),
        readSSE js r' cb s = readSSE js r cb s) ∧
    (junkLine (fun d => ∃ e, js.anthropicEvent d = .error e) extra →
      (∃ e, js.anthropicEvent (go "[DONE]") = .error e) →
      ∀ (σ : Type) (cb : Option (StreamCallback σ)) (s : σ),
        readAnthropicSSE js r' cb s = readAnthropicSSE js r cb s) ∧
    (junkLine (fun d => ∃ e, js.geminiChunk d = .error e) extra →
      (∃ e, js.geminiChunk (go "[DONE]") = .error e) →
      ∀ (σ : Type) (cb : Option (StreamCallback σ)) (s : σ),
        readGeminiSSE js r' cb s = readGeminiSSE js r cb s) := by
  refine ⟨?_, ?_, ?_⟩
  · intro hj σ cb s
    exact (decoders_congr js r r' cb s).1
      (streamDeltas_insert _ (texts_nil js).1 body body' extra L1 L2 hb hb'
        (readSSE_texts_junk js extra hj) pre post r r' hr hr')
  · intro hj hdone σ cb s
    exact (decoders_congr js r r' cb s).2.1
      (streamDeltas_insert _ (texts_nil js).2.1 body body' extra L1 L2 hb hb'
        (readAnthropicSSE_texts_junk js extra hj hdone) pre post r r' hr hr')
  · intro hj hdone σ cb s
    exact (decoders_congr js r r' cb s).2.2
      (streamDeltas_insert _ (texts_nil js).2.2 body body' extra L1 L2 hb hb'
        (readGeminiSSE_texts_junk js extra hj hdone) pre post r r' hr hr')

set_option maxRecDepth 100000 in
/-- C14, amended, on a stream of two chunks with a cut-short payload put between them: the
calls to the callback and the content are those of the stream without that line. -/
theorem junk_line_skipped_witness :
    readSSE decodeStream ⟨[twoLinesWith (go "data: \x7b\"choices\":[")], []⟩ (some record) []
      = readSSE decodeStream ⟨[twoLines], []⟩ (some record) [] :=
  (junk_line_skipped decodeStream twoLines (twoLinesWith (go "data: \x7b\"choices\":["))
    (go "data: \x7b\"choices\":[") [go "data: " ++ chunkHello] [go "data: " ++ chunkWorld]
    (by decide) (by decide) [] [[]] ⟨[twoLines], []⟩
    ⟨[twoLinesWith (go "data: \x7b\"choices\":[")], []⟩ rfl rfl).1
    (Or.inr (Or.inr ⟨go "invalid character", by rfl⟩)) _ (some record) []

set_option maxRecDepth 100000 in
/-- C15 at a stream whose only line is cut by the boundary between two reads: read in one piece
the line gives the delta `Hello`; read in two pieces, the first 20 bytes and the rest, it gives
no delta and no call, in each of the three decoders. -/
theorem line_cut_by_read_boundary_is_lost :
    (readSSE decodeStream ⟨[go "data: " ++ chunkHello ++ go "\n"], []⟩ (some record) []
        = ({ Content := go "Hello", StatusCode := 200 }, [(go "Hello", true)]) ∧
      readSSE decodeStream
          ⟨[(go "data: " ++ chunkHello ++ go "\n").take 20,
            (go "data: " ++ chunkHello ++ go "\n").drop 20], []⟩ (some record) []
        = ({ Content := [], StatusCode := 200 }, [])) ∧
    (readAnthropicSSE decodeStream ⟨[go "data: " ++ eventHello ++ go "\n"], []⟩ (some record) []
        = ({ Content := go "Hello", StatusCode := 200 }, [(go "Hello", true)]) ∧
      readAnthropicSSE decodeStream
          ⟨[(go "data: " ++ eventHello ++ go "\n").take 20,
            (go "data: " ++ eventHello ++ go "\n").drop 20], []⟩ (some record) []
        = ({ Content := [], StatusCode := 200 }, [])) ∧
    (readGeminiSSE decodeStream ⟨[go "data: " ++ geminiHello ++ go "\n"], []⟩ (some record) []
        = ({ Content := go "Hello world", StatusCode := 200 },
           [(go "Hello", true), (go " world", false)]) ∧
      readGeminiSSE decodeStream
          ⟨[(go "data: " ++ geminiHello ++ go "\n").take 20,
            (go "data: " ++ geminiHello ++ go "\n").drop 20], []⟩ (some record) []
        = ({ Content := [], StatusCode := 200 }, [])) :=
  ⟨⟨by decide, by decide⟩, ⟨by decide, by decide⟩, ⟨by decide, by decide⟩⟩

/-- The response of a decoder, whatever the callback. -/
theorem decoders_response {σ : Type} (js : Json) (reader : Reader)
    (cb : Option (StreamCallback σ)) (s : σ) :
    (readSSE js reader cb s).1
        = { Content := (streamDeltas (readSSE.texts js) reader).flatten, StatusCode := 200 } ∧
      (readAnthropicSSE js reader cb s).1
        = { Content := (streamDeltas (readAnthropicSSE.texts js) reader).flatten,
            StatusCode := 200 } ∧
      (readGeminiSSE js reader cb s).1
        = { Content := (streamDeltas (readGeminiSSE.texts js) reader).flatten,
            StatusCode := 200 } := by
  cases cb with
  | none =>
    obtain ⟨a1, a2, a3⟩ := decoders_none js reader s
    rw [a1, a2, a3]
    exact ⟨rfl, rfl, rfl⟩
  | some f =>
    rw [readSSE_some, readAnthropicSSE_some, readGeminiSSE_some]
    exact ⟨rfl, rfl, rfl⟩

/-- Flattening a concatenation of runs. -/
theorem flatten_flatMap_runs {α γ : Type} (g : α → List (List γ)) (l : List α) :
    (l.flatMap g).flatten = (l.map (fun a => (g a).flatten)).flatten := by
  induction l with
  | nil => rfl
  | cons a l ih => simp [List.flatMap_cons, ih]

/-- The content of a stream is the concatenation of the contents of its reads, and the content
of its first `k` reads is a prefix of it. -/
theorem streamDeltas_reads (texts : GoString → List GoString) (reader : Reader) :
    (streamDeltas texts reader).flatten
        = ((reader.reads ++ [reader.last]).map
            (fun data => (streamDeltas texts ⟨[], data⟩).flatten)).flatten ∧
      ∀ k, (streamDeltas texts ⟨reader.reads.take k, []⟩).flatten
        <+: (streamDeltas texts reader).flatten := by
  constructor
  · unfold streamDeltas
    rw [flatten_flatMap_runs]
    simp
  · intro k
    have h0 : readDeltas texts [] = [] := by simp [readDeltas]
    have hsplit : reader.reads ++ [reader.last]
        = reader.reads.take k ++ (reader.reads.drop k ++ [reader.last]) := by
      rw [← List.append_assoc, List.take_append_drop]
    unfold streamDeltas
    rw [hsplit]
    simp only [List.flatMap_append, List.flatMap_cons, List.flatMap_nil, h0, List.append_nil,
      List.flatten_append]
    exact List.prefix_append _ _

/-- For every sequence of reads, the last of which reports the end of the stream or an error,
each decoder returns a response with empty `Error` and status 200 whose content is the
concatenation, read by read and the last read included, of what it decodes from each read taken
on its own; the content decoded from the first `k` reads is a prefix of it. `ChatStream`
returns this response, not an error, when the status is 200. -/
theorem decoder_returns_all_deltas {σ : Type} (js : Json) (reader : Reader)
    (cb : Option (StreamCallback σ)) (s : σ) :
    ((readSSE js reader cb s).1.Error = [] ∧ (readSSE js reader cb s).1.StatusCode = 200 ∧
      (readSSE js reader cb s).1.Content
        = ((reader.reads ++ [reader.last]).map
            (fun data => (readSSE js ⟨[], data⟩ cb s).1.Content)).flatten ∧
      ∀ k, (readSSE js ⟨reader.reads.take k, []⟩ cb s).1.Content
        <+: (readSSE js reader cb s).1.Content) ∧
    ((readAnthropicSSE js reader cb s).1.Error = [] ∧
      (readAnthropicSSE js reader cb s).1.StatusCode = 200 ∧
      (readAnthropicSSE js reader cb s).1.Content
        = ((reader.reads ++ [reader.last]).map
            (fun data => (readAnthropicSSE js ⟨[], data⟩ cb s).1.Content)).flatten ∧
      ∀ k, (readAnthropicSSE js ⟨reader.reads.take k, []⟩ cb s).1.Content
        <+: (readAnthropicSSE js reader cb s).1.Content) ∧
    ((readGeminiSSE js reader cb s).1.Error = [] ∧
      (readGeminiSSE js reader cb s).1.StatusCode = 200 ∧
      (readGeminiSSE js reader cb s).1.Content
        = ((reader.reads ++ [reader.last]).map
            (fun data => (readGeminiSSE js ⟨[], data⟩ cb s).1.Content)).flatten ∧
      ∀ k, (readGeminiSSE js ⟨reader.reads.take k, []⟩ cb s).1.Content
        <+: (readGeminiSSE js reader cb s).1.Content) ∧
    ∀ (a : Adapter) (tr : Transport) (req : ChatRequest) (log : List HttpRequest),
      tr log (a.chatRequest req true) = .ok ⟨200, reader⟩ →
      ∃ resp, (a.ChatStream js tr req cb s log).1 = .ok resp ∧ resp.Error = [] ∧
        resp.StatusCode = 200 ∧
        resp.Content
          = ((reader.reads ++ [reader.last]).map (fun data =>
              match a with
              | .OpenAIAdapter => (readSSE js ⟨[], data⟩ cb s).1.Content
              | .AnthropicAdapter => (readAnthropicSSE js ⟨[], data⟩ cb s).1.Content
              | .GeminiAdapter => (readGeminiSSE js ⟨[], data⟩ cb s).1.Content)).flatten := by
  have e1 : ∀ r : Reader, (readSSE js r cb s).1
      = { Content := (streamDeltas (readSSE.texts js) r).flatten, StatusCode := 200 } :=
    fun r => (decoders_response js r cb s).1
  have e2 : ∀ r : Reader, (readAnthropicSSE js r cb s).1
      = { Content := (streamDeltas (readAnthropicSSE.texts js) r).flatten, StatusCode := 200 } :=
    fun r => (decoders_response js r cb s).2.1
  have e3 : ∀ r : Reader, (readGeminiSSE js r cb s).1
      = { Content := (streamDeltas (readGeminiSSE.texts js) r).flatten, StatusCode := 200 } :=
    fun r => (decoders_response js r cb s).2.2
  have c1 := streamDeltas_reads (readSSE.texts js) reader
  have c2 := streamDeltas_reads (readAnthropicSSE.texts js) reader
  have c3 := streamDeltas_reads (readGeminiSSE.texts js) reader
  refine ⟨?_, ?_, ?_, ?_⟩
  · refine ⟨by rw [e1], by rw [e1], ?_, ?_⟩
    · simp only [e1]
      exact c1.1
    · intro k
      simp only [e1]
      exact c1.2 k
  · refine ⟨by rw [e2], by rw [e2], ?_, ?_⟩
    · simp only [e2]
      exact c2.1
    · intro k
      simp only [e2]
      exact c2.2 k
  · refine ⟨by rw [e3], by rw [e3], ?_, ?_⟩
    · simp only [e3]
      exact c3.1
    · intro k
      simp only [e3]
      exact c3.2 k
  · intro a tr req log h
    cases a
    · simp only [Adapter.chatRequest, if_true] at h
      refine ⟨(readSSE js reader cb s).1, ?_, ?_⟩
      · simp [Adapter.ChatStream, OpenAIAdapter.ChatStream, h]
      · refine ⟨by rw [e1], by rw [e1], ?_⟩
        simp only [e1]
        exact c1.1
    · simp only [Adapter.chatRequest, if_true] at h
      refine ⟨(readAnthropicSSE js reader cb s).1, ?_, ?_⟩
      · simp [Adapter.ChatStream, AnthropicAdapter.ChatStream, h]
      · refine ⟨by rw [e2], by rw [e2], ?_⟩
        simp only [e2]
        exact c2.1
    · simp only [Adapter.chatRequest, if_true] at h
      refine ⟨(readGeminiSSE js reader cb s).1, ?_, ?_⟩
      · simp [Adapter.ChatStream, GeminiAdapter.ChatStream, h]
      · refine ⟨by rw [e3], by rw [e3], ?_⟩
        simp only [e3]
        exact c3.1

set_option maxRecDepth 100000 in
/-- An OpenAI stream delivered in two reads, each a whole line, the second of which reports an
error after it has delivered the second chunk: the content has both deltas. -/
theorem decoder_returns_all_deltas_witness :
    (∃ resp,
      (Adapter.ChatStream .OpenAIAdapter decodeStream
          (fun _ _ => .ok ⟨200, ⟨[go "data: " ++ chunkHello ++ go "\n"],
            go "data: " ++ chunkWorld ++ go "\n"⟩⟩)
          hello (some record) [] []).1 = .ok resp ∧
        resp.Error = [] ∧ resp.StatusCode = 200 ∧
        resp.Content
          = (([go "data: " ++ chunkHello ++ go "\n"] ++ [go "data: " ++ chunkWorld ++ go "\n"]).map
              (fun data => (readSSE decodeStream ⟨[], data⟩ (some record) []).1.Content)).flatten) ∧
      (readSSE decodeStream
          ⟨[go "data: " ++ chunkHello ++ go "\n"], go "data: " ++ chunkWorld ++ go "\n"⟩
          (some record) []).1.Content = go "Hello world" :=
  ⟨(decoder_returns_all_deltas decodeStream
      ⟨[go "data: " ++ chunkHello ++ go "\n"], go "data: " ++ chunkWorld ++ go "\n"⟩
      (some record) []).2.2.2 .OpenAIAdapter _ hello [] rfl,
   by decide⟩

set_option maxRecDepth 100000 in
/-- C17 at an event whose delta has type `input_json_delta` and a `text` member `x`:
`readAnthropicSSE` appends `x` to the content and calls the callback with it. -/
theorem non_text_delta_is_extracted :
    decodeStream.anthropicEvent eventJson
        = .ok { Type_ := go "content_block_delta",
                Delta := some { Type_ := go "input_json_delta", Text := go "x" } } ∧
      readAnthropicSSE decodeStream ⟨[go "data: " ++ eventJson ++ go "\n"], []⟩ (some record) []
        = ({ Content := go "x", StatusCode := 200 }, [(go "x", true)]) :=
  ⟨by rfl, by decide⟩

/-! ### The checks -/

/-- C11 at a 200 answer whose body is `errorBody`, an error object without message: each
adapter returns a response with an empty `Error`, so the chat check reports success and the
multi-turn check reports a warning; neither reports failed. -/
theorem error_without_message_passes :
    (OpenAIAdapter.Chat decodeErrorObject (serve 200 errorBody) hello []).1
        = .ok { StatusCode := 200, Error := [] } ∧
      (AnthropicAdapter.Chat decodeErrorObject (serve 200 errorBody) hello []).1
        = .ok { StatusCode := 200, Error := [] } ∧
      (GeminiAdapter.Chat decodeErrorObject (serve 200 errorBody) hello []).1
        = .ok { StatusCode := 200, Error := [] } ∧
      (checkChat decodeErrorObject (serve 200 errorBody) 0 .OpenAIAdapter (go "http://h/v1")
        (go "k") (go "m") []).1.Status = StatusSuccess ∧
      (checkMultiTurn decodeErrorObject (serve 200 errorBody) 0 .OpenAIAdapter (go "http://h/v1")
        (go "k") (go "m") []).1.Status = StatusWarning :=
  ⟨by rfl, by rfl, by rfl, by decide, by decide⟩

/-- C18: `checkMultiTurn` reports failed with the first-turn message when the first call has a
transport error or a non-empty `Error`; failed with the second-turn message when the first call
succeeds and the second has a transport error or a non-empty `Error`; success when both succeed
and the second content contains `42`; warning when both succeed and it does not. `You said 42`
contains `42`, and the reply that the model does not recall does not. -/
theorem checkMultiTurn_outcomes (js : Json) (tr : Transport) (latency : Int) (adapter : Adapter)
    (baseURL apiKey model : GoString) (log : List HttpRequest) :
    (∀ err, (adapter.Chat js tr (multiTurnFirst baseURL apiKey model) log).1 = .error err →
      (checkMultiTurn js tr latency adapter baseURL apiKey model log).1.Status = StatusFailed ∧
      (checkMultiTurn js tr latency adapter baseURL apiKey model log).1.Message
        = go "第一轮对话失败") ∧
    (∀ resp1, (adapter.Chat js tr (multiTurnFirst baseURL apiKey model) log).1 = .ok resp1 →
      resp1.Error ≠ [] →
      (checkMultiTurn js tr latency adapter baseURL apiKey model log).1.Status = StatusFailed ∧
      (checkMultiTurn js tr latency adapter baseURL apiKey model log).1.Message
        = go "第一轮对话失败") ∧
    (∀ resp1, (adapter.Chat js tr (multiTurnFirst baseURL apiKey model) log).1 = .ok resp1 →
      resp1.Error = [] →
      (∀ err,
        (adapter.Chat js tr (multiTurnSecond baseURL apiKey model resp1.Content)
          (adapter.Chat js tr (multiTurnFirst baseURL apiKey model) log).2).1 = .error err →
        (checkMultiTurn js tr latency adapter baseURL apiKey model log).1.Status
          = StatusFailed ∧
        (checkMultiTurn js tr latency adapter baseURL apiKey model log).1.Message
          = go "第二轮对话失败") ∧
      (∀ resp2,
        (adapter.Chat js tr (multiTurnSecond baseURL apiKey model resp1.Content)
          (adapter.Chat js tr (multiTurnFirst baseURL apiKey model) log).2).1 = .ok resp2 →
        (resp2.Error ≠ [] →
          (checkMultiTurn js tr latency adapter baseURL apiKey model log).1.Status
            = StatusFailed ∧
          (checkMultiTurn js tr latency adapter baseURL apiKey model log).1.Message
            = go "第二轮对话失败") ∧
        (resp2.Error = [] → Contains resp2.Content (go "42") = true →
          (checkMultiTurn js tr latency adapter baseURL apiKey model log).1.Status
            = StatusSuccess) ∧
        (resp2.Error = [] → Contains resp2.Content (go "42") = false →
          (checkMultiTurn js tr latency adapter baseURL apiKey model log).1.Status
            = StatusWarning))) ∧
    go "第一轮对话失败" ≠ go "第二轮对话失败" ∧
    Contains (go "You said 42") (go "42") = true ∧
    Contains (go "I don\x27t recall") (go "42") = false := by
  refine ⟨?_, ?_, ?_, by decide, by decide, by decide⟩
  · intro err h
    simp only [multiTurnFirst] at h
    simp [checkMultiTurn, h]
  · intro resp1 h he
    simp only [multiTurnFirst] at h
    simp [checkMultiTurn, h, he]
  · intro resp1 h he
    simp only [multiTurnFirst, multiTurnSecond] at h ⊢
    refine ⟨?_, ?_⟩
    · intro err h2
      simp [checkMultiTurn, h, he, h2]
    · intro resp2 h2
      refine ⟨?_, ?_, ?_⟩
      · intro he2
        simp [checkMultiTurn, h, he, h2, he2]
      · intro he2 hc
        simp [checkMultiTurn, h, he, h2, he2, hc]
      · intro he2 hc
        simp [checkMultiTurn, h, he, h2, he2, hc]

/-- C18 on the replies of the example: `OK` then `You said 42` gives success, `OK` then the
reply that the model does not recall gives warning, and an unreachable endpoint gives failed
with the first-turn message. -/
theorem checkMultiTurn_outcomes_witness :
    (checkMultiTurn (decodeTurns (go "You said 42")) twoTurns 0 .OpenAIAdapter (go "http://h/v1")
        (go "k") (go "m") []).1.Status = StatusSuccess ∧
      (checkMultiTurn (decodeTurns (go "I don\x27t recall")) twoTurns 0 .OpenAIAdapter
        (go "http://h/v1") (go "k") (go "m") []).1.Status = StatusWarning ∧
      (checkMultiTurn rejectAll unreachable 0 .OpenAIAdapter (go "http://h/v1") (go "k")
        (go "m") []).1.Message = go "第一轮对话失败" :=
  ⟨((checkMultiTurn_outcomes (decodeTurns (go "You said 42")) twoTurns 0 .OpenAIAdapter
      (go "http://h/v1") (go "k") (go "m") []).2.2.1
      { Content := go "OK", StatusCode := 200 } (by rfl) rfl).2
      { Content := go "You said 42", StatusCode := 200 } (by rfl) |>.2.1 rfl (by decide),
   ((checkMultiTurn_outcomes (decodeTurns (go "I don\x27t recall")) twoTurns 0 .OpenAIAdapter
      (go "http://h/v1") (go "k") (go "m") []).2.2.1
      { Content := go "OK", StatusCode := 200 } (by rfl) rfl).2
      { Content := go "I don\x27t recall", StatusCode := 200 } (by rfl) |>.2.2 rfl (by decide),
   ((checkMultiTurn_outcomes rejectAll unreachable 0 .OpenAIAdapter (go "http://h/v1") (go "k")
      (go "m") []).1 (go "connection refused") (by rfl)).2⟩

/-- What `ChatStream` does with a callback `f` follows from what it does with the recording
callback: same outcome, same requests, and `f` applied to the recorded calls in order. -/
theorem ChatStream_calls {σ : Type} (a : Adapter) (js : Json) (tr : Transport)
    (req : ChatRequest) (f : StreamCallback σ) (s : σ) (log : List HttpRequest) :
    a.ChatStream js tr req (some f) s log
      = ((a.ChatStream js tr req (some record) [] log).1,
         (a.ChatStream js tr req (some record) [] log).2.1.foldl (fun u c => f c.1 c.2 u) s,
         (a.ChatStream js tr req (some record) [] log).2.2) := by
  cases a <;>
    simp only [Adapter.ChatStream, OpenAIAdapter.ChatStream, AnthropicAdapter.ChatStream,
      GeminiAdapter.ChatStream] <;>
    split <;> (try split) <;>
    simp [readSSE_some, readAnthropicSSE_some, readGeminiSSE_some, record_foldl]

/-- The calls `ChatStream` makes are those for a run of deltas, the first flagged, and the
`Error` of its response is empty or `HTTP <code>`. -/
theorem ChatStream_shape (a : Adapter) (js : Json) (tr : Transport) (req : ChatRequest)
    (log : List HttpRequest) :
    (∃ ds, (a.ChatStream js tr req (some record) [] log).2.1 = callsFor true ds) ∧
      ∀ resp, (a.ChatStream js tr req (some record) [] log).1 = .ok resp →
        resp.Error = [] ∨ ∃ c : Int, resp.Error = go "HTTP " ++ fmtInt c := by
  cases a
  · simp only [Adapter.ChatStream, OpenAIAdapter.ChatStream]
    cases tr log (OpenAIAdapter.chatRequest req (some true)) with
    | error e => exact ⟨⟨[], rfl⟩, fun resp h => by cases h⟩
    | ok resp =>
      dsimp only
      by_cases hs : resp.StatusCode ≠ 200
      · rw [if_pos hs]
        exact ⟨⟨[], rfl⟩, fun r h => by cases h; exact Or.inr ⟨resp.StatusCode, rfl⟩⟩
      · rw [if_neg hs]
        simp only [readSSE_some, record_foldl, List.nil_append]
        exact ⟨⟨_, rfl⟩, fun r h => by cases h; exact Or.inl rfl⟩
  · simp only [Adapter.ChatStream, AnthropicAdapter.ChatStream]
    cases tr log (AnthropicAdapter.chatRequest req (some true)) with
    | error e => exact ⟨⟨[], rfl⟩, fun resp h => by cases h⟩
    | ok resp =>
      dsimp only
      by_cases hs : resp.StatusCode ≠ 200
      · rw [if_pos hs]
        exact ⟨⟨[], rfl⟩, fun r h => by cases h; exact Or.inr ⟨resp.StatusCode, rfl⟩⟩
      · rw [if_neg hs]
        simp only [readAnthropicSSE_some, record_foldl, List.nil_append]
        exact ⟨⟨_, rfl⟩, fun r h => by cases h; exact Or.inl rfl⟩
  · simp only [Adapter.ChatStream, GeminiAdapter.ChatStream]
    cases tr log (GeminiAdapter.chatRequest req (go "streamGenerateContent?alt=sse&key=")) with
    | error e => exact ⟨⟨[], rfl⟩, fun resp h => by cases h⟩
    | ok resp =>
      dsimp only
      by_cases hs : resp.StatusCode ≠ 200
      · rw [if_pos hs]
        exact ⟨⟨[], rfl⟩, fun r h => by cases h; exact Or.inr ⟨resp.StatusCode, rfl⟩⟩
      · rw [if_neg hs]
        simp only [readGeminiSSE_some, record_foldl, List.nil_append]
        exact ⟨⟨_, rfl⟩, fun r h => by cases h; exact Or.inl rfl⟩

/-- The variables of the callback of `checkStream` after a sequence of calls: the counter has
grown by the number of calls, and `TTFT` holds the reading `ttft` once a call is flagged
first. -/
theorem callback_foldl (ttft : Int) (ds : List GoString) (v : StreamVars) :
    (callsFor true ds).foldl (fun u c => checkStream.callback ttft c.1 c.2 u) v
      = { chunkCount := v.chunkCount + (callsFor true ds).length
          TTFT := if ds = [] then v.TTFT else ttft } := by
  have hfalse : ∀ (ts : List GoString) (w : StreamVars),
      (ts.map (fun t => (t, false))).foldl (fun u c => checkStream.callback ttft c.1 c.2 u) w
        = { chunkCount := w.chunkCount + ts.length, TTFT := w.TTFT } := by
    intro ts
    induction ts with
    | nil => intro w; simp
    | cons t ts ih =>
      intro w
      rw [List.map_cons, List.foldl_cons, ih]
      simp [checkStream.callback]
      omega
  cases ds with
  | nil => simp [callsFor]
  | cons d ds =>
    rw [callsFor, List.foldl_cons, hfalse]
    simp [checkStream.callback]
    omega

/-- The message for a stream without chunks differs from every message `HTTP <code>`. -/
theorem noChunks_ne_http (c : Int) : go "HTTP " ++ fmtInt c ≠ go "未收到流式数据" := by
  intro h
  have h1 : (go "HTTP " ++ fmtInt c).head? = some 72 := by
    have : go "HTTP " = 72 :: go "TTP " := by decide
    rw [this]
    rfl
  have h2 : (go "未收到流式数据").head? = some 230 := by decide
  rw [h, h2] at h1
  exact absurd h1 (by decide)

/-- C19: `checkStream` reports failed with the transport message when the streaming call has a
transport error; failed with the response's `Error` as message when that is non-empty; failed
with the message for a stream without data, which differs from both, when the call succeeds and
the callback was called zero times; and success, with a message that gives the number of calls,
when the call succeeds and the callback was called at least once. It reports success in that
case only. The calls are those the recording callback lists for the same request. -/
theorem checkStream_outcomes (js : Json) (tr : Transport) (latency ttft : Int)
    (adapter : Adapter) (baseURL apiKey model : GoString) (log : List HttpRequest) :
    (∀ err,
      (adapter.ChatStream js tr (streamProbe baseURL apiKey model) (some record) [] log).1
        = .error err →
      (checkStream js tr latency ttft adapter baseURL apiKey model log).1.Status = StatusFailed ∧
      (checkStream js tr latency ttft adapter baseURL apiKey model log).1.Message
        = go "请求失败") ∧
    (∀ resp,
      (adapter.ChatStream js tr (streamProbe baseURL apiKey model) (some record) [] log).1
        = .ok resp →
      (resp.Error ≠ [] →
        (checkStream js tr latency ttft adapter baseURL apiKey model log).1.Status
          = StatusFailed ∧
        (checkStream js tr latency ttft adapter baseURL apiKey model log).1.Message
          = resp.Error ∧
        resp.Error ≠ go "未收到流式数据") ∧
      (resp.Error = [] →
        (adapter.ChatStream js tr (streamProbe baseURL apiKey model) (some record) []
          log).2.1 = [] →
        (checkStream js tr latency ttft adapter baseURL apiKey model log).1.Status
          = StatusFailed ∧
        (checkStream js tr latency ttft adapter baseURL apiKey model log).1.Message
          = go "未收到流式数据") ∧
      (resp.Error = [] →
        (adapter.ChatStream js tr (streamProbe baseURL apiKey model) (some record) []
          log).2.1 ≠ [] →
        (checkStream js tr latency ttft adapter baseURL apiKey model log).1.Status
          = StatusSuccess ∧
        (checkStream js tr latency ttft adapter baseURL apiKey model log).1.Message
          = go "流式正常, " ++
            fmtInt (adapter.ChatStream js tr (streamProbe baseURL apiKey model) (some record) []
              log).2.1.length ++
            go " chunks, TTFT " ++ fmtInt ttft ++ go "ms")) ∧
    go "未收到流式数据" ≠ go "请求失败" ∧
    ((checkStream js tr latency ttft adapter baseURL apiKey model log).1.Status = StatusSuccess ↔
      ∃ resp,
        (adapter.ChatStream js tr (streamProbe baseURL apiKey model) (some record) [] log).1
          = .ok resp ∧
        resp.Error = [] ∧
        (adapter.ChatStream js tr (streamProbe baseURL apiKey model) (some record) []
          log).2.1 ≠ []) := by
  have hcall := ChatStream_calls adapter js tr (streamProbe baseURL apiKey model)
    (checkStream.callback ttft) ⟨0, 0⟩ log
  obtain ⟨⟨ds, hds⟩, hshape⟩ := ChatStream_shape adapter js tr
    (streamProbe baseURL apiKey model) log
  have hfs : StatusFailed ≠ StatusSuccess := status_distinct.2.1
  have hlen : (callsFor true ds).length = ds.length := by
    rw [← callsFor_fst true ds, List.length_map, callsFor_fst]
  have hnil : callsFor true ds = [] ↔ ds = [] := by
    cases ds <;> simp [callsFor]
  -- the four outcomes, as equations on the result
  have e1 : ∀ err,
      (adapter.ChatStream js tr (streamProbe baseURL apiKey model) (some record) [] log).1
        = .error err →
      (checkStream js tr latency ttft adapter baseURL apiKey model log).1.Status = StatusFailed ∧
      (checkStream js tr latency ttft adapter baseURL apiKey model log).1.Message
        = go "请求失败" := by
    intro err h
    simp only [streamProbe] at hcall h
    simp [checkStream, hcall, h]
  have e2 : ∀ resp,
      (adapter.ChatStream js tr (streamProbe baseURL apiKey model) (some record) [] log).1
        = .ok resp → resp.Error ≠ [] →
      (checkStream js tr latency ttft adapter baseURL apiKey model log).1.Status = StatusFailed ∧
      (checkStream js tr latency ttft adapter baseURL apiKey model log).1.Message
        = resp.Error := by
    intro resp h he
    simp only [streamProbe] at hcall h
    simp [checkStream, hcall, h, he]
  have e3 : ∀ resp,
      (adapter.ChatStream js tr (streamProbe baseURL apiKey model) (some record) [] log).1
        = .ok resp → resp.Error = [] → ds = [] →
      (checkStream js tr latency ttft adapter baseURL apiKey model log).1.Status = StatusFailed ∧
      (checkStream js tr latency ttft adapter baseURL apiKey model log).1.Message
        = go "未收到流式数据" := by
    intro resp h he hd
    simp only [streamProbe] at hcall h hds
    simp [checkStream, hcall, h, he, hds, hd, callsFor]
  have e4 : ∀ resp,
      (adapter.ChatStream js tr (streamProbe baseURL apiKey model) (some record) [] log).1
        = .ok resp → resp.Error = [] → ds ≠ [] →
      (checkStream js tr latency ttft adapter baseURL apiKey model log).1.Status
        = StatusSuccess ∧
      (checkStream js tr latency ttft adapter baseURL apiKey model log).1.Message
        = go "流式正常, " ++ fmtInt (callsFor true ds).length ++ go " chunks, TTFT " ++
            fmtInt ttft ++ go "ms" := by
    intro resp h he hd
    have hpos : ¬ ((0 : Int) + ((callsFor true ds).length : Int) = 0) := by
      have : 0 < ds.length := List.length_pos.mpr hd
      rw [hlen]
      omega
    simp only [streamProbe] at hcall h hds
    simp only [checkStream, hcall, h, hds, callback_foldl]
    simp [he, hd, hpos, hnil]
  refine ⟨e1, ?_, by decide, ?_⟩
  · intro resp h
    refine ⟨?_, ?_, ?_⟩
    · intro he
      refine ⟨(e2 resp h he).1, (e2 resp h he).2, ?_⟩
      rcases hshape resp h with h0 | ⟨c, hc⟩
      · exact absurd h0 he
      · rw [hc]
        exact noChunks_ne_http c
    · intro he hcalls
      exact e3 resp h he (hnil.mp (hds ▸ hcalls))
    · intro he hcalls
      rw [hds]
      exact e4 resp h he (fun hd => hcalls (hds ▸ hnil.mpr hd))
  · constructor
    · intro hs
      cases hout : (adapter.ChatStream js tr (streamProbe baseURL apiKey model) (some record) []
          log).1 with
      | error err =>
        rw [(e1 err hout).1] at hs
        exact absurd hs hfs
      | ok resp =>
        by_cases he : resp.Error = []
        · by_cases hd : ds = []
          · rw [(e3 resp hout he hd).1] at hs
            exact absurd hs hfs
          · exact ⟨resp, rfl, he, fun hcalls => hd (hnil.mp (hds ▸ hcalls))⟩
        · rw [(e2 resp hout he).1] at hs
          exact absurd hs hfs
    · rintro ⟨resp, h, he, hcalls⟩
      exact (e4 resp h he (fun hd => hcalls (hds ▸ hnil.mpr hd))).1

set_option maxRecDepth 100000 in
/-- C19 on a stream of two chunks, on an empty stream and on a 500 answer: success with two
chunks reported, then failed with the message for a stream without data, then failed with
`HTTP 500`. -/
theorem checkStream_outcomes_witness :
    ((checkStream decodeStream serveStream 0 5 .OpenAIAdapter (go "http://h/v1") (go "k")
          (go "m") []).1.Status = StatusSuccess ∧
        (checkStream decodeStream serveStream 0 5 .OpenAIAdapter (go "http://h/v1") (go "k")
          (go "m") []).1.Message
          = go "流式正常, " ++
            fmtInt (Adapter.ChatStream .OpenAIAdapter decodeStream serveStream
              (streamProbe (go "http://h/v1") (go "k") (go "m")) (some record) [] []).2.1.length ++
            go " chunks, TTFT " ++ fmtInt 5 ++ go "ms") ∧
      ((checkStream decodeStream (answer 200) 0 5 .OpenAIAdapter (go "http://h/v1") (go "k")
          (go "m") []).1.Status = StatusFailed ∧
        (checkStream decodeStream (answer 200) 0 5 .OpenAIAdapter (go "http://h/v1") (go "k")
          (go "m") []).1.Message = go "未收到流式数据") ∧
      (checkStream decodeStream (answer 500) 0 5 .OpenAIAdapter (go "http://h/v1") (go "k")
          (go "m") []).1.Message = go "HTTP 500" :=
  ⟨((checkStream_outcomes decodeStream serveStream 0 5 .OpenAIAdapter (go "http://h/v1") (go "k")
      (go "m") []).2.1 { Content := go "Hello world", StatusCode := 200 } (by rfl)).2.2 rfl
      (by decide),
   ((checkStream_outcomes decodeStream (answer 200) 0 5 .OpenAIAdapter (go "http://h/v1") (go "k")
      (go "m") []).2.1 { Content := [], StatusCode := 200 } (by rfl)).2.1 rfl (by decide),
   (((checkStream_outcomes decodeStream (answer 500) 0 5 .OpenAIAdapter (go "http://h/v1") (go "k")
      (go "m") []).2.1 { StatusCode := 500, Error := go "HTTP 500" } (by rfl)).1
      (by decide)).2.1⟩

/-- C20: `checkModels` reports warning, not failed, with an empty model list when the listing
fails; when the listing gives `n` names it reports success, returns the `n` names as model
list, gives `n` in its message, and puts in its detail the first `min n 5` names joined by a
comma and a blank, followed by `...` exactly when `n > 5`. -/
theorem checkModels_outcomes (js : Json) (tr : Transport) (latency : Int) (adapter : Adapter)
    (baseURL apiKey : GoString) (log : List HttpRequest) :
    (∀ err, (adapter.ListModels js tr baseURL apiKey log).1 = .error err →
      (checkModels js tr latency adapter baseURL apiKey log).1.1.Status = StatusWarning ∧
      (checkModels js tr latency adapter baseURL apiKey log).1.1.Status ≠ StatusFailed ∧
      (checkModels js tr latency adapter baseURL apiKey log).1.2 = []) ∧
    (∀ models, (adapter.ListModels js tr baseURL apiKey log).1 = .ok models →
      (checkModels js tr latency adapter baseURL apiKey log).1.1.Status = StatusSuccess ∧
      (checkModels js tr latency adapter baseURL apiKey log).1.2 = models ∧
      (checkModels js tr latency adapter baseURL apiKey log).1.1.Message
        = go "获取到 " ++ fmtInt models.length ++ go " 个模型" ∧
      (checkModels js tr latency adapter baseURL apiKey log).1.1.Detail
        = Join (models.take (min models.length 5)) (go ", ") ++
            (if models.length > 5 then go "..." else [])) := by
  constructor
  · intro err h
    have hw : StatusWarning ≠ StatusFailed := status_distinct.1.symm
    simp [checkModels, h, hw]
  · intro models h
    by_cases hn : models.length > 5
    · have hmin : min models.length 5 = 5 := by omega
      simp [checkModels, h, hn, hmin]
    · have hmin : min models.length 5 = models.length := by omega
      simp [checkModels, h, hn, hmin]

/-- C20 on a listing of six names and on an unreachable endpoint: five names and `...` in the
detail, then a warning. -/
theorem checkModels_outcomes_witness :
    (checkModels decodeSixModels (answer 200) 0 .OpenAIAdapter (go "http://h/v1") (go "k")
        []).1.1.Detail = go "m1, m2, m3, m4, m5..." ∧
      (checkModels rejectAll unreachable 0 .OpenAIAdapter (go "http://h/v1") (go "k")
        []).1.1.Status = StatusWarning :=
  ⟨(((checkModels_outcomes decodeSixModels (answer 200) 0 .OpenAIAdapter (go "http://h/v1")
      (go "k") []).2 [go "m1", go "m2", go "m3", go "m4", go "m5", go "m6"] (by rfl)).2.2.2).trans
      (by decide),
   ((checkModels_outcomes rejectAll unreachable 0 .OpenAIAdapter (go "http://h/v1") (go "k")
      []).1 (go "connection refused") (by rfl)).1⟩

/-- A string without the separator is its own single piece. -/
theorem Split_single (l : GoString) (sep : UInt8) (h : sep ∉ l) : Split l sep = [l] := by
  induction l with
  | nil => rfl
  | cons c cs ih =>
    have hc : c ≠ sep := fun e => h (e ▸ List.mem_cons_self _ _)
    have hcs : sep ∉ cs := fun m => h (List.mem_cons_of_mem _ m)
    simp [Split, hc, ih hcs]

/-- C17, amended: `readAnthropicSSE` does not look at the type of a delta. For a line whose
payload decodes to an event, the text of the delta object is appended to the content and passed
to the callback whenever it is non-empty, whatever the types of the event and of the delta;
nothing is appended and the callback is not called exactly when the event has no delta object
or the text of its delta is empty. -/
theorem anthropic_extracts_any_text (js : Json) (line : GoString) (event : AnthropicEvent)
    (hnl : (0x0A : UInt8) ∉ line)
    (hp : HasPrefix (TrimSpace line) (go "data: ") = true)
    (hd : js.anthropicEvent (TrimPrefix (TrimSpace line) (go "data: ")) = .ok event) :
    (∀ delta, event.Delta = some delta → delta.Text ≠ [] →
      readAnthropicSSE js ⟨[line], []⟩ (some record) []
        = ({ Content := delta.Text, StatusCode := 200 }, [(delta.Text, true)])) ∧
    (∀ delta, event.Delta = some delta → delta.Text = [] →
      readAnthropicSSE js ⟨[line], []⟩ (some record) []
        = ({ Content := [], StatusCode := 200 }, [])) ∧
    (event.Delta = none →
      readAnthropicSSE js ⟨[line], []⟩ (some record) []
        = ({ Content := [], StatusCode := 200 }, [])) := by
  have hne : line ≠ [] := by
    intro h
    rw [h] at hp
    exact absurd hp (by decide)
  have hlen : line.length > 0 := List.length_pos.mpr hne
  have hsd : ∀ ts, readAnthropicSSE.texts js line = ts →
      streamDeltas (readAnthropicSSE.texts js) ⟨[line], []⟩
        = ts.filter (fun t => decide (t ≠ [])) := by
    intro ts hts
    simp [streamDeltas, readDeltas, hlen, Split_single line _ hnl, hts]
  refine ⟨?_, ?_, ?_⟩
  · intro delta hdelta htext
    have hts : readAnthropicSSE.texts js line = [delta.Text] := by
      simp [readAnthropicSSE.texts, hp, hd, hdelta]
    rw [readAnthropicSSE_some, hsd _ hts]
    simp [htext, callsFor, record]
  · intro delta hdelta htext
    have hts : readAnthropicSSE.texts js line = [delta.Text] := by
      simp [readAnthropicSSE.texts, hp, hd, hdelta]
    rw [readAnthropicSSE_some, hsd _ hts]
    simp [htext, callsFor]
  · intro hdelta
    have hts : readAnthropicSSE.texts js line = [] := by
      simp [readAnthropicSSE.texts, hp, hd, hdelta]
    rw [readAnthropicSSE_some, hsd _ hts]
    simp [callsFor]

set_option maxRecDepth 100000 in
/-- C17, amended, on the event whose delta has type `input_json_delta` and text `x`. -/
theorem anthropic_extracts_any_text_witness :
    readAnthropicSSE decodeStream ⟨[go "data: " ++ eventJson], []⟩ (some record) []
      = ({ Content := go "x", StatusCode := 200 }, [(go "x", true)]) :=
  (anthropic_extracts_any_text decodeStream (go "data: " ++ eventJson)
    { Type_ := go "content_block_delta",
      Delta := some { Type_ := go "input_json_delta", Text := go "x" } }
    (by decide) (by decide) (by rfl)).1
    { Type_ := go "input_json_delta", Text := go "x" } rfl (by decide)

/-- Splitting at a separator splits the list of pieces. -/
theorem Split_append (a b : GoString) (sep : UInt8) :
    Split (a ++ sep :: b) sep = Split a sep ++ Split b sep := by
  induction a with
  | nil => simp [Split]
  | cons c cs ih =>
    by_cases hc : c = sep
    · simp [Split, hc, ih]
    · have hne : Split cs sep ≠ [] := by
        cases cs with
        | nil => simp [Split]
        | cons d ds =>
          unfold Split
          split
          · simp
          · split <;> simp
      obtain ⟨l, ls, hl⟩ := List.exists_cons_of_ne_nil hne
      simp [Split, hc, ih, hl]

/-- The texts of the lines of a read that ends a line, followed by more data, are the texts of
its lines followed by those of the lines of the rest. -/
theorem lines_append (texts : GoString → List GoString) (h : texts [] = [])
    (d rest : GoString) (hd : d = [] ∨ ∃ d', d = d' ++ [0x0A]) :
    (Split (d ++ rest) 0x0A).flatMap texts
      = (Split d 0x0A).flatMap texts ++ (Split rest 0x0A).flatMap texts := by
  rcases hd with hd | ⟨d', hd⟩
  · simp [hd, Split, h]
  · have h1 : d ++ rest = d' ++ 0x0A :: rest := by simp [hd]
    have h2 : d = d' ++ 0x0A :: [] := by simp [hd]
    rw [h1, Split_append, h2, Split_append]
    simp [Split, h, List.flatMap_append]

/-- When every read but the last ends a line, the deltas of the stream are those of its bytes
taken as one read. -/
theorem streamDeltas_aligned (texts : GoString → List GoString) (h : texts [] = [])
    (reads : List GoString) (last : GoString)
    (hal : ∀ d ∈ reads, d = [] ∨ ∃ d', d = d' ++ [0x0A]) :
    streamDeltas texts ⟨reads, last⟩ = streamDeltas texts ⟨[], reads.flatten ++ last⟩ := by
  have key : ∀ rs : List GoString, (∀ d ∈ rs, d = [] ∨ ∃ d', d = d' ++ [0x0A]) →
      (rs ++ [last]).flatMap (fun d => (Split d 0x0A).flatMap texts)
        = (Split (rs.flatten ++ last) 0x0A).flatMap texts := by
    intro rs
    induction rs with
    | nil => intro _; simp
    | cons d rs ih =>
      intro hrs
      have hd := hrs d (List.mem_cons_self _ _)
      have hrest := ih (fun x hx => hrs x (List.mem_cons_of_mem _ hx))
      simp only [List.cons_append, List.flatMap_cons, List.flatten_cons, List.append_assoc]
      rw [lines_append texts h d _ hd, hrest]
  unfold streamDeltas
  simp only [List.nil_append, List.flatMap_cons, List.flatMap_nil, List.append_nil]
  rw [readDeltas_eq texts h, ← key reads hal, filter_flatMap_runs]
  congr 1
  funext d
  exact readDeltas_eq texts h d

/-- When no line is cut by the boundary between two reads, each decoder returns what it returns
for the same bytes delivered in one read. -/
theorem aligned_reads_decode_whole {σ : Type} (js : Json) (reader : Reader)
    (cb : Option (StreamCallback σ)) (s : σ)
    (hal : ∀ d ∈ reader.reads, d = [] ∨ ∃ d', d = d' ++ [0x0A]) :
    readSSE js reader cb s = readSSE js ⟨[], ReadAll reader⟩ cb s ∧
      readAnthropicSSE js reader cb s = readAnthropicSSE js ⟨[], ReadAll reader⟩ cb s ∧
      readGeminiSSE js reader cb s = readGeminiSSE js ⟨[], ReadAll reader⟩ cb s := by
  obtain ⟨t1, t2, t3⟩ := texts_nil js
  obtain ⟨c1, c2, c3⟩ := decoders_congr js ⟨[], ReadAll reader⟩ reader cb s
  exact ⟨c1 (streamDeltas_aligned _ t1 reader.reads reader.last hal),
    c2 (streamDeltas_aligned _ t2 reader.reads reader.last hal),
    c3 (streamDeltas_aligned _ t3 reader.reads reader.last hal)⟩

/-- C21: `checkChat` reports failed exactly when the chat call has a transport error or its
response has a non-empty `Error`; otherwise it reports success, with `TokenIn` and `TokenOut`
equal to the prompt and completion token counts of the response. -/
theorem checkChat_outcomes (js : Json) (tr : Transport) (latency : Int) (adapter : Adapter)
    (baseURL apiKey model : GoString) (log : List HttpRequest) :
    (∀ err, (adapter.Chat js tr (chatProbe baseURL apiKey model) log).1 = .error err →
      (checkChat js tr latency adapter baseURL apiKey model log).1.Status = StatusFailed) ∧
    (∀ resp, (adapter.Chat js tr (chatProbe baseURL apiKey model) log).1 = .ok resp →
      (resp.Error ≠ [] →
        (checkChat js tr latency adapter baseURL apiKey model log).1.Status = StatusFailed) ∧
      (resp.Error = [] →
        (checkChat js tr latency adapter baseURL apiKey model log).1.Status = StatusSuccess ∧
        (checkChat js tr latency adapter baseURL apiKey model log).1.TokenIn
          = resp.PromptTokens ∧
        (checkChat js tr latency adapter baseURL apiKey model log).1.TokenOut
          = resp.CompTokens)) ∧
    ((checkChat js tr latency adapter baseURL apiKey model log).1.Status = StatusFailed ↔
      (∃ err, (adapter.Chat js tr (chatProbe baseURL apiKey model) log).1 = .error err) ∨
      ∃ resp, (adapter.Chat js tr (chatProbe baseURL apiKey model) log).1 = .ok resp ∧
        resp.Error ≠ []) := by
  have hsf : StatusSuccess ≠ StatusFailed := status_distinct.2.1.symm
  have e1 : ∀ err, (adapter.Chat js tr (chatProbe baseURL apiKey model) log).1 = .error err →
      (checkChat js tr latency adapter baseURL apiKey model log).1.Status = StatusFailed := by
    intro err h
    simp only [chatProbe] at h
    simp [checkChat, h]
  have e2 : ∀ resp, (adapter.Chat js tr (chatProbe baseURL apiKey model) log).1 = .ok resp →
      resp.Error ≠ [] →
      (checkChat js tr latency adapter baseURL apiKey model log).1.Status = StatusFailed := by
    intro resp h he
    simp only [chatProbe] at h
    simp [checkChat, h, he]
  have e3 : ∀ resp, (adapter.Chat js tr (chatProbe baseURL apiKey model) log).1 = .ok resp →
      resp.Error = [] →
      (checkChat js tr latency adapter baseURL apiKey model log).1.Status = StatusSuccess ∧
      (checkChat js tr latency adapter baseURL apiKey model log).1.TokenIn
        = resp.PromptTokens ∧
      (checkChat js tr latency adapter baseURL apiKey model log).1.TokenOut
        = resp.CompTokens := by
    intro resp h he
    simp only [chatProbe] at h
    simp [checkChat, h, he]
  refine ⟨e1, fun resp h => ⟨e2 resp h, e3 resp h⟩, ?_⟩
  constructor
  · intro hs
    cases hout : (adapter.Chat js tr (chatProbe baseURL apiKey model) log).1 with
    | error err => exact Or.inl ⟨err, rfl⟩
    | ok resp =>
      by_cases he : resp.Error = []
      · rw [(e3 resp hout he).1] at hs
        exact absurd hs hsf
      · exact Or.inr ⟨resp, rfl, he⟩
  · rintro (⟨err, h⟩ | ⟨resp, h, he⟩)
    · exact e1 err h
    · exact e2 resp h he

/-- C21 on a reply `OK` with usage 9 and 1, and on an unreachable endpoint. -/
theorem checkChat_outcomes_witness :
    ((checkChat (decodeOK true) (serve 200 (go "reply")) 0 .OpenAIAdapter (go "http://h/v1")
          (go "k") (go "m") []).1.Status = StatusSuccess ∧
        (checkChat (decodeOK true) (serve 200 (go "reply")) 0 .OpenAIAdapter (go "http://h/v1")
          (go "k") (go "m") []).1.TokenIn = 9 ∧
        (checkChat (decodeOK true) (serve 200 (go "reply")) 0 .OpenAIAdapter (go "http://h/v1")
          (go "k") (go "m") []).1.TokenOut = 1) ∧
      (checkChat rejectAll unreachable 0 .OpenAIAdapter (go "http://h/v1") (go "k") (go "m")
        []).1.Status = StatusFailed :=
  ⟨((checkChat_outcomes (decodeOK true) (serve 200 (go "reply")) 0 .OpenAIAdapter
      (go "http://h/v1") (go "k") (go "m") []).2.1
      { Content := go "OK", StatusCode := 200, PromptTokens := 9, CompTokens := 1 }
      (by rfl)).2 rfl,
   (checkChat_outcomes rejectAll unreachable 0 .OpenAIAdapter (go "http://h/v1") (go "k")
      (go "m") []).1 (go "connection refused") (by rfl)⟩

/-- C22: for every list of messages, `GeminiAdapter.Chat` and `GeminiAdapter.ChatStream` issue
a request whose body is the same `contents` array: as long as the list of messages, entry `i`
having the role `model` when message `i` has the role `assistant` and the role of message `i`
otherwise, and one part, the content of message `i`. -/
theorem gemini_contents (js : Json) (tr : Transport) (req : ChatRequest)
    (log : List HttpRequest) (σ : Type) (cb : Option (StreamCallback σ)) (s : σ) :
    (∃ q, (GeminiAdapter.Chat js tr req log).2 = log ++ [q] ∧
      q.Body = Payload.gemini (GeminiAdapter.contents req.Messages)) ∧
    (∃ q, (GeminiAdapter.ChatStream js tr req cb s log).2.2 = log ++ [q] ∧
      q.Body = Payload.gemini (GeminiAdapter.contents req.Messages)) ∧
    (GeminiAdapter.contents req.Messages).length = req.Messages.length ∧
    (∀ (i : Nat) (m : Message), req.Messages[i]? = some m →
      (GeminiAdapter.contents req.Messages)[i]?
        = some ({ role := if m.Role = go "assistant" then go "model" else m.Role,
                  parts := [m.Content] } : GeminiContent)) := by
  refine ⟨⟨_, rfl, rfl⟩, ?_, ?_, ?_⟩
  · refine ⟨GeminiAdapter.chatRequest req (go "streamGenerateContent?alt=sse&key="), ?_, rfl⟩
    unfold GeminiAdapter.ChatStream
    simp only
    split
    · rfl
    · split <;> rfl
  · simp [GeminiAdapter.contents]
  · intro i m h
    simp [GeminiAdapter.contents, h]

/-- C22 on a conversation of three messages: the assistant message goes out with the role
`model`, the two user messages keep theirs. -/
theorem gemini_contents_witness :
    (GeminiAdapter.contents
        (multiTurnSecond (go "http://h/v1") (go "k") (go "m") (go "OK")).Messages)[1]?
      = some ({ role := go "model", parts := [go "OK"] } : GeminiContent) :=
  ((gemini_contents rejectAll unreachable
      (multiTurnSecond (go "http://h/v1") (go "k") (go "m") (go "OK")) [] Unit none ()).2.2.2 1
      { Role := go "assistant", Content := go "OK" } rfl).trans (by decide)

/-- Searching a range from its upper end finds the greatest index with the property. -/
theorem find_last (p : Nat → Bool) (n : Nat) :
    (∀ i, (List.range n).reverse.find? p = some i →
      i < n ∧ p i = true ∧ ∀ j, i < j → j < n → p j = false) ∧
    ((List.range n).reverse.find? p = none → ∀ j, j < n → p j = false) := by
  induction n with
  | zero => simp
  | succ n ih =>
    rw [List.range_succ, List.reverse_append, List.reverse_singleton, List.singleton_append]
    by_cases hp : p n = true
    · rw [List.find?_cons_of_pos _ hp]
      refine ⟨?_, fun h => by cases h⟩
      intro i hi
      cases hi
      exact ⟨by omega, hp, fun j h1 h2 => by omega⟩
    · rw [List.find?_cons_of_neg _ hp]
      have hp' : p n = false := by simpa using hp
      refine ⟨?_, ?_⟩
      · intro i hi
        obtain ⟨h1, h2, h3⟩ := ih.1 i hi
        refine ⟨by omega, h2, ?_⟩
        intro j hj1 hj2
        by_cases hjn : j = n
        · rw [hjn]; exact hp'
        · exact h3 j hj1 (by omega)
      · intro hnone j hj
        by_cases hjn : j = n
        · rw [hjn]; exact hp'
        · exact ih.2 hnone j (by omega)

/-- A one-byte string is a prefix of what is left of `s` at `i` exactly when byte `i` of `s` is
that byte. -/
theorem isPrefixOf_drop (a : UInt8) (s : GoString) (i : Nat) :
    ([a] : GoString).isPrefixOf (s.drop i) = true ↔ s[i]? = some a := by
  have h : (s.drop i)[0]? = s[i]? := by rw [List.getElem?_drop]; rfl
  cases hd : s.drop i with
  | nil =>
    have h' : s[i]? = none := by rw [← h, hd]; simp
    rw [h']
    simp [List.isPrefixOf]
  | cons b t =>
    have h' : s[i]? = some b := by rw [← h, hd]; simp
    rw [h']
    simp only [List.isPrefixOf, Bool.and_true, beq_iff_eq, Option.some.injEq]
    exact eq_comm

/-- The loop body of `GeminiAdapter.ListModels` returns the part of the name after its last
`/`: a string without `/`, the whole name when that has no `/`. -/
theorem modelName_spec (name : GoString) :
    (0x2F : UInt8) ∉ GeminiAdapter.modelName name ∧
      ((0x2F : UInt8) ∉ name → GeminiAdapter.modelName name = name) ∧
      ((0x2F : UInt8) ∈ name →
        ∃ pre, name = pre ++ (0x2F : UInt8) :: GeminiAdapter.modelName name) := by
  have hg : go "/" = [(0x2F : UInt8)] := by decide
  obtain ⟨hsome, hnone⟩ := find_last
    (fun i => ([(0x2F : UInt8)] : GoString).isPrefixOf (name.drop i)) (name.length + 1)
  unfold GeminiAdapter.modelName LastIndex
  rw [hg]
  cases hf : (List.range (name.length + 1)).reverse.find?
      (fun i => ([(0x2F : UInt8)] : GoString).isPrefixOf (name.drop i)) with
  | none =>
    have hall := hnone hf
    have hno : (0x2F : UInt8) ∉ name := by
      intro hm
      obtain ⟨k, hk⟩ := List.mem_iff_getElem?.mp hm
      have hlt : k < name.length := (List.getElem?_eq_some_iff.mp hk).1
      have := hall k (by omega)
      simp only [] at this
      rw [(isPrefixOf_drop _ name k).mpr hk] at this
      cases this
    simp [hno]
  | some i =>
    obtain ⟨_, hpi, hmax⟩ := hsome i hf
    have hi : name[i]? = some 0x2F := (isPrefixOf_drop _ name i).mp hpi
    have hlt : i < name.length := (List.getElem?_eq_some_iff.mp hi).1
    have hres : (if ((i : Nat) : Int) ≥ 0 then name.drop (((i : Nat) : Int).toNat + 1) else name)
        = name.drop (i + 1) := by
      simp
    simp only [hres]
    refine ⟨?_, ?_, ?_⟩
    · intro hm
      obtain ⟨k, hk⟩ := List.mem_iff_getElem?.mp hm
      rw [List.getElem?_drop] at hk
      have hklt : i + 1 + k < name.length := (List.getElem?_eq_some_iff.mp hk).1
      have := hmax (i + 1 + k) (by omega) (by omega)
      simp only [] at this
      rw [(isPrefixOf_drop _ name (i + 1 + k)).mpr hk] at this
      cases this
    · intro hno
      exact absurd (List.mem_iff_getElem?.mpr ⟨i, hi⟩) hno
    · intro _
      refine ⟨name.take i, ?_⟩
      have hd : name.drop i = name[i] :: name.drop (i + 1) := List.drop_eq_getElem_cons hlt
      have hv : name[i] = 0x2F := by
        have := List.getElem?_eq_getElem hlt
        rw [hi] at this
        exact (Option.some.inj this).symm
      rw [← hv, ← hd, List.take_append_drop]

/-- C23: when the Gemini listing endpoint answers 200 with a body that decodes to the names
`names`, `ListModels` returns a list as long as `names` whose entry `i` is the part of name `i`
after its last `/`: it contains no `/`, it is the whole name when that contains no `/`, and
otherwise the name is some prefix, a `/`, and the entry. `models/gemini-1.5-pro` becomes
`gemini-1.5-pro`. -/
theorem gemini_model_names (js : Json) (tr : Transport) (baseURL apiKey : GoString)
    (log : List HttpRequest) (body : Reader) (names : List GoString)
    (htr : tr log (GeminiAdapter.modelsRequest baseURL apiKey) = .ok ⟨200, body⟩)
    (hjs : js.geminiModels (ReadAll body) = .ok names) :
    (GeminiAdapter.ListModels js tr baseURL apiKey log).1
        = .ok (names.map GeminiAdapter.modelName) ∧
      (names.map GeminiAdapter.modelName).length = names.length ∧
      (∀ (i : Nat) (name : GoString), names[i]? = some name →
        (names.map GeminiAdapter.modelName)[i]? = some (GeminiAdapter.modelName name) ∧
        (0x2F : UInt8) ∉ GeminiAdapter.modelName name ∧
        ((0x2F : UInt8) ∉ name → GeminiAdapter.modelName name = name) ∧
        ((0x2F : UInt8) ∈ name →
          ∃ pre, name = pre ++ (0x2F : UInt8) :: GeminiAdapter.modelName name)) ∧
      (∀ id ∈ names.map GeminiAdapter.modelName, (0x2F : UInt8) ∉ id) ∧
      GeminiAdapter.modelName (go "models/gemini-1.5-pro") = go "gemini-1.5-pro" ∧
      go "/" = [(0x2F : UInt8)] := by
  refine ⟨?_, by simp, ?_, ?_, by decide, by decide⟩
  · simp [GeminiAdapter.ListModels, htr, hjs]
  · intro i name h
    exact ⟨by simp [h], modelName_spec name⟩
  · intro id hid
    obtain ⟨name, _, rfl⟩ := List.mem_map.mp hid
    exact (modelName_spec name).1

/-- C23 on a listing of three names, one with a resource prefix, one with two `/`, one with
none. -/
theorem gemini_model_names_witness :
    (GeminiAdapter.ListModels decodeGeminiModels (answer 200) (go "http://h/v1") (go "k") []).1
      = .ok [go "gemini-1.5-pro", go "model-1", go "embedding-001"] :=
  ((gemini_model_names decodeGeminiModels (answer 200) (go "http://h/v1") (go "k") [] ⟨[], []⟩
    [go "models/gemini-1.5-pro", go "tunedModels/my/model-1", go "embedding-001"]
    rfl rfl).1).trans (by rfl)

/-! ### The configuration store -/

/-- Reading an id other than the one saved is not affected by the save. -/
theorem save_other (now : GoString) (cfg : store.ProviderConfigRow) (id : GoString)
    (hid : id ≠ cfg.ProviderID) (db : store.ProviderConfigs) :
    (store.SaveProviderConfig now cfg db).find? (fun row => decide (row.ProviderID = id))
      = db.find? (fun row => decide (row.ProviderID = id)) := by
  induction db with
  | nil =>
    have h : ¬ cfg.ProviderID = id := fun e => hid e.symm
    simp [store.SaveProviderConfig, h]
  | cons r rows ih =>
    simp only [store.SaveProviderConfig]
    by_cases hr : r.ProviderID = cfg.ProviderID
    · have h : ¬ r.ProviderID = id := fun e => hid (e.symm.trans hr)
      rw [if_pos hr, List.find?_cons_of_neg _ (by simpa using h),
        List.find?_cons_of_neg _ (by simpa using h)]
    · rw [if_neg hr]
      by_cases h : r.ProviderID = id
      · rw [List.find?_cons_of_pos _ (by simpa using h),
          List.find?_cons_of_pos _ (by simpa using h)]
      · rw [List.find?_cons_of_neg _ (by simpa using h),
          List.find?_cons_of_neg _ (by simpa using h), ih]

/-- After a save, reading the saved id gives a row with the saved fields. -/
theorem save_get (now : GoString) (cfg : store.ProviderConfigRow) (db : store.ProviderConfigs) :
    ∃ row, (store.SaveProviderConfig now cfg db).find?
        (fun row => decide (row.ProviderID = cfg.ProviderID)) = some row ∧
      row.ProviderID = cfg.ProviderID ∧ row.APIKey = cfg.APIKey ∧ row.BaseURL = cfg.BaseURL ∧
      row.Model = cfg.Model ∧ row.Protocol = cfg.Protocol ∧ row.UpdatedAt = now := by
  induction db with
  | nil =>
    refine ⟨{ ProviderID := cfg.ProviderID, APIKey := cfg.APIKey, BaseURL := cfg.BaseURL,
              Model := cfg.Model, Protocol := cfg.Protocol, UpdatedAt := now }, ?_,
      rfl, rfl, rfl, rfl, rfl, rfl⟩
    simp [store.SaveProviderConfig]
  | cons r rows ih =>
    simp only [store.SaveProviderConfig]
    by_cases hr : r.ProviderID = cfg.ProviderID
    · rw [if_pos hr]
      refine ⟨{ r with APIKey := cfg.APIKey, BaseURL := cfg.BaseURL, Model := cfg.Model,
                       Protocol := cfg.Protocol, UpdatedAt := now }, ?_,
        hr, rfl, rfl, rfl, rfl, rfl⟩
      rw [List.find?_cons_of_pos _ (by simpa using hr)]
    · rw [if_neg hr]
      obtain ⟨row, h1, h2⟩ := ih
      exact ⟨row, by rw [List.find?_cons_of_neg _ (by simpa using hr), h1], h2⟩

/-- A save keeps the ids of the table, adding the saved id at the end when it is new. -/
theorem save_ids (now : GoString) (cfg : store.ProviderConfigRow) (db : store.ProviderConfigs) :
    (store.SaveProviderConfig now cfg db).map (fun row => row.ProviderID)
      = if cfg.ProviderID ∈ db.map (fun row => row.ProviderID) then
          db.map (fun row => row.ProviderID)
        else db.map (fun row => row.ProviderID) ++ [cfg.ProviderID] := by
  induction db with
  | nil => simp [store.SaveProviderConfig]
  | cons r rows ih =>
    simp only [store.SaveProviderConfig]
    by_cases hr : r.ProviderID = cfg.ProviderID
    · rw [if_pos hr, if_pos (by simp [hr])]
      simp
    · have hr' : ¬ cfg.ProviderID = r.ProviderID := fun e => hr e.symm
      rw [if_neg hr, List.map_cons, ih]
      by_cases hm : cfg.ProviderID ∈ rows.map (fun row => row.ProviderID)
      · rw [if_pos hm, if_pos (by simp [hr'] ; simpa using hm)]
        simp
      · rw [if_neg hm, if_neg (by simp [hr']; simpa using hm)]
        simp

/-- `GetProviderConfig` returns the first row with the id, without error. -/
theorem get_eq (id : GoString) (db : store.ProviderConfigs) :
    store.GetProviderConfig id db
      = .ok (db.find? (fun row => decide (row.ProviderID = id))) := by
  cases h : db.find? (fun row => decide (row.ProviderID = id)) <;>
    simp [store.GetProviderConfig, h]

/-- A save keeps the ids of the table distinct. -/
theorem save_nodup (now : GoString) (cfg : store.ProviderConfigRow) (db : store.ProviderConfigs)
    (h : (db.map (fun row => row.ProviderID)).Nodup) :
    ((store.SaveProviderConfig now cfg db).map (fun row => row.ProviderID)).Nodup ∧
      cfg.ProviderID ∈ (store.SaveProviderConfig now cfg db).map (fun row => row.ProviderID) := by
  rw [save_ids]
  split
  · exact ⟨h, by assumption⟩
  · rename_i hm
    refine ⟨?_, by simp⟩
    rw [List.nodup_append]
    refine ⟨h, List.nodup_singleton _, ?_⟩
    intro a ha hb
    rw [List.mem_singleton] at hb
    exact hm (hb ▸ ha)

/-- In a table whose ids are distinct, an id that occurs has one row. -/
theorem countP_id (id : GoString) (db : store.ProviderConfigs)
    (hkey : (db.map (fun row => row.ProviderID)).Nodup)
    (hmem : id ∈ db.map (fun row => row.ProviderID)) :
    db.countP (fun row => decide (row.ProviderID = id)) = 1 := by
  induction db with
  | nil => simp at hmem
  | cons r rows ih =>
    rw [List.map_cons, List.nodup_cons] at hkey
    rw [List.map_cons, List.mem_cons] at hmem
    by_cases h : r.ProviderID = id
    · have hz : rows.countP (fun row => decide (row.ProviderID = id)) = 0 := by
        rw [List.countP_eq_zero]
        intro x hx hp
        exact hkey.1 (List.mem_map.mpr ⟨x, hx, by rw [h]; simpa using hp⟩)
      rw [List.countP_cons_of_pos _ _ (by simpa using h), hz]
    · have hm : id ∈ rows.map (fun row => row.ProviderID) := by
        rcases hmem with e | m
        · exact absurd e.symm h
        · exact m
      rw [List.countP_cons_of_neg _ _ (by simpa using h)]
      exact ih hkey.2 hm

/-- C24: on a table whose ids are distinct, as its primary key keeps them, saving a
configuration and reading its id gives a row with the saved API key, base URL, model and
protocol; saving again under the same id gives a row with the new values of these fields and
leaves one row with that id; reading an id that is neither in the table nor saved gives no row
and no error. -/
theorem provider_config_crud (now now2 : GoString) (cfg cfg2 : store.ProviderConfigRow)
    (db : store.ProviderConfigs) (hkey : (db.map (fun row => row.ProviderID)).Nodup)
    (hsame : cfg2.ProviderID = cfg.ProviderID) :
    (∃ row, store.GetProviderConfig cfg.ProviderID (store.SaveProviderConfig now cfg db)
        = .ok (some row) ∧
      row.APIKey = cfg.APIKey ∧ row.BaseURL = cfg.BaseURL ∧ row.Model = cfg.Model ∧
      row.Protocol = cfg.Protocol) ∧
    (∃ row, store.GetProviderConfig cfg.ProviderID
        (store.SaveProviderConfig now2 cfg2 (store.SaveProviderConfig now cfg db))
        = .ok (some row) ∧
      row.APIKey = cfg2.APIKey ∧ row.BaseURL = cfg2.BaseURL ∧ row.Model = cfg2.Model ∧
      row.Protocol = cfg2.Protocol) ∧
    (store.SaveProviderConfig now2 cfg2 (store.SaveProviderConfig now cfg db)).countP
        (fun row => decide (row.ProviderID = cfg.ProviderID)) = 1 ∧
    (∀ id, id ≠ cfg.ProviderID → id ∉ db.map (fun row => row.ProviderID) →
      store.GetProviderConfig id
          (store.SaveProviderConfig now2 cfg2 (store.SaveProviderConfig now cfg db))
        = .ok none) := by
  refine ⟨?_, ?_, ?_, ?_⟩
  · obtain ⟨row, h, _, h1, h2, h3, h4, _⟩ := save_get now cfg db
    exact ⟨row, by rw [get_eq, h], h1, h2, h3, h4⟩
  · obtain ⟨row, h, _, h1, h2, h3, h4, _⟩ :=
      save_get now2 cfg2 (store.SaveProviderConfig now cfg db)
    rw [hsame] at h
    exact ⟨row, by rw [get_eq, h], h1, h2, h3, h4⟩
  · obtain ⟨n1, _⟩ := save_nodup now cfg db hkey
    obtain ⟨n2, m2⟩ := save_nodup now2 cfg2 _ n1
    rw [hsame] at m2
    exact countP_id _ _ n2 m2
  · intro id hid hnot
    have hid2 : id ≠ cfg2.ProviderID := hsame ▸ hid
    rw [get_eq, save_other now2 cfg2 id hid2, save_other now cfg id hid]
    have : db.find? (fun row => decide (row.ProviderID = id)) = none := by
      rw [List.find?_eq_none]
      intro x hx hp
      exact hnot (List.mem_map.mpr ⟨x, hx, by simpa using hp⟩)
    rw [this]

/-- C24 on the steps of the test of the store, from the empty table: after the first save the
key `sk-test-key` is read back, after the second the key `sk-updated` and the protocol
`anthropic`, with one row in the table, and the id `nonexistent` gives no row. -/
theorem provider_config_crud_witness :
    store.GetProviderConfig (go "test-provider")
        (store.SaveProviderConfig (go "t1") testConfig [])
      = .ok (some { testConfig with UpdatedAt := go "t1" }) ∧
    store.GetProviderConfig (go "test-provider")
        (store.SaveProviderConfig (go "t2")
          { testConfig with APIKey := go "sk-updated", Protocol := go "anthropic" }
          (store.SaveProviderConfig (go "t1") testConfig []))
      = .ok (some { testConfig with APIKey := go "sk-updated", Protocol := go "anthropic",
                                    UpdatedAt := go "t2" }) ∧
    (store.SaveProviderConfig (go "t2")
        { testConfig with APIKey := go "sk-updated", Protocol := go "anthropic" }
        (store.SaveProviderConfig (go "t1") testConfig [])).countP
        (fun row => decide (row.ProviderID = testConfig.ProviderID)) = 1 ∧
    store.GetProviderConfig (go "nonexistent")
        (store.SaveProviderConfig (go "t2")
          { testConfig with APIKey := go "sk-updated", Protocol := go "anthropic" }
          (store.SaveProviderConfig (go "t1") testConfig []))
      = .ok none :=
  ⟨by rfl, by rfl,
   (provider_config_crud (go "t1") (go "t2") testConfig
      { testConfig with APIKey := go "sk-updated", Protocol := go "anthropic" } []
      (by decide) rfl).2.2.1,
   (provider_config_crud (go "t1") (go "t2") testConfig
      { testConfig with APIKey := go "sk-updated", Protocol := go "anthropic" } []
      (by decide) rfl).2.2.2 (go "nonexistent") (by decide) (by decide)⟩

/-! ### Previews, requests and history -/

set_option maxRecDepth 100000 in
/-- C25 as stated fails: for a reply of 101 bytes the chat check succeeds and its detail is 103
bytes long, the first 100 bytes of the reply and the marker `...`. -/
theorem preview_exceeds_100 :
    (checkChat decodeLong (serve 200 (go "reply")) 0 .OpenAIAdapter (go "http://h/v1") (go "k")
        (go "m") []).1.Status = StatusSuccess ∧
      (checkChat decodeLong (serve 200 (go "reply")) 0 .OpenAIAdapter (go "http://h/v1") (go "k")
        (go "m") []).1.Detail = List.replicate 100 97 ++ go "..." ∧
      (checkChat decodeLong (serve 200 (go "reply")) 0 .OpenAIAdapter (go "http://h/v1") (go "k")
        (go "m") []).1.Detail.length = 103 :=
  ⟨by decide, by decide, by decide⟩

/-- C25, amended: for every successful chat reply, the detail of the chat check is the first
100 bytes of the reply with its leading and trailing white space removed, followed by `...`
when the trimmed reply is longer than 100 bytes; it is at most 103 bytes long, and at most 100
when the trimmed reply is. -/
theorem preview_at_most_103 (js : Json) (tr : Transport) (latency : Int) (adapter : Adapter)
    (baseURL apiKey model : GoString) (log : List HttpRequest) (resp : ChatResponse)
    (h : (adapter.Chat js tr (chatProbe baseURL apiKey model) log).1 = .ok resp)
    (he : resp.Error = []) :
    (checkChat js tr latency adapter baseURL apiKey model log).1.Detail
        = (TrimSpace resp.Content).take 100 ++
            (if 100 < (TrimSpace resp.Content).length then go "..." else []) ∧
      (checkChat js tr latency adapter baseURL apiKey model log).1.Detail.length ≤ 103 ∧
      ((TrimSpace resp.Content).length ≤ 100 →
        (checkChat js tr latency adapter baseURL apiKey model log).1.Detail.length ≤ 100) := by
  have hd : (checkChat js tr latency adapter baseURL apiKey model log).1.Detail
      = checker.truncate resp.Content 100 := by
    simp only [chatProbe] at h
    simp [checkChat, h, he]
  have hdots : (go "...").length = 3 := by decide
  rw [hd]
  simp only [checker.truncate]
  by_cases hl : (TrimSpace resp.Content).length ≤ 100
  · rw [if_pos hl, if_neg (by omega), List.append_nil, List.take_of_length_le hl]
    exact ⟨rfl, by omega, fun _ => hl⟩
  · rw [if_neg hl, if_pos (by omega)]
    refine ⟨rfl, ?_, fun hle => absurd hle hl⟩
    rw [List.length_append, List.length_take, hdots]
    omega

/-- C25, amended, on a reply of two bytes: the detail is the reply. -/
theorem preview_at_most_103_witness :
    (checkChat (decodeOK false) (serve 200 (go "reply")) 0 .OpenAIAdapter (go "http://h/v1")
        (go "k") (go "m") []).1.Detail.length ≤ 100 :=
  (preview_at_most_103 (decodeOK false) (serve 200 (go "reply")) 0 .OpenAIAdapter
    (go "http://h/v1") (go "k") (go "m") [] { Content := go "OK", StatusCode := 200 } (by rfl)
    rfl).2.2 (by decide)

/-- A call of `Chat` adds to the log the request of the adapter for its argument. -/
theorem Chat_log_eq (adapter : Adapter) (js : Json) (tr : Transport) (req : ChatRequest)
    (log : List HttpRequest) :
    (adapter.Chat js tr req log).2 = log ++ [adapter.chatRequest req false] := by
  cases adapter <;> rfl

/-- C26: in `checkMultiTurn`, when the first call returns a response `resp1` with empty
`Error`, two requests are issued, and the second is the request of the adapter for three
messages: the first user prompt, an assistant message whose content is the content of `resp1`,
and the follow-up question of the user. When the first call has a transport error or a
non-empty `Error`, the first request is the only one issued. The OpenAI and Anthropic adapters
send these messages as they are, the Gemini adapter as its `contents`. -/
theorem checkMultiTurn_requests (js : Json) (tr : Transport) (latency : Int)
    (adapter : Adapter) (baseURL apiKey model : GoString) (log : List HttpRequest) :
    (∀ resp1, (adapter.Chat js tr (multiTurnFirst baseURL apiKey model) log).1 = .ok resp1 →
      resp1.Error = [] →
      (checkMultiTurn js tr latency adapter baseURL apiKey model log).2
          = log ++ [adapter.chatRequest (multiTurnFirst baseURL apiKey model) false,
                    adapter.chatRequest (multiTurnSecond baseURL apiKey model resp1.Content)
                      false] ∧
        (multiTurnSecond baseURL apiKey model resp1.Content).Messages
          = [{ Role := go "user", Content := go "Remember this number: 42. Just reply OK." },
             { Role := go "assistant", Content := resp1.Content },
             { Role := go "user", Content := go "What number did I ask you to remember?" }] ∧
        (multiTurnSecond baseURL apiKey model resp1.Content).Messages.take 1
          = (multiTurnFirst baseURL apiKey model).Messages) ∧
    (∀ err, (adapter.Chat js tr (multiTurnFirst baseURL apiKey model) log).1 = .error err →
      (checkMultiTurn js tr latency adapter baseURL apiKey model log).2
        = log ++ [adapter.chatRequest (multiTurnFirst baseURL apiKey model) false]) ∧
    (∀ resp1, (adapter.Chat js tr (multiTurnFirst baseURL apiKey model) log).1 = .ok resp1 →
      resp1.Error ≠ [] →
      (checkMultiTurn js tr latency adapter baseURL apiKey model log).2
        = log ++ [adapter.chatRequest (multiTurnFirst baseURL apiKey model) false]) ∧
    (∀ req : ChatRequest,
      (adapter.chatRequest req false).Body
        = match adapter with
          | .OpenAIAdapter => Payload.openai req.Model req.Messages none
          | .AnthropicAdapter => Payload.anthropic req.Model req.Messages 256 none
          | .GeminiAdapter => Payload.gemini (GeminiAdapter.contents req.Messages)) := by
  have h1 := Chat_log_eq adapter js tr (multiTurnFirst baseURL apiKey model) log
  refine ⟨?_, ?_, ?_, ?_⟩
  · intro resp1 h he
    have h2 := Chat_log_eq adapter js tr (multiTurnSecond baseURL apiKey model resp1.Content)
      (adapter.Chat js tr (multiTurnFirst baseURL apiKey model) log).2
    refine ⟨?_, rfl, rfl⟩
    have hlog : (checkMultiTurn js tr latency adapter baseURL apiKey model log).2
        = (adapter.Chat js tr (multiTurnSecond baseURL apiKey model resp1.Content)
            (adapter.Chat js tr (multiTurnFirst baseURL apiKey model) log).2).2 := by
      simp only [multiTurnFirst, multiTurnSecond] at h ⊢
      unfold checkMultiTurn
      simp only [h, he, ne_eq, not_true_eq_false, if_false]
      split
      · rfl
      · split <;> rfl
    rw [hlog, h2, h1]
    simp
  · intro err h
    rw [← h1]
    simp only [multiTurnFirst] at h ⊢
    simp [checkMultiTurn, h]
  · intro resp1 h he
    rw [← h1]
    simp only [multiTurnFirst] at h ⊢
    simp [checkMultiTurn, h, he]
  · intro req
    cases adapter <;>
      simp [Adapter.chatRequest, OpenAIAdapter.chatRequest, AnthropicAdapter.chatRequest,
        GeminiAdapter.chatRequest]

/-! ### The history status and the report bucket -/

/-- The loop of `saveHistory` gives `failed` when an entry is failed, otherwise `warning` when
an entry is a warning, otherwise the status it started from. -/
theorem status_loop (rs : List CheckResult) :
    ∀ status : GoString,
      saveHistory.status rs status
        = if rs.any (fun i => decide (i.Status = StatusFailed)) then StatusFailed
          else if rs.any (fun i => decide (i.Status = StatusWarning)) then StatusWarning
          else status := by
  have e1 : StatusFailed = go "failed" := rfl
  have e2 : StatusWarning = go "warning" := rfl
  have d1 := status_distinct.1
  induction rs with
  | nil => intro status; simp [saveHistory.status]
  | cons item rest ih =>
    intro status
    simp only [saveHistory.status, List.any_cons, ← e1, ← e2]
    by_cases hf : item.Status = StatusFailed
    · simp [hf]
    · by_cases hw : item.Status = StatusWarning
      · have hfd : decide (item.Status = StatusFailed) = false := by simp [hf]
        have hwd : decide (item.Status = StatusWarning) = true := by simp [hw]
        rw [if_neg hf, if_pos hw, ih]
        simp only [hfd, hwd, Bool.false_or, Bool.true_or, if_true]
        by_cases h1 : (rest.any fun i => decide (i.Status = StatusFailed)) = true
        · rw [if_pos h1, if_pos h1]
        · rw [if_neg h1, if_neg h1]
          split <;> rfl
      · have hfd : decide (item.Status = StatusFailed) = false := by simp [hf]
        have hwd : decide (item.Status = StatusWarning) = false := by simp [hw]
        rw [if_neg hf, if_neg hw, ih]
        simp only [hfd, hwd, Bool.false_or]

/-- The status `saveHistory` stores is the bucket of the result. -/
theorem saveHistory_bucket (m : Marshal) (r : FullCheckResult) :
    (saveHistory m r).Status = specBucket r := by
  simp only [saveHistory, specBucket, status_loop]
  rfl

/-- C27: the status `saveHistory` stores for a result is `failed`, `warning` or `success`, and
it is the bucket in which `GenerateReport` counts that result: one step of the loop of
`GenerateReport` adds one to the counter named by the stored status and nothing to the others,
and over a list of results each counter of the summary is the number of results stored with
that status. A result with no entries, and one whose entries are pending and running, are
stored as `success`. -/
theorem saveHistory_agrees_with_report (m : Marshal) (rs : List FullCheckResult)
    (r : FullCheckResult) :
    ((saveHistory m r).Status = go "failed" ∨ (saveHistory m r).Status = go "warning" ∨
        (saveHistory m r).Status = go "success") ∧
      (∀ s : ReportSummary,
        GenerateReport.result s r
          = { Total := s.Total
              Success := s.Success + (if (saveHistory m r).Status = go "success" then 1 else 0)
              Failed := s.Failed + (if (saveHistory m r).Status = go "failed" then 1 else 0)
              Warning := s.Warning +
                (if (saveHistory m r).Status = go "warning" then 1 else 0) }) ∧
      GenerateReport.summary rs
        = { Total := rs.length
            Success := rs.countP (fun x => decide ((saveHistory m x).Status = go "success"))
            Failed := rs.countP (fun x => decide ((saveHistory m x).Status = go "failed"))
            Warning := rs.countP (fun x => decide ((saveHistory m x).Status = go "warning")) } ∧
      (saveHistory m (resultOf [])).Status = go "success" ∧
      GenerateReport.result {} (resultOf []) = { Success := 1 } ∧
      (saveHistory m (resultOf [StatusPending, StatusRunning])).Status = go "success" ∧
      GenerateReport.result {} (resultOf [StatusPending, StatusRunning]) = { Success := 1 } ∧
      (saveHistory m (resultOf [StatusWarning, StatusFailed, StatusWarning])).Status
        = go "failed" ∧
      GenerateReport.result {} (resultOf [StatusWarning, StatusFailed, StatusWarning])
        = { Failed := 1 } := by
  have e1 : StatusFailed = go "failed" := rfl
  have e2 : StatusWarning = go "warning" := rfl
  have e3 : StatusSuccess = go "success" := rfl
  refine ⟨?_, ?_, ?_, by rfl, by decide, by rfl, by decide, by rfl, by decide⟩
  · rw [saveHistory_bucket, ← e1, ← e2, ← e3]
    unfold specBucket
    split
    · exact Or.inl rfl
    · split
      · exact Or.inr (Or.inl rfl)
      · exact Or.inr (Or.inr rfl)
  · intro s
    rw [saveHistory_bucket, ← e1, ← e2, ← e3]
    exact result_step s r
  · unfold GenerateReport.summary
    rw [result_foldl]
    simp only [saveHistory_bucket, ← e1, ← e2, ← e3]
    simp

/-! ### Statuses other than 200 -/

/-- C28: for each of the three adapters and every answer whose status `c` is not 200, codes
such as 201 and 204 included, `Chat` and `ChatStream` return (not as an error) the response
`httpFailure`, whose `Error` is `HTTP <c>`, whatever the decoders are, `ChatStream` leaves the
state of the callback as it was, and `ListModels` returns the error `HTTP <c>: <body>`. -/
theorem only_200_accepted (a : Adapter) (tr : Transport) (req : ChatRequest)
    (baseURL apiKey : GoString) (log : List HttpRequest) (c : Int) (body : Reader)
    (hc : c ≠ 200) :
    (tr log (a.chatRequest req false) = .ok ⟨c, body⟩ →
      ∀ js : Json, (a.Chat js tr req log).1 = .ok (httpFailure ⟨c, body⟩)) ∧
    (tr log (a.chatRequest req true) = .ok ⟨c, body⟩ →
      ∀ (js : Json) (σ : Type) (cb : Option (StreamCallback σ)) (s : σ),
        (a.ChatStream js tr req cb s log).1 = .ok (httpFailure ⟨c, body⟩) ∧
          (a.ChatStream js tr req cb s log).2.1 = s) ∧
    (tr log (a.modelsRequest baseURL apiKey) = .ok ⟨c, body⟩ →
      ∀ js : Json, (a.ListModels js tr baseURL apiKey log).1
        = .error (go "HTTP " ++ fmtInt c ++ go ": " ++ protocol.truncate (ReadAll body) 200)) ∧
    (httpFailure ⟨c, body⟩).Error = go "HTTP " ++ fmtInt c ∧
    (httpFailure ⟨c, body⟩).Content = [] ∧
    (httpFailure ⟨c, body⟩).StatusCode = c := by
  refine ⟨?_, ?_, ?_, rfl, rfl, rfl⟩
  · intro h js
    cases a <;>
      simp [Adapter.chatRequest] at h <;>
      simp [Adapter.Chat, OpenAIAdapter.Chat, AnthropicAdapter.Chat, GeminiAdapter.Chat, h, hc]
  · intro h js σ cb s
    cases a <;>
      simp [Adapter.chatRequest] at h <;>
      simp [Adapter.ChatStream, OpenAIAdapter.ChatStream, AnthropicAdapter.ChatStream,
        GeminiAdapter.ChatStream, h, hc]
  · intro h js
    cases a <;>
      simp [Adapter.modelsRequest] at h <;>
      simp [Adapter.ListModels, OpenAIAdapter.ListModels, AnthropicAdapter.ListModels,
        GeminiAdapter.ListModels, h, hc, listFailure]

/-! ### Instances -/

set_option maxRecDepth 100000 in
/-- C26 on two runs with the OpenAI adapter: when the first reply is `OK`, the log of
`checkMultiTurn` holds the first request and the request for the three messages with `OK` as
the assistant message; when the endpoint is unreachable, it holds the first request only. -/
theorem checkMultiTurn_requests_witness :
    (checkMultiTurn (decodeTurns (go "42")) twoTurns 0 .OpenAIAdapter (go "http://h/v1") (go "k")
        (go "m") []).2
      = [] ++ [Adapter.chatRequest .OpenAIAdapter
                (multiTurnFirst (go "http://h/v1") (go "k") (go "m")) false,
               Adapter.chatRequest .OpenAIAdapter
                (multiTurnSecond (go "http://h/v1") (go "k") (go "m") (go "OK")) false] ∧
    (checkMultiTurn rejectAll unreachable 0 .OpenAIAdapter (go "http://h/v1") (go "k")
        (go "m") []).2
      = [] ++ [Adapter.chatRequest .OpenAIAdapter
                (multiTurnFirst (go "http://h/v1") (go "k") (go "m")) false] :=
  ⟨((checkMultiTurn_requests (decodeTurns (go "42")) twoTurns 0 .OpenAIAdapter (go "http://h/v1")
      (go "k") (go "m") []).1 { Content := go "OK", StatusCode := 200 } (by rfl) rfl).1,
   (checkMultiTurn_requests rejectAll unreachable 0 .OpenAIAdapter (go "http://h/v1") (go "k")
      (go "m") []).2.1 (go "connection refused") (by rfl)⟩

set_option maxRecDepth 100000 in
/-- C28 on an answer 201 to `Chat` of the OpenAI adapter, whose decoders would read the reply
`OK` in every body, and an answer 204 to `ListModels` of the Gemini adapter. -/
theorem only_200_accepted_witness :
    (Adapter.Chat .OpenAIAdapter (decodeOK true) (serve 201 (go "created")) hello []).1
      = .ok (httpFailure ⟨201, ⟨[], go "created"⟩⟩) ∧
    (Adapter.ListModels .GeminiAdapter decodeSixModels (answer 204) (go "http://h/v1") (go "k")
        []).1
      = .error (go "HTTP " ++ fmtInt 204 ++ go ": " ++ protocol.truncate (ReadAll ⟨[], []⟩) 200) :=
  ⟨(only_200_accepted .OpenAIAdapter (serve 201 (go "created")) hello [] [] [] 201
      ⟨[], go "created"⟩ (by decide)).1 rfl (decodeOK true),
   (only_200_accepted .GeminiAdapter (answer 204) hello (go "http://h/v1") (go "k") [] 204
      ⟨[], []⟩ (by decide)).2.2.1 rfl decodeSixModels⟩

/-! ### A read error in the middle of a line -/

set_option maxRecDepth 100000 in
/-- C16 at a stream of two event lines whose second line is cut by the boundary between the
last two reads, the final read delivering the rest of the line together with the error: the
bytes received are the two whole lines, the payload of each is one the JSON decoder accepts, and
delivered in one read they give both deltas; delivered in the two reads they give, with status
200 and empty `Error`, the delta of the first line only, in each of the three decoders and in
`ChatStream`. -/
theorem delta_received_before_error_is_lost :
    (ReadAll (cutStream (go "data: " ++ chunkHello ++ go "\n")
          (go "data: " ++ chunkWorld ++ go "\n"))
        = go "data: " ++ chunkHello ++ go "\n" ++ (go "data: " ++ chunkWorld ++ go "\n") ∧
      decodeStream.openAIChunk chunkHello = .ok [go "Hello"] ∧
      decodeStream.openAIChunk chunkWorld = .ok [go " world"] ∧
      readSSE decodeStream
          ⟨[], go "data: " ++ chunkHello ++ go "\n" ++ (go "data: " ++ chunkWorld ++ go "\n")⟩
          (some record) []
        = ({ Content := go "Hello world", StatusCode := 200 },
           [(go "Hello", true), (go " world", false)]) ∧
      readSSE decodeStream
          (cutStream (go "data: " ++ chunkHello ++ go "\n") (go "data: " ++ chunkWorld ++ go "\n"))
          (some record) []
        = ({ Content := go "Hello", StatusCode := 200, Error := [] }, [(go "Hello", true)]) ∧
      (Adapter.ChatStream .OpenAIAdapter decodeStream
          (fun _ _ => .ok ⟨200, cutStream (go "data: " ++ chunkHello ++ go "\n")
            (go "data: " ++ chunkWorld ++ go "\n")⟩) hello (some record) [] []).1
        = .ok { Content := go "Hello", StatusCode := 200, Error := [] }) ∧
    (ReadAll (cutStream (go "data: " ++ eventHello ++ go "\n")
          (go "data: " ++ eventHello ++ go "\n"))
        = go "data: " ++ eventHello ++ go "\n" ++ (go "data: " ++ eventHello ++ go "\n") ∧
      readAnthropicSSE decodeStream
          ⟨[], go "data: " ++ eventHello ++ go "\n" ++ (go "data: " ++ eventHello ++ go "\n")⟩
          (some record) []
        = ({ Content := go "HelloHello", StatusCode := 200 },
           [(go "Hello", true), (go "Hello", false)]) ∧
      readAnthropicSSE decodeStream
          (cutStream (go "data: " ++ eventHello ++ go "\n") (go "data: " ++ eventHello ++ go "\n"))
          (some record) []
        = ({ Content := go "Hello", StatusCode := 200, Error := [] }, [(go "Hello", true)])) ∧
    (ReadAll (cutStream (go "data: " ++ geminiHello ++ go "\n")
          (go "data: " ++ geminiHello ++ go "\n"))
        = go "data: " ++ geminiHello ++ go "\n" ++ (go "data: " ++ geminiHello ++ go "\n") ∧
      readGeminiSSE decodeStream
          ⟨[], go "data: " ++ geminiHello ++ go "\n" ++ (go "data: " ++ geminiHello ++ go "\n")⟩
          (some record) []
        = ({ Content := go "Hello worldHello world", StatusCode := 200 },
           [(go "Hello", true), (go " world", false), (go "Hello", false),
            (go " world", false)]) ∧
      readGeminiSSE decodeStream
          (cutStream (go "data: " ++ geminiHello ++ go "\n")
            (go "data: " ++ geminiHello ++ go "\n"))
          (some record) []
        = ({ Content := go "Hello world", StatusCode := 200, Error := [] },
           [(go "Hello", true), (go " world", false)])) :=
  ⟨⟨by decide, by rfl, by rfl, by decide, by decide, by rfl⟩,
   ⟨by decide, by decide, by decide⟩,
   ⟨by decide, by decide, by decide⟩⟩

end PingAI
